import Mathlib

/-! # DataSubscriber (Gateway Exchange Protocol, subscriber side)

A shallow embedding of
`Source/OldCode/TimeSeriesFramework/Source/Libraries/TSFPlatformLibrary/Transport/DataSubscriber.cpp`.

Conventions of the embedding

* a byte (`uint8_t`, `char`) is a `Fin 256`; a `std::string` and a
  `std::vector<uint8_t>` are lists of bytes;
* a pointer into a buffer is the list of the bytes from that address on, so
  `p + k` is `p.drop k`; a byte past the end of the modelled memory reads as 0;
* `std::size_t` values are naturals reduced modulo `2^64`, `int32_t` and
  `int64_t` values are integers obtained from their two's-complement pattern;
* the queues are FIFO lists, `Enqueue` appends at the back;
* the member functions take the subscriber state and return the new state.
-/

namespace TimeSeriesFramework
namespace Transport

/-! ## Bytes, memory and integer conversions -/

/-- One octet: `uint8_t` and `char` of the source. -/
abbrev Byte := Fin 256

/-- A `std::string`: a sequence of `char`. -/
abbrev StdString := List Byte

/-- The bytes of an ASCII literal of the source. -/
def lit (s : String) : StdString :=
  s.toList.map (fun c => (⟨c.toNat % 256, Nat.mod_lt _ (by decide)⟩ : Byte))

/-- Reads `n` consecutive bytes starting at the address `p`. -/
def load : List Byte → Nat → List Byte
  | _, 0 => []
  | [], n + 1 => 0 :: load [] n
  | b :: p, n + 1 => b :: load p n

/-- The value of a byte sequence, most significant byte first. -/
def ofBigEndian (bs : List Byte) : Nat :=
  bs.foldl (fun acc b => acc * 256 + b.val) 0

/-- The value of a byte sequence, least significant byte first. -/
def ofLittleEndian : List Byte → Nat
  | [] => 0
  | b :: bs => b.val + 256 * ofLittleEndian bs

/-- The `w` low-order bytes of `v`, least significant byte first. -/
def littleEndianBytes : Nat → Nat → List Byte
  | 0, _ => []
  | w + 1, v => ⟨v % 256, Nat.mod_lt _ (by decide)⟩ :: littleEndianBytes w (v / 256)

/-- The `w` low-order bytes of `v`, most significant byte first. -/
def bigEndianBytes (w v : Nat) : List Byte :=
  (littleEndianBytes w v).reverse

/-- The `int32_t` whose two's-complement pattern is `n mod 2^32`. -/
def toInt32 (n : Nat) : Int :=
  if n % 2 ^ 32 < 2 ^ 31 then (n % 2 ^ 32 : Nat) else (n % 2 ^ 32 : Nat) - 2 ^ 32

/-- The `int64_t` whose two's-complement pattern is `n mod 2^64`. -/
def toInt64 (n : Nat) : Int :=
  if n % 2 ^ 64 < 2 ^ 63 then (n % 2 ^ 64 : Nat) else (n % 2 ^ 64 : Nat) - 2 ^ 64

/-- The cast `(std::size_t)x` of a signed integer. -/
def toSizeT (x : Int) : Nat :=
  (x % 2 ^ 64).toNat

/-! ### EndianConverter

`EndianConverter.h` is not part of the sources at hand. The subscriber only
ever uses a converted value through its bytes in memory (or converts a value
it has just read from memory), so the converter is modelled by what it
guarantees about those bytes. -/

/-- Modelled from the spec: `EndianConverter::ConvertBigEndian` applied to a
`uint16_t` read from memory at `p` ("every integer field in a response body
decodes as big-endian"). -/
def readBigEndianUInt16 (p : List Byte) : Nat :=
  ofBigEndian (load p 2)

/-- Modelled from the spec: `EndianConverter::ConvertBigEndian` applied to a
`uint32_t` read from memory at `p`. -/
def readBigEndianUInt32 (p : List Byte) : Nat :=
  ofBigEndian (load p 4)

/-- Modelled from the spec: `EndianConverter::ConvertBigEndian` applied to an
`int32_t` read from memory at `p`. -/
def readBigEndianInt32 (p : List Byte) : Int :=
  toInt32 (ofBigEndian (load p 4))

/-- Modelled from the spec: `EndianConverter::ConvertBigEndian` applied to an
`int64_t` read from memory at `p`. -/
def readBigEndianInt64 (p : List Byte) : Int :=
  toInt64 (ofBigEndian (load p 8))

/-- Modelled from the spec: `EndianConverter::ConvertLittleEndian` applied to
an `int32_t` read from memory at `p` ("the outer packetSize decodes as
little-endian"). -/
def readLittleEndianInt32 (p : List Byte) : Int :=
  toInt32 (ofLittleEndian (load p 4))

/-- Modelled from the spec: the four bytes in memory of
`ConvertBigEndian(v)` for a 32-bit `v`. -/
def bytesOfBigEndian32 (v : Nat) : List Byte :=
  bigEndianBytes 4 (v % 2 ^ 32)

/-- Modelled from the spec: the four bytes in memory of
`ConvertLittleEndian(v)` for a 32-bit `v`. -/
def bytesOfLittleEndian32 (v : Nat) : List Byte :=
  littleEndianBytes 4 (v % 2 ^ 32)

/-- The loop `for (i = 0; i < length; ++i) dst[base + i] = src[offset + i];`
entered with the loop counter at `i` and `n` iterations left. -/
def copyLoop (base : Nat) (src : List Byte) (offset : Nat) :
    Nat → Nat → List Byte → List Byte
  | 0, _, dst => dst
  | n + 1, i, dst =>
      copyLoop base src offset n (i + 1) (dst.set (base + i) (src.getD (offset + i) 0))

/-! ## Data model -/

/-- Modelled from the spec: the constants of `Constants.h` (absent from the
sources at hand) that the subscriber refers to by name. Their numeric values
are a parameter of the model. -/
structure Constants where
  /-- The command code ServerCommand::Authenticate. -/
  Authenticate : Byte
  /-- The command code ServerCommand::MetadataRefresh. -/
  MetadataRefresh : Byte
  /-- The command code ServerCommand::Subscribe. -/
  Subscribe : Byte
  /-- The command code ServerCommand::Unsubscribe. -/
  Unsubscribe : Byte
  /-- The command code ServerCommand::RotateCipherKeys. -/
  RotateCipherKeys : Byte
  /-- The command code ServerCommand::DefineOperationalModes. -/
  DefineOperationalModes : Byte
  /-- The response code ServerResponse::Succeeded. -/
  Succeeded : Byte
  /-- The response code ServerResponse::Failed. -/
  Failed : Byte
  /-- The response code ServerResponse::DataPacket. -/
  DataPacket : Byte
  /-- The response code ServerResponse::DataStartTime. -/
  DataStartTime : Byte
  /-- The response code ServerResponse::ProcessingComplete. -/
  ProcessingComplete : Byte
  /-- The response code ServerResponse::UpdateSignalIndexCache. -/
  UpdateSignalIndexCache : Byte
  /-- The response code ServerResponse::UpdateBaseTimes. -/
  UpdateBaseTimes : Byte
  /-- The flag DataPacketFlags::Synchronized. -/
  Synchronized : Byte
  /-- The mask OperationalModes::NoFlags. -/
  NoFlags : Nat
  /-- The mask OperationalModes::UseCommonSerializationFormat. -/
  UseCommonSerializationFormat : Nat
  /-- The mask OperationalModes::CompressMetadata. -/
  CompressMetadata : Nat
  /-- The mask OperationalEncoding::UTF8. -/
  UTF8 : Nat
  deriving DecidableEq, Repr

/-- The labels of one `switch` of the source are pairwise distinct constants
(the language rejects a duplicate `case`), `NoFlags` is the empty mask and the
operational-mode masks are 32-bit values. -/
def Constants.WellFormed (K : Constants) : Prop :=
  [K.MetadataRefresh, K.Subscribe, K.Unsubscribe, K.Authenticate, K.RotateCipherKeys].Nodup ∧
  [K.Succeeded, K.Failed, K.DataPacket, K.DataStartTime, K.ProcessingComplete,
    K.UpdateSignalIndexCache, K.UpdateBaseTimes].Nodup ∧
  K.NoFlags = 0 ∧ K.UseCommonSerializationFormat < 2 ^ 32 ∧
  K.CompressMetadata < 2 ^ 32 ∧ K.UTF8 < 2 ^ 32

instance (K : Constants) : Decidable K.WellFormed :=
  inferInstanceAs (Decidable (_ ∧ _))

/-- A 16-byte globally unique identifier, bytes in wire order. -/
abbrev Guid := List Byte

/-- A `float64_t`, kept as its 64-bit pattern; floating-point arithmetic and
formatting are outside the model. -/
structure Float64 where
  /-- The IEEE-754 bit pattern. -/
  bits : Nat
  deriving DecidableEq, Repr

/-- Modelled from the spec: the record `SubscriptionInfo` of `DataSubscriber.h`
(absent from the sources at hand), with the members `Subscribe` reads. -/
structure SubscriptionInfo where
  /-- Member FilterExpression. -/
  FilterExpression : StdString
  /-- Member Throttled. -/
  Throttled : Bool
  /-- Member UdpDataChannel. -/
  UdpDataChannel : Bool
  /-- Member DataChannelLocalPort. -/
  DataChannelLocalPort : Nat
  /-- Member DataChannelInterface. -/
  DataChannelInterface : StdString
  /-- Member IncludeTime. -/
  IncludeTime : Bool
  /-- Member LagTime. -/
  LagTime : Float64
  /-- Member LeadTime. -/
  LeadTime : Float64
  /-- Member UseLocalClockAsRealTime. -/
  UseLocalClockAsRealTime : Bool
  /-- Member UseMillisecondResolution. -/
  UseMillisecondResolution : Bool
  /-- Member StartTime. -/
  StartTime : StdString
  /-- Member StopTime. -/
  StopTime : StdString
  /-- Member ConstraintParameters. -/
  ConstraintParameters : StdString
  /-- Member ProcessingInterval. -/
  ProcessingInterval : Int
  /-- Member WaitHandleNames. -/
  WaitHandleNames : StdString
  /-- Member WaitHandleTimeout. -/
  WaitHandleTimeout : Nat
  /-- Member ExtraConnectionStringParameters. -/
  ExtraConnectionStringParameters : StdString
  deriving DecidableEq, Repr

/-- One entry of the signal-index cache. -/
structure SignalIndexEntry where
  /-- The 16-bit runtime signal index. -/
  signalIndex : Nat
  /-- The signal GUID. -/
  signalID : Guid
  /-- The source string. -/
  source : StdString
  /-- The numeric id. -/
  id : Nat
  deriving DecidableEq, Repr

/-- Modelled from the spec: the class `SignalIndexCache` (its sources are
absent), "in-memory map from 16-bit runtime signal index to (signal GUID,
source string, numeric id)". The entries are kept in insertion order. -/
structure SignalIndexCache where
  /-- The keys added since the last `Clear`, oldest first. -/
  entries : List SignalIndexEntry
  deriving DecidableEq, Repr

/-- Modelled from the spec: `SignalIndexCache::Clear`. -/
def SignalIndexCache.Clear (_c : SignalIndexCache) : SignalIndexCache :=
  ⟨[]⟩

/-- Modelled from the spec: `SignalIndexCache::AddMeasurementKey`, which
records the key under the signal index (a later key for the same index
replaces the earlier one in lookups). -/
def SignalIndexCache.AddMeasurementKey (c : SignalIndexCache) (signalIndex : Nat)
    (signalID : Guid) (source : StdString) (id : Nat) : SignalIndexCache :=
  ⟨c.entries ++ [⟨signalIndex, signalID, source, id⟩]⟩

/-- Modelled from the spec: what a signal index resolves to, the triple
`(signal GUID, source string, numeric id)` last added for it. -/
def SignalIndexCache.resolve (c : SignalIndexCache) (signalIndex : Nat) :
    Option (Guid × StdString × Nat) :=
  (c.entries.reverse.find? (fun e => e.signalIndex == signalIndex)).map
    (fun e => (e.signalID, e.source, e.id))

/-- A `CommandPacket`: the raw bytes of one framed command. -/
abbrev CommandPacket := List Byte

/-- The static dispatcher functions that can be put on the callback queue. -/
inductive DispatcherFunction where
  | StatusMessageDispatcher
  | ErrorMessageDispatcher
  | DataStartTimeDispatcher
  | MetadataDispatcher
  | NewMeasurementsDispatcher
  | ProcessingCompleteDispatcher
  deriving DecidableEq, Repr

/-- A `CallbackDispatcher`: the function to run and the payload it owns (the
`Source` member is always the subscriber itself). -/
structure CallbackDispatcher where
  /-- Member Function. -/
  Function : DispatcherFunction
  /-- Member Data. -/
  Data : List Byte
  deriving DecidableEq, Repr

/-- The members of `DataSubscriber` the modelled functions read or write. A
callback slot holds `true` when a callback is registered (non-null); a socket
or a thread is represented by whether it is open or running. -/
structure DataSubscriber where
  /-- Member m_signalIndexCache. -/
  m_signalIndexCache : SignalIndexCache
  /-- Member m_baseTimeOffsets, an `int64_t[2]`. -/
  m_baseTimeOffsets : Int × Int
  /-- Member m_timeIndex, a `std::size_t`. -/
  m_timeIndex : Nat
  /-- Member m_currentSubscription. -/
  m_currentSubscription : SubscriptionInfo
  /-- Member m_totalCommandChannelBytesReceived. -/
  m_totalCommandChannelBytesReceived : Int
  /-- Member m_totalDataChannelBytesReceived. -/
  m_totalDataChannelBytesReceived : Int
  /-- Member m_totalMeasurementsReceived. -/
  m_totalMeasurementsReceived : Int
  /-- Member m_connected. -/
  m_connected : Bool
  /-- Member m_subscribed. -/
  m_subscribed : Bool
  /-- Member m_disconnecting. -/
  m_disconnecting : Bool
  /-- Member m_compressMetadata. -/
  m_compressMetadata : Bool
  /-- Member m_commandQueue, front of the queue first. -/
  m_commandQueue : List CommandPacket
  /-- Member m_callbackQueue, front of the queue first. -/
  m_callbackQueue : List CallbackDispatcher
  /-- Whether m_commandChannelSocket is open. -/
  m_commandChannelSocket : Bool
  /-- Whether m_dataChannelSocket is open. -/
  m_dataChannelSocket : Bool
  /-- Whether m_commandThread is running. -/
  m_commandThread : Bool
  /-- Whether m_callbackThread is running. -/
  m_callbackThread : Bool
  /-- Whether m_commandChannelResponseThread is running. -/
  m_commandChannelResponseThread : Bool
  /-- Whether m_dataChannelResponseThread is running. -/
  m_dataChannelResponseThread : Bool
  /-- Whether m_statusMessageCallback is registered. -/
  m_statusMessageCallback : Bool
  /-- Whether m_errorMessageCallback is registered. -/
  m_errorMessageCallback : Bool
  /-- Whether m_dataStartTimeCallback is registered. -/
  m_dataStartTimeCallback : Bool
  /-- Whether m_metadataCallback is registered. -/
  m_metadataCallback : Bool
  /-- Whether m_newMeasurementsCallback is registered. -/
  m_newMeasurementsCallback : Bool
  /-- Whether m_processingCompleteCallback is registered. -/
  m_processingCompleteCallback : Bool
  /-- Whether m_connectionTerminatedCallback is registered. -/
  m_connectionTerminatedCallback : Bool
  deriving DecidableEq, Repr

/-! ## Sending commands -/

/-- The packet `SendServerCommand` assembles before it enqueues it; the
argument `data` is `none` for a null pointer. -/
def buildCommandPacket (commandCode : Byte) (data : Option (List Byte)) (offset length : Nat) :
    CommandPacket :=
  let packetSize := (1 + length) % 2 ^ 64
  let littleEndianPacketSizePtr := bytesOfLittleEndian32 packetSize
  let packet : CommandPacket := List.replicate ((8 + packetSize) % 2 ^ 64) 0
  -- Insert payload marker
  let packet := packet.set 0 0xAA
  let packet := packet.set 1 0xBB
  let packet := packet.set 2 0xCC
  let packet := packet.set 3 0xDD
  -- Insert packet size
  let packet := packet.set 4 (littleEndianPacketSizePtr.getD 0 0)
  let packet := packet.set 5 (littleEndianPacketSizePtr.getD 1 0)
  let packet := packet.set 6 (littleEndianPacketSizePtr.getD 2 0)
  let packet := packet.set 7 (littleEndianPacketSizePtr.getD 3 0)
  -- Insert command code
  let packet := packet.set 8 commandCode
  match data with
  | some d => copyLoop 9 d offset length 0 packet
  | none => packet

/-- `DataSubscriber::SendServerCommand(commandCode, data, offset, length)`. -/
def SendServerCommand (s : DataSubscriber) (commandCode : Byte) (data : Option (List Byte))
    (offset length : Nat) : DataSubscriber :=
  { s with m_commandQueue := s.m_commandQueue ++ [buildCommandPacket commandCode data offset length] }

/-- `DataSubscriber::SendServerCommand(commandCode)`. -/
def SendServerCommand0 (s : DataSubscriber) (commandCode : Byte) : DataSubscriber :=
  SendServerCommand s commandCode none 0 0

/-- Unframing, first step: the little-endian `int32` at offsets 4..7 of a
frame, read as `packetSize`. -/
def unframePacketSize (frame : List Byte) : Int :=
  readLittleEndianInt32 (frame.drop 4)

/-- Unframing, second step: the `packetSize` payload bytes from offset 8. -/
def unframePayload (frame : List Byte) : List Byte :=
  (frame.drop 8).take (unframePacketSize frame).toNat

/-- `DataSubscriber::SendOperationalModes()`. -/
def SendOperationalModes (K : Constants) (s : DataSubscriber) : DataSubscriber :=
  let operationalModes := K.NoFlags % 2 ^ 32
  let operationalModes := (operationalModes ||| K.UTF8) % 2 ^ 32
  let operationalModes := (operationalModes ||| K.UseCommonSerializationFormat) % 2 ^ 32
  let operationalModes :=
    if s.m_compressMetadata then (operationalModes ||| K.CompressMetadata) % 2 ^ 32
    else operationalModes
  let bigEndianOperationalModes := bytesOfBigEndian32 operationalModes
  SendServerCommand s K.DefineOperationalModes (some bigEndianOperationalModes) 0 4

/-- `DataSubscriber::IsMetadataCompressed()`. -/
def IsMetadataCompressed (s : DataSubscriber) : Bool :=
  s.m_compressMetadata

/-- `DataSubscriber::SetMetadataCompressed(compressed)`. -/
def SetMetadataCompressed (K : Constants) (s : DataSubscriber) (compressed : Bool) :
    DataSubscriber :=
  let s := { s with m_compressMetadata := compressed }
  if s.m_commandChannelSocket then SendOperationalModes K s else s

/-- `DataSubscriber::Unsubscribe()`: pauses and joins the data-channel
thread, closes the data-channel socket, then sends the command. -/
def Unsubscribe (K : Constants) (s : DataSubscriber) : DataSubscriber :=
  let s := { s with m_disconnecting := true }
  let s := { s with m_dataChannelSocket := false }
  let s := { s with m_dataChannelResponseThread := false }
  let s := { s with m_disconnecting := false }
  SendServerCommand0 s K.Unsubscribe

/-! ## Subscribe -/

/-- What lies outside the subscriber and decides how `Subscribe` runs: how
the stream prints a `float64_t`, and whether opening and binding the UDP
socket succeed. -/
structure Platform where
  /-- The text `stream << x` writes for a `float64_t`. -/
  formatFloat64 : Float64 → StdString
  /-- Whether `m_dataChannelSocket.open` succeeds on a closed socket. -/
  dataChannelOpens : Bool
  /-- Whether `m_dataChannelSocket.bind` succeeds. -/
  dataChannelBinds : Bool

/-- What `stream << b` writes for a `bool` (no `boolalpha`). -/
def formatBool (b : Bool) : StdString :=
  if b then lit "1" else lit "0"

/-- What `stream << n` writes for an unsigned integer: decimal digits. -/
def formatNat (n : Nat) : StdString :=
  (Nat.toDigits 10 n).map (fun c => (⟨c.toNat % 256, Nat.mod_lt _ (by decide)⟩ : Byte))

/-- What `stream << n` writes for a signed integer. -/
def formatInt (n : Int) : StdString :=
  if n < 0 then lit "-" ++ formatNat n.natAbs else formatNat n.natAbs

/-- Lines 758 to 768 of `Subscribe`: the seven pairs that are always written
and the filter expression. -/
def subscribeStreamHead (P : Platform) (info : SubscriptionInfo) : StdString :=
  let stringStream : StdString := []
  let stringStream := stringStream ++ lit "trackLatestMeasurements=" ++ formatBool info.Throttled ++ lit ";"
  let stringStream := stringStream ++ lit "includeTime=" ++ formatBool info.IncludeTime ++ lit ";"
  let stringStream := stringStream ++ lit "lagTime=" ++ P.formatFloat64 info.LagTime ++ lit ";"
  let stringStream := stringStream ++ lit "leadTime=" ++ P.formatFloat64 info.LeadTime ++ lit ";"
  let stringStream := stringStream ++ lit "useLocalClockAsRealTime="
    ++ formatBool info.UseLocalClockAsRealTime ++ lit ";"
  let stringStream := stringStream ++ lit "processingInterval="
    ++ formatInt info.ProcessingInterval ++ lit ";"
  let stringStream := stringStream ++ lit "useMillisecondResolution="
    ++ formatBool info.UseMillisecondResolution ++ lit ";"
  if !info.FilterExpression.isEmpty then
    stringStream ++ lit "inputMeasurementKeys=\x7b" ++ info.FilterExpression ++ lit "\x7d;"
  else stringStream

/-- Lines 783 to 788 of `Subscribe`: the `dataChannel` setting written once
the UDP socket is bound. -/
def subscribeStreamDataChannel (info : SubscriptionInfo) (stringStream : StdString) : StdString :=
  let stringStream := stringStream ++ lit "dataChannel=\x7b"
  let stringStream :=
    if !info.DataChannelInterface.isEmpty then
      stringStream ++ lit "interface=" ++ info.DataChannelInterface ++ lit ";"
    else stringStream
  stringStream ++ lit "localport=" ++ formatNat info.DataChannelLocalPort ++ lit "\x7d;"

/-- Lines 791 to 807 of `Subscribe`: the temporal constraints, the wait
handles and the extra parameters. -/
def subscribeStreamTail (info : SubscriptionInfo) (stringStream : StdString) : StdString :=
  let stringStream :=
    if !info.StartTime.isEmpty then
      stringStream ++ lit "startTimeConstraint=" ++ info.StartTime ++ lit ";"
    else stringStream
  let stringStream :=
    if !info.StopTime.isEmpty then
      stringStream ++ lit "stopTimeConstraint=" ++ info.StopTime ++ lit ";"
    else stringStream
  let stringStream :=
    if !info.ConstraintParameters.isEmpty then
      stringStream ++ lit "timeConstraintParameters=" ++ info.ConstraintParameters ++ lit ";"
    else stringStream
  let stringStream :=
    if !info.WaitHandleNames.isEmpty then
      let stringStream := stringStream ++ lit "waitHandleNames=" ++ info.WaitHandleNames ++ lit ";"
      stringStream ++ lit "waitHandleTimeout=" ++ formatNat info.WaitHandleTimeout ++ lit ";"
    else stringStream
  if !info.ExtraConnectionStringParameters.isEmpty then
    stringStream ++ info.ExtraConnectionStringParameters ++ lit ";"
  else stringStream

/-- Lines 809 to 825 of `Subscribe`: the buffer made of the byte 0x02, the
big-endian size of the connection string and the connection string. The
buffer is the storage reserved for `bufferSize` bytes. -/
def subscribeBuffer (connectionString : StdString) : List Byte :=
  let connectionStringPtr := connectionString
  let connectionStringSize := (connectionString.length * 1) % 2 ^ 32
  let bigEndianConnectionStringSizePtr := bytesOfBigEndian32 connectionStringSize
  let bufferSize := 5 + connectionStringSize
  let buffer : List Byte := List.replicate bufferSize 0
  let buffer := buffer.set 0 0x02
  let buffer := buffer.set 1 (bigEndianConnectionStringSizePtr.getD 0 0)
  let buffer := buffer.set 2 (bigEndianConnectionStringSizePtr.getD 1 0)
  let buffer := buffer.set 3 (bigEndianConnectionStringSizePtr.getD 2 0)
  let buffer := buffer.set 4 (bigEndianConnectionStringSizePtr.getD 3 0)
  copyLoop 5 connectionStringPtr 0 connectionStringSize 0 buffer

/-- Line 827 of `Subscribe`: the command that carries the buffer. -/
def subscribeSend (K : Constants) (s : DataSubscriber) (connectionString : StdString) :
    DataSubscriber :=
  let connectionStringSize := (connectionString.length * 1) % 2 ^ 32
  let bufferSize := 5 + connectionStringSize
  SendServerCommand s K.Subscribe (some (subscribeBuffer connectionString)) 0 bufferSize

/-- `DataSubscriber::Subscribe(info)`: the state afterwards, and the message
of the exception when the call throws (`none` when it returns). -/
def Subscribe (K : Constants) (P : Platform) (s : DataSubscriber) (info : SubscriptionInfo) :
    DataSubscriber × Option StdString :=
  -- Make sure to unsubscribe before attempting another subscription
  let s := if s.m_subscribed then Unsubscribe K s else s
  let s := { s with m_currentSubscription := info, m_totalMeasurementsReceived := 0 }
  let stringStream := subscribeStreamHead P info
  if info.UdpDataChannel then
    -- Attempt to bind to local UDP port
    if s.m_dataChannelSocket || !P.dataChannelOpens then
      (s, some (lit "open"))
    else
      let s := { s with m_dataChannelSocket := true }
      if !P.dataChannelBinds then
        (s, some (lit "bind"))
      else
        let s := { s with m_dataChannelResponseThread := true }
        if !s.m_dataChannelSocket then
          (s, some (lit "Failed to bind to local port"))
        else
          let stringStream := subscribeStreamDataChannel info stringStream
          (subscribeSend K s (subscribeStreamTail info stringStream), none)
  else
    (subscribeSend K s (subscribeStreamTail info stringStream), none)

/-- The value of the local `connectionString` of `Subscribe` when the call
reaches line 809. -/
def connectionString (P : Platform) (info : SubscriptionInfo) : StdString :=
  let stringStream := subscribeStreamHead P info
  let stringStream :=
    if info.UdpDataChannel then subscribeStreamDataChannel info stringStream else stringStream
  subscribeStreamTail info stringStream

/-- The frame `Subscribe` enqueues for a subscription on a platform. -/
def subscribeFrame (K : Constants) (P : Platform) (info : SubscriptionInfo) : CommandPacket :=
  buildCommandPacket K.Subscribe (some (subscribeBuffer (connectionString P info))) 0
    (5 + ((connectionString P info).length * 1) % 2 ^ 32)

/-- The frame `Unsubscribe` enqueues. -/
def unsubscribeFrame (K : Constants) : CommandPacket :=
  buildCommandPacket K.Unsubscribe none 0 0

/-- `DataSubscriber::GetCurrentSubscription()`. -/
def GetCurrentSubscription (s : DataSubscriber) : SubscriptionInfo :=
  s.m_currentSubscription

/-- `DataSubscriber::GetTotalMeasurementsReceived()`. -/
def GetTotalMeasurementsReceived (s : DataSubscriber) : Int :=
  s.m_totalMeasurementsReceived

/-- `DataSubscriber::IsSubscribed()`. -/
def IsSubscribed (s : DataSubscriber) : Bool :=
  s.m_subscribed

/-- `DataSubscriber::IsConnected()`. -/
def IsConnected (s : DataSubscriber) : Bool :=
  s.m_connected

/-! ### The connection string, as the protocol describes it -/

/-- One `key=value;` pair. -/
def keyValue (key : String) (value : StdString) : StdString :=
  lit key ++ lit "=" ++ value ++ lit ";"

/-- The pair for `key`, present if and only if `value` is not empty. -/
def optionalKeyValue (key : String) (value : StdString) : StdString :=
  if value = [] then [] else keyValue key value

/-- The reference concatenation for a subscription without a UDP data
channel: the seven pairs that are always present, then
`inputMeasurementKeys={F};` iff the filter expression is not empty, then the
three time constraints each iff not empty, then the two wait-handle pairs iff
the names are not empty, then the extra parameters followed by `;` iff not
empty. -/
def referenceConnectionString (P : Platform) (info : SubscriptionInfo) : StdString :=
  keyValue "trackLatestMeasurements" (formatBool info.Throttled)
    ++ keyValue "includeTime" (formatBool info.IncludeTime)
    ++ keyValue "lagTime" (P.formatFloat64 info.LagTime)
    ++ keyValue "leadTime" (P.formatFloat64 info.LeadTime)
    ++ keyValue "useLocalClockAsRealTime" (formatBool info.UseLocalClockAsRealTime)
    ++ keyValue "processingInterval" (formatInt info.ProcessingInterval)
    ++ keyValue "useMillisecondResolution" (formatBool info.UseMillisecondResolution)
    ++ (if info.FilterExpression = [] then []
        else lit "inputMeasurementKeys=\x7b" ++ info.FilterExpression ++ lit "\x7d;")
    ++ optionalKeyValue "startTimeConstraint" info.StartTime
    ++ optionalKeyValue "stopTimeConstraint" info.StopTime
    ++ optionalKeyValue "timeConstraintParameters" info.ConstraintParameters
    ++ (if info.WaitHandleNames = [] then []
        else keyValue "waitHandleNames" info.WaitHandleNames
          ++ keyValue "waitHandleTimeout" (formatNat info.WaitHandleTimeout))
    ++ (if info.ExtraConnectionStringParameters = [] then []
        else info.ExtraConnectionStringParameters ++ lit ";")

/-! ## The callback queue -/

/-- `DataSubscriber::Dispatch(function, data, offset, length)`; the argument
`data` is `none` for a null pointer. -/
def Dispatch (s : DataSubscriber) (function : DispatcherFunction) (data : Option (List Byte))
    (offset length : Nat) : DataSubscriber :=
  let dataVector : List Byte := List.replicate length 0
  let dataVector :=
    match data with
    | some d => copyLoop 0 d offset length 0 dataVector
    | none => dataVector
  { s with m_callbackQueue := s.m_callbackQueue ++ [⟨function, dataVector⟩] }

/-- `DataSubscriber::DispatchStatusMessage(message)`. -/
def DispatchStatusMessage (s : DataSubscriber) (message : StdString) : DataSubscriber :=
  let messageSize := message.length * 1
  Dispatch s .StatusMessageDispatcher (some message) 0 messageSize

/-- `DataSubscriber::DispatchErrorMessage(message)`. -/
def DispatchErrorMessage (s : DataSubscriber) (message : StdString) : DataSubscriber :=
  let messageSize := message.length * 1
  Dispatch s .ErrorMessageDispatcher (some message) 0 messageSize

/-! ## The response router -/

/-- One lowercase hexadecimal digit. -/
def hexDigit (d : Nat) : Byte :=
  if d < 10 then ⟨(48 + d) % 256, Nat.mod_lt _ (by decide)⟩
  else ⟨(87 + d) % 256, Nat.mod_lt _ (by decide)⟩

/-- What `stream << std::hex << (int)code` writes for a `uint8_t` code:
lowercase hexadecimal, no leading zero. -/
def hexOfByte (code : Byte) : StdString :=
  if code.val < 16 then [hexDigit code.val]
  else [hexDigit (code.val / 16), hexDigit (code.val % 16)]

/-- `DataSubscriber::HandleMetadataRefresh(data, offset, length)`. -/
def HandleMetadataRefresh (s : DataSubscriber) (data : List Byte) (offset length : Nat) :
    DataSubscriber :=
  Dispatch s .MetadataDispatcher (some data) offset length

/-- `DataSubscriber::HandleDataPacket(data, offset, length)`. -/
def HandleDataPacket (s : DataSubscriber) (data : List Byte) (offset length : Nat) :
    DataSubscriber :=
  Dispatch s .NewMeasurementsDispatcher (some data) offset length

/-- `DataSubscriber::HandleDataStartTime(data, offset, length)`. -/
def HandleDataStartTime (s : DataSubscriber) (data : List Byte) (offset length : Nat) :
    DataSubscriber :=
  Dispatch s .DataStartTimeDispatcher (some data) offset length

/-- `DataSubscriber::HandleProcessingComplete(data, offset, length)`. -/
def HandleProcessingComplete (s : DataSubscriber) (data : List Byte) (offset length : Nat) :
    DataSubscriber :=
  Dispatch s .ProcessingCompleteDispatcher (some data) offset length

/-- The text `HandleSucceeded` streams for a known command: the fixed lead,
the command code in hexadecimal, and the `messageLength` characters of the
body, for a `messageLength` with which `messageStart + messageLength` does not
wrap. -/
def succeededMessage (commandCode : Byte) (data : List Byte) (offset messageLength : Nat) :
    StdString :=
  lit "Received success code in response to server command 0x" ++ hexOfByte commandCode
    ++ lit ": " ++ load (data.drop offset) messageLength

/-- `DataSubscriber::HandleSucceeded(commandCode, data, offset, length)`. The
`switch` is tried label by label; `Subscribe` and `Unsubscribe` fall through to
the message of `Authenticate` and `RotateCipherKeys`. -/
def HandleSucceeded (K : Constants) (s : DataSubscriber) (commandCode : Byte) (data : List Byte)
    (offset length : Nat) : DataSubscriber :=
  let messageLength := length / 1
  if commandCode = K.MetadataRefresh then
    -- Metadata refresh message is not sent with a message, but rather the metadata itself.
    HandleMetadataRefresh s data offset length
  else if commandCode = K.Subscribe ∨ commandCode = K.Unsubscribe then
    -- Do not break on these messages: there is still an associated message.
    let s := { s with m_subscribed := decide (commandCode = K.Subscribe) }
    DispatchStatusMessage s (succeededMessage commandCode data offset messageLength)
  else if commandCode = K.Authenticate ∨ commandCode = K.RotateCipherKeys then
    DispatchStatusMessage s (succeededMessage commandCode data offset messageLength)
  else
    DispatchErrorMessage s
      (lit "Received success code in response to unknown server command 0x"
        ++ hexOfByte commandCode)

/-- `DataSubscriber::HandleFailed(commandCode, data, offset, length)`. -/
def HandleFailed (s : DataSubscriber) (commandCode : Byte) (data : List Byte)
    (offset length : Nat) : DataSubscriber :=
  let messageLength := length / 1
  DispatchErrorMessage s
    (lit "Received failure code from server command 0x" ++ hexOfByte commandCode
      ++ lit ": " ++ load (data.drop offset) messageLength)

/-! ## Response handlers that update the subscriber state -/

/-- The free function `ToGuid`: copies 16 contiguous bytes into a `Guid`. -/
def ToGuid (data : List Byte) : Guid :=
  load data 16

/-- The `for` loop of `HandleUpdateSignalIndexCache`, with `n` iterations left
and `signalIndexPtr` at the next entry. -/
def signalIndexCacheLoop : Nat → List Byte → SignalIndexCache → SignalIndexCache
  | 0, _, cache => cache
  | n + 1, signalIndexPtr, cache =>
      -- Begin setting up pointers
      let signalIDPtr := signalIndexPtr.drop 2
      let sourceSizePtr := signalIDPtr.drop 16
      -- Get the source size now so we can use it to find the ID
      let sourceSize := toSizeT (readBigEndianInt32 sourceSizePtr) / 1
      -- Continue setting up pointers
      let sourcePtr := sourceSizePtr.drop 4
      let idPtr := sourcePtr.drop sourceSize
      -- Build string from binary data
      let source : StdString := load sourcePtr sourceSize
      -- Set values for measurement key
      let signalIndex := readBigEndianUInt16 signalIndexPtr
      let signalID := ToGuid signalIDPtr
      let id := readBigEndianUInt32 idPtr
      -- Add measurement key to the cache, advance to the next signal index
      signalIndexCacheLoop n (idPtr.drop 4)
        (cache.AddMeasurementKey signalIndex signalID source id)

/-- `DataSubscriber::HandleUpdateSignalIndexCache(data, offset, length)`. -/
def HandleUpdateSignalIndexCache (s : DataSubscriber) (data : List Byte) (offset _length : Nat) :
    DataSubscriber :=
  -- Begin by emptying the cache
  let cache := s.m_signalIndexCache.Clear
  -- Skip 4-byte length and 16-byte subscriber ID
  let referenceCountPtr := data.drop (offset + 20)
  let referenceCount := readBigEndianInt32 referenceCountPtr
  -- Set up signalIndexPtr before entering the loop
  let signalIndexPtr := referenceCountPtr.drop 4
  { s with m_signalIndexCache := signalIndexCacheLoop referenceCount.toNat signalIndexPtr cache }

/-- `DataSubscriber::HandleUpdateBaseTimes(data, offset, length)`. -/
def HandleUpdateBaseTimes (s : DataSubscriber) (data : List Byte) (offset _length : Nat) :
    DataSubscriber :=
  let timeIndexPtr := data.drop offset
  let timeOffsetsPtr := timeIndexPtr.drop 4
  { s with
    m_timeIndex := toSizeT (readBigEndianInt32 timeIndexPtr)
    m_baseTimeOffsets :=
      (readBigEndianInt64 timeOffsetsPtr, readBigEndianInt64 (timeOffsetsPtr.drop 8)) }

/-- `DataSubscriber::ProcessServerResponse(buffer, offset, length)`. The
subtraction `length - PacketHeaderSize` is a `std::size_t` one. The model
follows the code for a `length` of at least `PacketHeaderSize`: for a shorter
one the wrapped body length is one no vector can have, so that the constructor
in `Dispatch` throws, and the end pointer of the message loops wraps; neither
is modelled. -/
def ProcessServerResponse (K : Constants) (s : DataSubscriber) (buffer : List Byte)
    (_offset length : Nat) : DataSubscriber :=
  let packetBodyStart := buffer.drop 6
  let packetBodyLength := (length + 2 ^ 64 - 6) % 2 ^ 64
  let responseCode := buffer.getD 0 0
  let commandCode := buffer.getD 1 0
  if responseCode = K.Succeeded then
    HandleSucceeded K s commandCode packetBodyStart 0 packetBodyLength
  else if responseCode = K.Failed then
    HandleFailed s commandCode packetBodyStart 0 packetBodyLength
  else if responseCode = K.DataPacket then
    HandleDataPacket s packetBodyStart 0 packetBodyLength
  else if responseCode = K.DataStartTime then
    HandleDataStartTime s packetBodyStart 0 packetBodyLength
  else if responseCode = K.ProcessingComplete then
    HandleProcessingComplete s packetBodyStart 0 packetBodyLength
  else if responseCode = K.UpdateSignalIndexCache then
    HandleUpdateSignalIndexCache s packetBodyStart 0 packetBodyLength
  else if responseCode = K.UpdateBaseTimes then
    HandleUpdateBaseTimes s packetBodyStart 0 packetBodyLength
  else
    s

/-! ### Wire layout of the bodies, as the protocol describes it -/

/-- A cache entry fits its wire fields: 16-bit index, 16 GUID bytes, a source
whose byte length fits an `int32`, 32-bit id. -/
def SignalIndexEntry.WellFormed (e : SignalIndexEntry) : Prop :=
  e.signalIndex < 2 ^ 16 ∧ e.signalID.length = 16 ∧ e.source.length < 2 ^ 31 ∧ e.id < 2 ^ 32

instance (e : SignalIndexEntry) : Decidable e.WellFormed :=
  inferInstanceAs (Decidable (_ ∧ _))

/-- One entry on the wire: big-endian uint16 signal index, 16 GUID bytes,
big-endian int32 source length L, L source bytes, big-endian uint32 id. -/
def encodeEntry (e : SignalIndexEntry) : List Byte :=
  bigEndianBytes 2 e.signalIndex ++ e.signalID ++ bigEndianBytes 4 e.source.length
    ++ e.source ++ bigEndianBytes 4 e.id

/-- The entries on the wire, one after the other. -/
def encodeEntries : List SignalIndexEntry → List Byte
  | [] => []
  | e :: es => encodeEntry e ++ encodeEntries es

/-- The body of an UpdateSignalIndexCache response: 4 length bytes, 16
subscriber-GUID bytes, the big-endian int32 count, the entries, and trailing
bytes. -/
def signalIndexCacheBody (lengthBytes subscriberID : List Byte) (entries : List SignalIndexEntry)
    (trailing : List Byte) : List Byte :=
  lengthBytes ++ subscriberID ++ bigEndianBytes 4 entries.length ++ encodeEntries entries
    ++ trailing

/-! ## Dispatcher functions run on the callback thread -/

/-- Modelled from the spec: the record `Measurement` (its header is absent),
"signal GUID, timestamp (ticks), value (double), flags". -/
structure Measurement where
  /-- Member SignalID. -/
  SignalID : Guid
  /-- Member Timestamp, in ticks. -/
  Timestamp : Int
  /-- Member Value. -/
  Value : Float64
  /-- Member Flags. -/
  Flags : Nat
  deriving DecidableEq, Repr

/-- Modelled from the spec: the class `CompactMeasurementParser` (its sources
are absent). It is built from the signal-index cache, the base-time offsets
and the two subscription flags; `TryParseMeasurement(buffer, offset, length)`
either fails, leaving `offset` and `length` alone (`none`), or succeeds with
the measurement `GetParsedMeasurement` then returns and the advanced `offset`
and `length`. The wire format it decodes is a parameter of the model. -/
abbrev CompactMeasurementParser :=
  SignalIndexCache → Int × Int → Bool → Bool →
    List Byte → Nat → Nat → Option (Measurement × Nat × Nat)

/-- What a dispatcher does that a user can observe: the callbacks it invokes,
with their arguments. `nullCallback` is a call through a callback slot that
holds no callback. -/
inductive CallbackEvent where
  | statusMessage (message : StdString)
  | errorMessage (message : StdString)
  | dataStartTime (dataStartTime : Int)
  | metadata (data : List Byte)
  | newMeasurements (newMeasurements : List Measurement)
  | processingComplete (message : StdString)
  | connectionTerminated
  | nullCallback
  deriving DecidableEq, Repr

/-- The call `errorMessageCallback(message)` made without a null test. -/
def callErrorMessageCallback (source : DataSubscriber) (message : StdString) : CallbackEvent :=
  if source.m_errorMessageCallback then .errorMessage message else .nullCallback

/-- The `while (length > 0)` loop of `NewMeasurementsDispatcher`: returns the
measurements pushed to `newMeasurements` and the callbacks invoked meanwhile,
or `none` when `fuel` iterations do not reach the end of the loop. The local
`parsedMeasurement` receives the frame-level timestamp, but the vector is given
`measurementParser.GetParsedMeasurement()` again. -/
def parseMeasurementsLoop (source : DataSubscriber)
    (TryParseMeasurement : List Byte → Nat → Nat → Option (Measurement × Nat × Nat))
    (frameLevelTimestamp : Option Int) (buffer : List Byte) :
    Nat → Nat → Nat → List Measurement → Option (List Measurement × List CallbackEvent)
  | 0, _, _, _ => none
  | fuel + 1, offset, length, newMeasurements =>
      if length > 0 then
        match TryParseMeasurement buffer offset length with
        | none =>
            some (newMeasurements, [callErrorMessageCallback source (lit "Error parsing measurement")])
        | some (parsed, offset', length') =>
            let parsedMeasurement := parsed
            let _parsedMeasurement :=
              match frameLevelTimestamp with
              | some t => { parsedMeasurement with Timestamp := t }
              | none => parsedMeasurement
            parseMeasurementsLoop source TryParseMeasurement frameLevelTimestamp buffer
              fuel offset' length' (newMeasurements ++ [parsed])
      else
        some (newMeasurements, [])

/-- `DataSubscriber::NewMeasurementsDispatcher(source, data)`: the state of
the subscriber afterwards and the callbacks invoked, in order; `none` when the
parsing loop does not end within `fuel` iterations. The call of the error
callback at line 503 is made through a slot that may be empty; such a call does
not return, so the dispatcher ends there and line 515 is not reached. -/
def NewMeasurementsDispatcher (K : Constants) (parser : CompactMeasurementParser) (fuel : Nat)
    (source : DataSubscriber) (data : List Byte) : Option (DataSubscriber × List CallbackEvent) :=
  let info := source.m_currentSubscription
  let measurementParser :=
    parser source.m_signalIndexCache source.m_baseTimeOffsets info.IncludeTime
      info.UseMillisecondResolution
  -- Read data packet flags
  let dataPacketFlags := data.getD 0 0
  let offset := 1
  -- Read measurement count and gather statistics
  let measurementCountPtr := data.drop 1
  let source := { source with
    m_totalMeasurementsReceived :=
      source.m_totalMeasurementsReceived + readBigEndianInt32 measurementCountPtr }
  let offset := offset + 4
  -- Read frame-level timestamp, if available
  let synchronized := decide (dataPacketFlags.val &&& K.Synchronized.val ≠ 0)
  let frameLevelTimestamp : Option Int :=
    if synchronized then some (readBigEndianInt64 (measurementCountPtr.drop 4)) else none
  let offset := if synchronized then offset + 8 else offset
  -- Set up buffer and length for measurement parsing
  let buffer := data
  let length := (data.length + 2 ^ 64 - offset) % 2 ^ 64
  if source.m_newMeasurementsCallback then
    match parseMeasurementsLoop source measurementParser frameLevelTimestamp buffer
        fuel offset length [] with
    | none => none
    | some (newMeasurements, events) =>
        -- a call through an empty callback slot does not return
        if CallbackEvent.nullCallback ∈ events then some (source, events)
        else some (source, events ++ [.newMeasurements newMeasurements])
  else
    some (source, [])

/-- The offset at which `NewMeasurementsDispatcher` starts parsing
measurements: after the flags byte, the count and, in a synchronized packet,
the frame-level timestamp. -/
def measurementsOffset (K : Constants) (data : List Byte) : Nat :=
  if (data.getD 0 0).val &&& K.Synchronized.val ≠ 0 then 1 + 4 + 8 else 1 + 4

/-- The `length` with which `NewMeasurementsDispatcher` enters its loop. -/
def measurementsLength (K : Constants) (data : List Byte) : Nat :=
  (data.length + 2 ^ 64 - measurementsOffset K data) % 2 ^ 64

/-- Whether, starting at `offset` with `length` bytes left, the parser
succeeds `k` times in a row, each time with bytes left, and then fails with
bytes left. -/
def failsAfter (TryParseMeasurement : List Byte → Nat → Nat → Option (Measurement × Nat × Nat))
    (buffer : List Byte) : Nat → Nat → Nat → Bool
  | 0, offset, length =>
      decide (length > 0) && (TryParseMeasurement buffer offset length).isNone
  | k + 1, offset, length =>
      decide (length > 0) &&
        match TryParseMeasurement buffer offset length with
        | none => false
        | some (_, offset', length') => failsAfter TryParseMeasurement buffer k offset' length'

/-- The measurements of the first `k` parses starting at `offset`, in wire
order (fewer when a parse fails earlier). -/
def parsedPrefix (TryParseMeasurement : List Byte → Nat → Nat → Option (Measurement × Nat × Nat))
    (buffer : List Byte) : Nat → Nat → Nat → List Measurement
  | 0, _, _ => []
  | k + 1, offset, length =>
      match TryParseMeasurement buffer offset length with
      | none => []
      | some (parsed, offset', length') =>
          parsed :: parsedPrefix TryParseMeasurement buffer k offset' length'

/-- Whether, starting at `offset` with `length` bytes left, the parser
succeeds `k` times in a row, each time with bytes left, and then no byte is
left. -/
def parsesAll (TryParseMeasurement : List Byte → Nat → Nat → Option (Measurement × Nat × Nat))
    (buffer : List Byte) : Nat → Nat → Nat → Bool
  | 0, _, length => decide (length = 0)
  | k + 1, offset, length =>
      decide (length > 0) &&
        match TryParseMeasurement buffer offset length with
        | none => false
        | some (_, offset', length') => parsesAll TryParseMeasurement buffer k offset' length'

/-- A stand-in for the absent parser, used to run the dispatcher on concrete
packets: one measurement is the 8 bytes of its big-endian timestamp, and the
parse fails when fewer than 8 bytes are left. -/
def timestampOnlyParser : CompactMeasurementParser :=
  fun _cache _baseTimeOffsets _includeTime _useMillisecondResolution buffer offset length =>
    if 8 ≤ length then
      some (⟨[], readBigEndianInt64 (buffer.drop offset), ⟨0⟩, 0⟩, offset + 8, length - 8)
    else none

/-- `DataSubscriber::StatusMessageDispatcher(source, data)`: the loop streams
`data[i]` for every index, then the callback is called if it is registered. -/
def StatusMessageDispatcher (source : DataSubscriber) (data : List Byte) : List CallbackEvent :=
  let message : StdString := load data data.length
  if source.m_statusMessageCallback then [.statusMessage message] else []

/-- `DataSubscriber::ErrorMessageDispatcher(source, data)`. -/
def ErrorMessageDispatcher (source : DataSubscriber) (data : List Byte) : List CallbackEvent :=
  let message : StdString := load data data.length
  if source.m_errorMessageCallback then [.errorMessage message] else []

/-- `DataSubscriber::DataStartTimeDispatcher(source, data)`. The eight bytes
are read before any test; where `data` is shorter the code reads what lies
behind the vector, which the model takes to be zeros. -/
def DataStartTimeDispatcher (source : DataSubscriber) (data : List Byte) : List CallbackEvent :=
  let dataStartTime := readBigEndianInt64 data
  if source.m_dataStartTimeCallback then [.dataStartTime dataStartTime] else []

/-- `DataSubscriber::MetadataDispatcher(source, data)`. -/
def MetadataDispatcher (source : DataSubscriber) (data : List Byte) : List CallbackEvent :=
  if source.m_metadataCallback then [.metadata data] else []

/-- `DataSubscriber::ProcessingCompleteDispatcher(source, data)`. -/
def ProcessingCompleteDispatcher (source : DataSubscriber) (data : List Byte) :
    List CallbackEvent :=
  if source.m_processingCompleteCallback then
    let messageLength := data.length / 1
    [.processingComplete (load data messageLength)]
  else []

/-- The call `dispatcher.Function(dispatcher.Source, dispatcher.Data)` of the
callback thread: the state of the subscriber afterwards and the callbacks
invoked, `none` when a parsing loop does not end within `fuel` iterations. -/
def CallbackDispatcher.invoke (K : Constants) (parser : CompactMeasurementParser) (fuel : Nat)
    (dispatcher : CallbackDispatcher) (source : DataSubscriber) :
    Option (DataSubscriber × List CallbackEvent) :=
  match dispatcher.Function with
  | .StatusMessageDispatcher => some (source, StatusMessageDispatcher source dispatcher.Data)
  | .ErrorMessageDispatcher => some (source, ErrorMessageDispatcher source dispatcher.Data)
  | .DataStartTimeDispatcher => some (source, DataStartTimeDispatcher source dispatcher.Data)
  | .MetadataDispatcher => some (source, MetadataDispatcher source dispatcher.Data)
  | .NewMeasurementsDispatcher => NewMeasurementsDispatcher K parser fuel source dispatcher.Data
  | .ProcessingCompleteDispatcher =>
      some (source, ProcessingCompleteDispatcher source dispatcher.Data)

/-- The subscriber with `queue` as the content of its callback queue. -/
def DataSubscriber.withCallbackQueue (s : DataSubscriber) (queue : List CallbackDispatcher) :
    DataSubscriber :=
  { s with m_callbackQueue := queue }

/-- The loop of `DataSubscriber::RunCallbackThread()` over the dispatchers
waiting in the callback queue, front first: the thread leaves when the
subscriber is disconnecting, otherwise it dequeues the front dispatcher and
calls it. With nothing left in the queue the thread waits for data. A
dispatcher that calls through an empty callback slot does not return, so the
loop goes no further and the dispatchers behind it are not called. -/
def runCallbackQueue (K : Constants) (parser : CompactMeasurementParser) (fuel : Nat) :
    List CallbackDispatcher → DataSubscriber → Option (DataSubscriber × List CallbackEvent)
  | [], s => some (s, [])
  | dispatcher :: rest, s =>
      if s.m_disconnecting then some (s, [])
      else
        let s := s.withCallbackQueue rest
        match dispatcher.invoke K parser fuel s with
        | none => none
        | some (s, events) =>
            -- a call through an empty callback slot does not return
            if CallbackEvent.nullCallback ∈ events then some (s, events)
            else
              match runCallbackQueue K parser fuel rest s with
              | none => none
              | some (s, laterEvents) => some (s, events ++ laterEvents)

/-- `DataSubscriber::RunCallbackThread()`, run on the dispatchers that are in
the callback queue. -/
def RunCallbackThread (K : Constants) (parser : CompactMeasurementParser) (fuel : Nat)
    (s : DataSubscriber) : Option (DataSubscriber × List CallbackEvent) :=
  runCallbackQueue K parser fuel s.m_callbackQueue s

/-- A response handed to `ProcessServerResponse`: the buffer and the length. -/
abbrev Response := List Byte × Nat

/-- The responses of a sequence handed to `ProcessServerResponse` one after
the other, in order of arrival. -/
def processServerResponses (K : Constants) (s : DataSubscriber) : List Response → DataSubscriber
  | [] => s
  | response :: later =>
      processServerResponses K (ProcessServerResponse K s response.1 0 response.2) later

/-! ## Connect and Disconnect -/

/-- What lies outside the subscriber and decides how `Connect` runs: whether
the resolver resolves the host name, and whether the TCP connection is
established. -/
structure Network where
  /-- Whether `resolver.resolve(query)` succeeds. -/
  resolves : Bool
  /-- Whether `boost::asio::connect` succeeds and leaves the socket open. -/
  connects : Bool
  deriving DecidableEq, Repr

/-- `DataSubscriber::Connect(hostname, port)`: the state afterwards, and the
message of the exception when the call throws (`none` when it returns). The
host is resolved and the counters are reset before the socket is tested. -/
def Connect (K : Constants) (N : Network) (s : DataSubscriber) (_hostname : StdString)
    (_port : Nat) : DataSubscriber × Option StdString :=
  if !N.resolves then
    (s, some (lit "resolve"))
  else
    let s := { s with
      m_totalCommandChannelBytesReceived := 0
      m_totalDataChannelBytesReceived := 0
      m_totalMeasurementsReceived := 0 }
    if s.m_commandChannelSocket then
      (s, some (lit "Subscriber is already connected; disconnect first"))
    else if !N.connects then
      (s, some (lit "connect"))
    else
      let s := { s with m_commandChannelSocket := true }
      if !s.m_commandChannelSocket then
        (s, some (lit "Failed to connect to host"))
      else
        let s := { s with m_commandThread := true }
        let s := { s with m_callbackThread := true }
        let s := { s with m_commandChannelResponseThread := true }
        let s := SendOperationalModes K s
        ({ s with m_connected := true }, none)

/-- `DataSubscriber::Disconnect()`: the queues are released and the sockets
closed, the four threads are joined, the queues are cleared and reset, and the
three flags are cleared. -/
def Disconnect (s : DataSubscriber) : DataSubscriber :=
  -- Notify running threads that the subscriber is disconnecting
  let s := { s with m_disconnecting := true }
  -- Release queues and close sockets so that threads can shut down gracefully
  let s := { s with m_commandChannelSocket := false }
  let s := { s with m_dataChannelSocket := false }
  -- Join with all threads to guarantee their completion
  let s := { s with m_commandThread := false }
  let s := { s with m_callbackThread := false }
  let s := { s with m_commandChannelResponseThread := false }
  let s := { s with m_dataChannelResponseThread := false }
  -- Empty queues and reset them so they can be used again later
  let s := { s with m_commandQueue := [] }
  let s := { s with m_callbackQueue := [] }
  -- Disconnect completed
  let s := { s with m_subscribed := false }
  let s := { s with m_disconnecting := false }
  { s with m_connected := false }

/-- `DataSubscriber::ConnectionTerminatedDispatcher()`. -/
def ConnectionTerminatedDispatcher (s : DataSubscriber) : DataSubscriber × List CallbackEvent :=
  let s := Disconnect s
  (s, if s.m_connectionTerminatedCallback then [.connectionTerminated] else [])

/-! ## The reader threads -/

/-- How a read from a socket ends. -/
inductive ReadStatus where
  | success
  | eof
  | failure (what : StdString)
  deriving DecidableEq, Repr

/-- How one pass through the loop of a reader thread ends: the loop goes on,
the thread leaves, or the thread leaves after starting
`ConnectionTerminatedDispatcher` on a thread of its own. -/
inductive ReaderOutcome where
  | continues
  | exits
  | exitsTerminated
  deriving DecidableEq, Repr

/-- One pass through the loop of
`DataSubscriber::RunCommandChannelResponseThread()`. The read of the payload
header ends with `headerStatus` and leaves `buffer` as `headerBuffer`; the read
of the packet ends with `packetStatus` and leaves it as `packetBuffer`. -/
def commandChannelResponseStep (K : Constants) (s : DataSubscriber)
    (headerStatus : ReadStatus) (headerBuffer : List Byte)
    (packetStatus : ReadStatus) (packetBuffer : List Byte) : DataSubscriber × ReaderOutcome :=
  -- Read payload header
  if s.m_disconnecting then (s, .exits)
  else
    match headerStatus with
    | .eof => (s, .exitsTerminated)
    | .failure what =>
        (DispatchErrorMessage s (lit "Error reading data from command channel: " ++ what), .exits)
    | .success =>
        -- Gather statistics
        let s := { s with
          m_totalCommandChannelBytesReceived := s.m_totalCommandChannelBytesReceived + 8 }
        -- Parse payload header
        let packetSize := readLittleEndianInt32 (headerBuffer.drop 4)
        -- Read packet (payload body)
        if s.m_disconnecting then (s, .exits)
        else
          match packetStatus with
          | .eof => (s, .exitsTerminated)
          | .failure what =>
              (DispatchErrorMessage s
                (lit "Error reading data from command channel: " ++ what), .exits)
          | .success =>
              -- Gather statistics
              let s := { s with
                m_totalCommandChannelBytesReceived :=
                  s.m_totalCommandChannelBytesReceived + packetSize }
              -- Process response
              (ProcessServerResponse K s packetBuffer 0 (toSizeT packetSize), .continues)

/-- One pass through the loop of
`DataSubscriber::RunDataChannelResponseThread()`: `receive_from` returns
`length`, leaves the datagram in `buffer` and sets `error`. -/
def dataChannelResponseStep (K : Constants) (s : DataSubscriber) (buffer : List Byte)
    (length : Nat) (error : Option StdString) : DataSubscriber × ReaderOutcome :=
  if s.m_disconnecting then (s, .exits)
  else
    match error with
    | some what =>
        (DispatchErrorMessage s (lit "Error reading data from command channel: " ++ what), .exits)
    | none => (ProcessServerResponse K s buffer 0 length, .continues)

/-- `DataSubscriber::GetTotalCommandChannelBytesReceived()`. -/
def GetTotalCommandChannelBytesReceived (s : DataSubscriber) : Int :=
  s.m_totalCommandChannelBytesReceived

/-- `DataSubscriber::GetTotalDataChannelBytesReceived()`. -/
def GetTotalDataChannelBytesReceived (s : DataSubscriber) : Int :=
  s.m_totalDataChannelBytesReceived

/-! ## Concrete states and inputs used in examples -/

/-- A subscription with every option switched off and every string empty. -/
def emptySubscription : SubscriptionInfo where
  FilterExpression := []
  Throttled := false
  UdpDataChannel := false
  DataChannelLocalPort := 0
  DataChannelInterface := []
  IncludeTime := false
  LagTime := ⟨0⟩
  LeadTime := ⟨0⟩
  UseLocalClockAsRealTime := false
  UseMillisecondResolution := false
  StartTime := []
  StopTime := []
  ConstraintParameters := []
  ProcessingInterval := 0
  WaitHandleNames := []
  WaitHandleTimeout := 0
  ExtraConnectionStringParameters := []

/-- The GUID `G` of the cache-update scenario. -/
def scenarioGuid : Guid :=
  [1, 2, 3, 4, 5, 6, 7, 8, 9, 10, 11, 12, 13, 14, 15, 16]

/-- The single entry of the cache-update scenario: index 0x002A, `G`, "PPA", 17. -/
def scenarioEntries : List SignalIndexEntry :=
  [⟨0x2A, scenarioGuid, lit "PPA", 17⟩]

/-- A second set of entries, sharing no index with the scenario's. -/
def otherEntries : List SignalIndexEntry :=
  [⟨7, scenarioGuid, lit "SHELBY", 3⟩, ⟨9, List.replicate 16 0xFF, [], 0xFFFFFFFF⟩]

/-- The body of the base-times scenario: time index 1, offsets 10000 and 20000. -/
def scenarioBaseTimes : List Byte :=
  [0, 0, 0, 1, 0, 0, 0, 0, 0, 0, 0x27, 0x10, 0, 0, 0, 0, 0, 0, 0x4E, 0x20]

/-- The constant values the scenarios of the protocol description use
(Succeeded 0x80, Subscribe 0x07, Unsubscribe 0x08, DefineOperationalModes 0x06,
Synchronized 0x01); the values no scenario fixes are arbitrary distinct ones. -/
def scenarioConstants : Constants where
  Authenticate := 0x00
  MetadataRefresh := 0x01
  Subscribe := 0x07
  Unsubscribe := 0x08
  RotateCipherKeys := 0x04
  DefineOperationalModes := 0x06
  Succeeded := 0x80
  Failed := 0x81
  DataPacket := 0x82
  UpdateSignalIndexCache := 0x83
  UpdateBaseTimes := 0x84
  DataStartTime := 0x86
  ProcessingComplete := 0x87
  Synchronized := 0x01
  NoFlags := 0x00000000
  UseCommonSerializationFormat := 0x01000000
  CompressMetadata := 0x80000000
  UTF8 := 0x00000200

/-- The synchronized data packet of the scenario, with one measurement: flags
0x01, count 1, frame timestamp 0x0000FA00, then a measurement that carries the
timestamp 7 of its own. -/
def synchronizedPacket : List Byte :=
  [0x01, 0, 0, 0, 1, 0, 0, 0, 0, 0, 0, 0xFA, 0x00, 0, 0, 0, 0, 0, 0, 0, 7]

/-- A platform on which a `float64_t` prints as the decimal digits of its bit
pattern and the UDP socket opens and binds. -/
def scenarioPlatform : Platform where
  formatFloat64 := fun x => formatNat x.bits
  dataChannelOpens := true
  dataChannelBinds := true

/-- A subscription that sets every optional string. -/
def fullSubscription : SubscriptionInfo where
  FilterExpression := lit "PPA:1;PPA:2"
  Throttled := true
  UdpDataChannel := false
  DataChannelLocalPort := 9600
  DataChannelInterface := []
  IncludeTime := true
  LagTime := ⟨10⟩
  LeadTime := ⟨5⟩
  UseLocalClockAsRealTime := false
  UseMillisecondResolution := true
  StartTime := lit "*-5M"
  StopTime := lit "*"
  ConstraintParameters := lit "x"
  ProcessingInterval := -1
  WaitHandleNames := lit "h1"
  WaitHandleTimeout := 1000
  ExtraConnectionStringParameters := lit "a=b"

/-- A platform on which the UDP socket opens but the local port cannot be
bound. -/
def portInUsePlatform : Platform where
  formatFloat64 := fun x => formatNat x.bits
  dataChannelOpens := true
  dataChannelBinds := false

/-- A subscription that asks for a UDP data channel on local port 9600. -/
def udpSubscription : SubscriptionInfo :=
  { emptySubscription with UdpDataChannel := true, DataChannelLocalPort := 9600 }

/-- A disconnected subscriber: flags cleared, counters at zero, queues and
cache empty, no callback registered. -/
def idleSubscriber : DataSubscriber where
  m_signalIndexCache := ⟨[]⟩
  m_baseTimeOffsets := (0, 0)
  m_timeIndex := 0
  m_currentSubscription := emptySubscription
  m_totalCommandChannelBytesReceived := 0
  m_totalDataChannelBytesReceived := 0
  m_totalMeasurementsReceived := 0
  m_connected := false
  m_subscribed := false
  m_disconnecting := false
  m_compressMetadata := false
  m_commandQueue := []
  m_callbackQueue := []
  m_commandChannelSocket := false
  m_dataChannelSocket := false
  m_commandThread := false
  m_callbackThread := false
  m_commandChannelResponseThread := false
  m_dataChannelResponseThread := false
  m_statusMessageCallback := false
  m_errorMessageCallback := false
  m_dataStartTimeCallback := false
  m_metadataCallback := false
  m_newMeasurementsCallback := false
  m_processingCompleteCallback := false
  m_connectionTerminatedCallback := false

/-- A disconnected subscriber on which every callback is registered. -/
def listeningSubscriber : DataSubscriber :=
  { idleSubscriber with
    m_statusMessageCallback := true
    m_errorMessageCallback := true
    m_dataStartTimeCallback := true
    m_metadataCallback := true
    m_newMeasurementsCallback := true
    m_processingCompleteCallback := true
    m_connectionTerminatedCallback := true }

/-- The dispatches a response produces: what `ProcessServerResponse` puts on
an empty callback queue for it. -/
def dispatchesOf (K : Constants) (response : Response) : List CallbackDispatcher :=
  (ProcessServerResponse K idleSubscriber response.1 0 response.2).m_callbackQueue

/-- The scenario response Succeeded(Subscribe) with the body "OK". -/
def succeededSubscribeResponse : Response :=
  ([0x80, 0x07, 0, 0, 0, 0] ++ lit "OK", 8)

/-- A DataPacket response whose body holds one measurement with timestamp 7
(not synchronized, count 1). -/
def dataPacketResponse : Response :=
  ([0x82, 0x00, 0, 0, 0, 0, 0x00, 0, 0, 0, 1, 0, 0, 0, 0, 0, 0, 0, 7], 19)

/-- A subscriber whose command channel is connected. -/
def connectedSubscriber : DataSubscriber :=
  { idleSubscriber with
    m_connected := true
    m_commandChannelSocket := true
    m_commandThread := true
    m_callbackThread := true
    m_commandChannelResponseThread := true }

/-- The subscriber left by a `Subscribe` that threw because the local UDP
port could not be bound: the UDP socket has been opened and is still open. -/
def unboundSubscriber : DataSubscriber :=
  (Subscribe scenarioConstants portInUsePlatform idleSubscriber udpSubscription).1

/-- The body of the cache-update scenario. -/
def scenarioCacheBody : List Byte :=
  signalIndexCacheBody [0, 0, 0, 4] (List.replicate 16 0) scenarioEntries []

/-- A network on which the host name does not resolve. -/
def unresolvedNetwork : Network where
  resolves := false
  connects := true

/-- A network on which the host name resolves and the connection is
established. -/
def reachableNetwork : Network where
  resolves := true
  connects := true

/-- An UpdateBaseTimes response of 26 bytes, as a datagram. -/
def baseTimesDatagram : List Byte :=
  [0x84, 0x00, 0, 0, 0, 0] ++ scenarioBaseTimes

/-- A data packet (not synchronized, count 3) with two whole measurements,
carrying the timestamps 7 and 9, followed by three stray bytes. -/
def truncatedPacket : List Byte :=
  [0x00, 0, 0, 0, 3, 0, 0, 0, 0, 0, 0, 0, 7, 0, 0, 0, 0, 0, 0, 0, 9, 1, 2, 3]

/-- A subscriber on which the new-measurements callback is the only one
registered. -/
def measurementsOnlySubscriber : DataSubscriber :=
  { idleSubscriber with m_newMeasurementsCallback := true }

/-- A data packet (not synchronized, count 1) whose body holds three bytes
where a measurement should be. -/
def unparsablePacket : List Byte :=
  [0x00, 0, 0, 0, 1, 1, 2, 3]

/-- A receive buffer that holds an UpdateBaseTimes response of 10 bytes (a body
of 4 bytes, the time index 1) followed by 16 bytes left over from an earlier,
longer packet. -/
def truncatedBaseTimesBuffer : List Byte :=
  [0x84, 0x00, 0, 0, 0, 0, 0, 0, 0, 1] ++ List.replicate 16 0xFF

/-- The same response of 10 bytes in a receive buffer that holds other bytes
behind it. -/
def truncatedBaseTimesBuffer2 : List Byte :=
  [0x84, 0x00, 0, 0, 0, 0, 0, 0, 0, 1] ++ List.replicate 16 0x01

/-- A DataStartTime response of 9 bytes: a body of 3 bytes where 8 are due. -/
def truncatedDataStartTime : Response :=
  ([0x86, 0x00, 0, 0, 0, 0, 1, 2, 3], 9)

/-- An UpdateBaseTimes body of 20 bytes whose first four bytes hold the
big-endian int32 -2. -/
def negativeTimeIndexBody : List Byte :=
  [0xFF, 0xFF, 0xFF, 0xFE, 0, 0, 0, 0, 0, 0, 0x27, 0x10, 0, 0, 0, 0, 0, 0, 0x4E, 0x20]

/-! # Theorems -/

set_option maxRecDepth 4000

/-! ## Memory and integer conversion lemmas -/

theorem load_append_left (bs rest : List Byte) : load (bs ++ rest) bs.length = bs := by
  induction bs with
  | nil => simp [load]
  | cons b bs ih => simp [load, ih]

theorem load_succ_drop (l : List Byte) (k n : Nat) :
    load (l.drop k) (n + 1) = l.getD k 0 :: load (l.drop (k + 1)) n := by
  induction l generalizing k with
  | nil => simp [load]
  | cons a l ih =>
    cases k with
    | zero => simp [load]
    | succ k => simpa using ih k

theorem copyLoop_append (base : Nat) (src : List Byte) (offset : Nat) :
    ∀ (n i : Nat) (pre mid post : List Byte), pre.length = base + i → mid.length = n →
      copyLoop base src offset n i (pre ++ mid ++ post)
        = pre ++ load (src.drop (offset + i)) n ++ post := by
  intro n
  induction n with
  | zero =>
    intro i pre mid post _ hm
    have : mid = [] := List.length_eq_zero.mp hm
    simp [copyLoop, load, this]
  | succ n ih =>
    intro i pre mid post hp hm
    cases mid with
    | nil => simp at hm
    | cons m mid =>
      have hset : (pre ++ (m :: mid) ++ post).set (base + i) (src.getD (offset + i) 0)
          = (pre ++ [src.getD (offset + i) 0]) ++ mid ++ post := by
        rw [← hp]
        simp [List.set_append]
      rw [copyLoop, hset, ih (i + 1) _ mid post (by simp [hp]; omega) (by simpa using hm),
        load_succ_drop]
      simp [Nat.add_assoc]

theorem ofLittleEndian_littleEndianBytes (w v : Nat) :
    ofLittleEndian (littleEndianBytes w v) = v % 256 ^ w := by
  induction w generalizing v with
  | zero => simp [littleEndianBytes, ofLittleEndian, Nat.mod_one]
  | succ w ih =>
    simp only [littleEndianBytes, ofLittleEndian, ih]
    rw [pow_succ', Nat.mod_mul]

theorem buildCommandPacket_some (C : Byte) (P : List Byte) (h : 1 + P.length < 2 ^ 31) :
    buildCommandPacket C (some P) 0 P.length
      = [0xAA, 0xBB, 0xCC, 0xDD] ++ littleEndianBytes 4 (1 + P.length) ++ C :: P := by
  have h1 : (1 + P.length) % 2 ^ 64 = 1 + P.length := Nat.mod_eq_of_lt (by omega)
  have h2 : (8 + (1 + P.length)) % 2 ^ 64 = P.length + 9 := by
    rw [Nat.mod_eq_of_lt (by omega)]; omega
  have h3 : (1 + P.length) % 2 ^ 32 = 1 + P.length := Nat.mod_eq_of_lt (by omega)
  simp only [buildCommandPacket, h1, h2, bytesOfLittleEndian32, h3]
  have := copyLoop_append 9 P 0 P.length 0
    ([0xAA, 0xBB, 0xCC, 0xDD] ++ littleEndianBytes 4 (1 + P.length) ++ [C])
    (List.replicate P.length 0) [] (by simp [littleEndianBytes]) (by simp)
  simp only [List.append_nil, Nat.add_zero, List.drop_zero] at this
  have hl : load P P.length = P := by simpa using load_append_left P []
  rw [hl] at this
  have hrep : (((((((((List.replicate (P.length + 9) (0 : Byte)).set 0 170).set 1 187).set 2 204).set 3 221).set 4
      ((littleEndianBytes 4 (1 + P.length)).getD 0 0)).set 5
      ((littleEndianBytes 4 (1 + P.length)).getD 1 0)).set 6
      ((littleEndianBytes 4 (1 + P.length)).getD 2 0)).set 7
      ((littleEndianBytes 4 (1 + P.length)).getD 3 0)).set 8 C
      = [0xAA, 0xBB, 0xCC, 0xDD] ++ littleEndianBytes 4 (1 + P.length) ++ [C]
          ++ List.replicate P.length 0 := by
    simp [List.replicate_succ, littleEndianBytes]
  rw [hrep, this]
  simp


theorem copyLoop_length (base : Nat) (src : List Byte) (offset : Nat) (n i : Nat)
    (dst : List Byte) : (copyLoop base src offset n i dst).length = dst.length := by
  induction n generalizing i dst with
  | zero => rfl
  | succ n ih => rw [copyLoop, ih]; simp

theorem copyLoop_getElem?_lt (base : Nat) (src : List Byte) (offset : Nat) (n i : Nat)
    (dst : List Byte) (j : Nat) (hj : j < base) :
    (copyLoop base src offset n i dst)[j]? = dst[j]? := by
  induction n generalizing i dst with
  | zero => rfl
  | succ n ih =>
    rw [copyLoop, ih, List.getElem?_set_ne]
    omega

theorem buildCommandPacket_commandCode (C : Byte) (data : Option (List Byte))
    (offset length : Nat) (h : length + 9 < 2 ^ 64) :
    (buildCommandPacket C data offset length)[8]? = some C := by
  have h1 : (1 + length) % 2 ^ 64 = 1 + length := Nat.mod_eq_of_lt (by omega)
  have h2 : (8 + (1 + length)) % 2 ^ 64 = length + 9 := by
    rw [Nat.mod_eq_of_lt (by omega)]; omega
  simp only [buildCommandPacket, h1, h2]
  cases data with
  | none => simp [List.replicate_succ]
  | some d =>
    simp only []
    rw [copyLoop_getElem?_lt _ _ _ _ _ _ _ (by decide)]
    simp [List.replicate_succ]


theorem littleEndianBytes_length (w v : Nat) : (littleEndianBytes w v).length = w := by
  induction w generalizing v with
  | zero => rfl
  | succ w ih => simp [littleEndianBytes, ih]

theorem toInt32_of_lt (n : Nat) (h : n < 2 ^ 31) : toInt32 n = n := by
  have h1 : n % 2 ^ 32 = n := Nat.mod_eq_of_lt (by omega)
  unfold toInt32
  rw [h1, if_pos h]

theorem ofBigEndian_reverse (l : List Byte) : ofBigEndian l.reverse = ofLittleEndian l := by
  induction l with
  | nil => rfl
  | cons b bs ih =>
    simp only [ofBigEndian, List.reverse_cons, List.foldl_append, List.foldl_cons, List.foldl_nil,
      ofLittleEndian] at ih ⊢
    rw [ih]; ring

theorem ofBigEndian_bigEndianBytes (w v : Nat) :
    ofBigEndian (bigEndianBytes w v) = v % 256 ^ w := by
  rw [bigEndianBytes, ofBigEndian_reverse, ofLittleEndian_littleEndianBytes]

theorem bigEndianBytes_length (w v : Nat) : (bigEndianBytes w v).length = w := by
  simp [bigEndianBytes, littleEndianBytes_length]

theorem load_bigEndianBytes (w v : Nat) (rest : List Byte) :
    load (bigEndianBytes w v ++ rest) w = bigEndianBytes w v := by
  have := load_append_left (bigEndianBytes w v) rest
  rwa [bigEndianBytes_length] at this

theorem drop_bigEndianBytes (w v : Nat) (rest : List Byte) :
    (bigEndianBytes w v ++ rest).drop w = rest := by
  have := List.drop_left (bigEndianBytes w v) rest
  rwa [bigEndianBytes_length] at this

theorem load_eq_take (p : List Byte) (n : Nat) (h : n ≤ p.length) : load p n = p.take n := by
  induction n generalizing p with
  | zero => simp [load]
  | succ n ih =>
    cases p with
    | nil => simp at h
    | cons b p => simp [load, ih p (by simpa using h)]

/-! ## Framing -/

theorem unframePacketSize_buildCommandPacket (C : Byte) (P : List Byte)
    (h : 1 + P.length < 2 ^ 31) :
    unframePacketSize (buildCommandPacket C (some P) 0 P.length) = 1 + P.length := by
  rw [buildCommandPacket_some C P h]
  have hl := load_append_left (littleEndianBytes 4 (1 + P.length)) (C :: P)
  rw [littleEndianBytes_length] at hl
  simp only [unframePacketSize, readLittleEndianInt32, List.append_assoc]
  rw [show List.drop 4 ([0xAA, 0xBB, 0xCC, 0xDD] ++ (littleEndianBytes 4 (1 + P.length) ++ C :: P))
      = littleEndianBytes 4 (1 + P.length) ++ C :: P from rfl, hl,
    ofLittleEndian_littleEndianBytes, Nat.mod_eq_of_lt (by omega), toInt32_of_lt _ (by omega)]
  push_cast
  ring

theorem buildCommandPacket_length (C : Byte) (P : List Byte) (h : 1 + P.length < 2 ^ 31) :
    (buildCommandPacket C (some P) 0 P.length).length = 8 + 1 + P.length := by
  rw [buildCommandPacket_some C P h]
  simp [littleEndianBytes_length]
  omega

theorem unframePayload_buildCommandPacket (C : Byte) (P : List Byte)
    (h : 1 + P.length < 2 ^ 31) :
    unframePayload (buildCommandPacket C (some P) 0 P.length) = C :: P := by
  rw [unframePayload, unframePacketSize_buildCommandPacket C P h, buildCommandPacket_some C P h]
  have h8 : List.drop 8 ([0xAA, 0xBB, 0xCC, 0xDD] ++ littleEndianBytes 4 (1 + P.length) ++ C :: P)
      = C :: P := by
    simp [littleEndianBytes]
  rw [h8]
  have : ((1 : Int) + (P.length : Int)).toNat = (C :: P).length := by
    simp only [List.length_cons]
    omega
  rw [this, List.take_length]

/-- C1: for every command code C and data bytes P with 1 + |P| < 2^31, the
packet that SendServerCommand(C, P, 0, |P|) appends to the command queue is
8 + 1 + |P| bytes long, starts with AA BB CC DD, and unframing it gives
packetSize = 1 + |P| and the payload C followed by P. -/
theorem framing_round_trip (s : DataSubscriber) (C : Byte) (P : List Byte)
    (h : 1 + P.length < 2 ^ 31) :
    ∃ packet : CommandPacket,
      (SendServerCommand s C (some P) 0 P.length).m_commandQueue = s.m_commandQueue ++ [packet] ∧
      packet.length = 8 + 1 + P.length ∧
      packet.take 4 = [0xAA, 0xBB, 0xCC, 0xDD] ∧
      unframePacketSize packet = 1 + P.length ∧
      unframePayload packet = C :: P := by
  refine ⟨buildCommandPacket C (some P) 0 P.length, rfl, buildCommandPacket_length C P h, ?_,
    unframePacketSize_buildCommandPacket C P h, unframePayload_buildCommandPacket C P h⟩
  rw [buildCommandPacket_some C P h]
  rfl

/-- C1 at the command code 7 with the data bytes 1, 2, 3. -/
theorem framing_round_trip_witness :
    1 + [(1 : Byte), 2, 3].length < 2 ^ 31 ∧
    ∃ packet : CommandPacket,
      (SendServerCommand idleSubscriber 7 (some [1, 2, 3]) 0 [(1 : Byte), 2, 3].length).m_commandQueue
        = idleSubscriber.m_commandQueue ++ [packet] ∧
      packet.length = 8 + 1 + [(1 : Byte), 2, 3].length ∧
      packet.take 4 = [0xAA, 0xBB, 0xCC, 0xDD] ∧
      unframePacketSize packet = 1 + [(1 : Byte), 2, 3].length ∧
      unframePayload packet = 7 :: [1, 2, 3] :=
  ⟨by decide, framing_round_trip idleSubscriber 7 [1, 2, 3] (by decide)⟩

/-! ## Signal-index cache and base times -/

theorem signalIndexCacheLoop_encodeEntries (es : List SignalIndexEntry)
    (hwf : ∀ e ∈ es, e.WellFormed) (rest : List Byte) (cache : SignalIndexCache) :
    signalIndexCacheLoop es.length (encodeEntries es ++ rest) cache = ⟨cache.entries ++ es⟩ := by
  induction es generalizing cache with
  | nil => simp [signalIndexCacheLoop]
  | cons e es ih =>
    obtain ⟨h1, h2, h3, h4⟩ := hwf e (List.mem_cons_self _ _)
    have hrest : ∀ x ∈ es, x.WellFormed := fun x hx => hwf x (List.mem_cons_of_mem _ hx)
    simp only [List.length_cons, signalIndexCacheLoop, encodeEntries, encodeEntry,
      List.append_assoc, Nat.div_one]
    have hidx : readBigEndianUInt16 (bigEndianBytes 2 e.signalIndex ++ (e.signalID ++
        (bigEndianBytes 4 e.source.length ++ (e.source ++ (bigEndianBytes 4 e.id ++
        (encodeEntries es ++ rest)))))) = e.signalIndex := by
      rw [readBigEndianUInt16, load_bigEndianBytes, ofBigEndian_bigEndianBytes]
      exact Nat.mod_eq_of_lt (by simpa using h1)
    rw [hidx, drop_bigEndianBytes]
    have hguid : ToGuid (e.signalID ++ (bigEndianBytes 4 e.source.length ++ (e.source ++
        (bigEndianBytes 4 e.id ++ (encodeEntries es ++ rest))))) = e.signalID := by
      have := load_append_left e.signalID (bigEndianBytes 4 e.source.length ++ (e.source ++
        (bigEndianBytes 4 e.id ++ (encodeEntries es ++ rest))))
      rwa [h2] at this
    have hdrop : (e.signalID ++ (bigEndianBytes 4 e.source.length ++ (e.source ++
        (bigEndianBytes 4 e.id ++ (encodeEntries es ++ rest))))).drop 16
        = bigEndianBytes 4 e.source.length ++ (e.source ++
        (bigEndianBytes 4 e.id ++ (encodeEntries es ++ rest))) := by
      have := List.drop_left e.signalID (bigEndianBytes 4 e.source.length ++ (e.source ++
        (bigEndianBytes 4 e.id ++ (encodeEntries es ++ rest))))
      rwa [h2] at this
    rw [hguid, hdrop]
    have hsize : toSizeT (readBigEndianInt32 (bigEndianBytes 4 e.source.length ++ (e.source ++
        (bigEndianBytes 4 e.id ++ (encodeEntries es ++ rest))))) = e.source.length := by
      rw [readBigEndianInt32, load_bigEndianBytes, ofBigEndian_bigEndianBytes,
        Nat.mod_eq_of_lt (by omega), toInt32_of_lt _ h3, toSizeT]
      omega
    rw [hsize, drop_bigEndianBytes, load_append_left, List.drop_left]
    have hid : readBigEndianUInt32 (bigEndianBytes 4 e.id ++ (encodeEntries es ++ rest)) = e.id := by
      rw [readBigEndianUInt32, load_bigEndianBytes, ofBigEndian_bigEndianBytes]
      exact Nat.mod_eq_of_lt (by simpa using h4)
    rw [hid, drop_bigEndianBytes, ih hrest]
    simp [SignalIndexCache.AddMeasurementKey]

theorem HandleUpdateSignalIndexCache_body (s : DataSubscriber) (lengthBytes subscriberID : List Byte)
    (entries : List SignalIndexEntry) (trailing : List Byte) (length : Nat)
    (hlen : lengthBytes.length = 4) (hsub : subscriberID.length = 16)
    (hcount : entries.length < 2 ^ 31) (hwf : ∀ e ∈ entries, e.WellFormed) :
    HandleUpdateSignalIndexCache s
        (signalIndexCacheBody lengthBytes subscriberID entries trailing) 0 length
      = { s with m_signalIndexCache := ⟨entries⟩ } := by
  have hdrop : (signalIndexCacheBody lengthBytes subscriberID entries trailing).drop (0 + 20)
      = bigEndianBytes 4 entries.length ++ (encodeEntries entries ++ trailing) := by
    have := List.drop_left (lengthBytes ++ subscriberID)
      (bigEndianBytes 4 entries.length ++ (encodeEntries entries ++ trailing))
    rw [List.length_append, hlen, hsub] at this
    simpa [signalIndexCacheBody] using this
  have hcnt : (readBigEndianInt32
      (bigEndianBytes 4 entries.length ++ (encodeEntries entries ++ trailing))).toNat
      = entries.length := by
    rw [readBigEndianInt32, load_bigEndianBytes, ofBigEndian_bigEndianBytes,
      Nat.mod_eq_of_lt (by omega), toInt32_of_lt _ hcount]
    omega
  simp only [HandleUpdateSignalIndexCache, hdrop, hcnt, drop_bigEndianBytes,
    signalIndexCacheLoop_encodeEntries entries hwf, SignalIndexCache.Clear, List.nil_append]

theorem resolve_of_mem (es : List SignalIndexEntry) (hnodup : (es.map (·.signalIndex)).Nodup)
    (e : SignalIndexEntry) (he : e ∈ es) :
    (SignalIndexCache.mk es).resolve e.signalIndex = some (e.signalID, e.source, e.id) := by
  unfold SignalIndexCache.resolve
  cases hf : es.reverse.find? (fun x => x.signalIndex == e.signalIndex) with
  | none =>
    have := List.find?_eq_none.mp hf e (by simpa using he)
    simp at this
  | some x =>
    have hx : x ∈ es := by simpa using List.mem_of_find?_eq_some hf
    have hp : x.signalIndex = e.signalIndex := by simpa using List.find?_some hf
    have : x = e := List.inj_on_of_nodup_map hnodup hx he hp
    simp [this]

theorem resolve_of_not_mem (es : List SignalIndexEntry) (i : Nat)
    (h : ∀ e ∈ es, e.signalIndex ≠ i) : (SignalIndexCache.mk es).resolve i = none := by
  unfold SignalIndexCache.resolve
  have : es.reverse.find? (fun x => x.signalIndex == i) = none := by
    rw [List.find?_eq_none]
    intro x hx
    simpa using h x (by simpa using hx)
  rw [this]; rfl

/-- C2: for a body made of 4 length bytes, 16 subscriber-GUID bytes, the
big-endian count of N well-formed entries with pairwise distinct signal
indices, the entries and any trailing bytes, HandleUpdateSignalIndexCache
leaves a cache in which each entry's index resolves to that entry's (GUID,
source, id) and every other index resolves to nothing; the trailing bytes do
not change the resulting state. -/
theorem update_signal_index_cache (s : DataSubscriber) (lengthBytes subscriberID : List Byte)
    (entries : List SignalIndexEntry) (trailing : List Byte)
    (hlen : lengthBytes.length = 4) (hsub : subscriberID.length = 16)
    (hcount : entries.length < 2 ^ 31) (hwf : ∀ e ∈ entries, e.WellFormed)
    (hnodup : (entries.map (·.signalIndex)).Nodup) :
    (∀ e ∈ entries,
      (HandleUpdateSignalIndexCache s
        (signalIndexCacheBody lengthBytes subscriberID entries trailing) 0
        (signalIndexCacheBody lengthBytes subscriberID entries trailing).length
        ).m_signalIndexCache.resolve e.signalIndex = some (e.signalID, e.source, e.id)) ∧
    (∀ i, (∀ e ∈ entries, e.signalIndex ≠ i) →
      (HandleUpdateSignalIndexCache s
        (signalIndexCacheBody lengthBytes subscriberID entries trailing) 0
        (signalIndexCacheBody lengthBytes subscriberID entries trailing).length
        ).m_signalIndexCache.resolve i = none) ∧
    (∀ trailing2 : List Byte,
      HandleUpdateSignalIndexCache s
        (signalIndexCacheBody lengthBytes subscriberID entries trailing2) 0
        (signalIndexCacheBody lengthBytes subscriberID entries trailing2).length
      = HandleUpdateSignalIndexCache s
        (signalIndexCacheBody lengthBytes subscriberID entries trailing) 0
        (signalIndexCacheBody lengthBytes subscriberID entries trailing).length) := by
  refine ⟨?_, ?_, ?_⟩
  · intro e he
    rw [HandleUpdateSignalIndexCache_body s _ _ _ _ _ hlen hsub hcount hwf]
    exact resolve_of_mem entries hnodup e he
  · intro i hi
    rw [HandleUpdateSignalIndexCache_body s _ _ _ _ _ hlen hsub hcount hwf]
    exact resolve_of_not_mem entries i hi
  · intro trailing2
    rw [HandleUpdateSignalIndexCache_body s _ _ _ _ _ hlen hsub hcount hwf,
      HandleUpdateSignalIndexCache_body s _ _ _ _ _ hlen hsub hcount hwf]

/-- C2 at the scenario body: index 0x002A resolves to (G, "PPA", 17). -/
theorem update_signal_index_cache_witness :
    ([0, 0, 0, 4] : List Byte).length = 4 ∧ (List.replicate 16 (0 : Byte)).length = 16 ∧
    scenarioEntries.length < 2 ^ 31 ∧ (∀ e ∈ scenarioEntries, e.WellFormed) ∧
    (scenarioEntries.map (·.signalIndex)).Nodup ∧
    (HandleUpdateSignalIndexCache idleSubscriber
        ([0, 0, 0, 4] ++ List.replicate 16 0 ++ [0, 0, 0, 1, 0, 0x2A] ++ scenarioGuid
          ++ [0, 0, 0, 3] ++ lit "PPA" ++ [0, 0, 0, 0x11]) 0 46
      ).m_signalIndexCache.resolve 0x2A = some (scenarioGuid, lit "PPA", 17) :=
  ⟨by decide, by decide, by decide, by decide, by decide,
    (update_signal_index_cache idleSubscriber [0, 0, 0, 4] (List.replicate 16 0) scenarioEntries []
      (by decide) (by decide) (by decide) (by decide) (by decide)).1
      ⟨0x2A, scenarioGuid, lit "PPA", 17⟩ (by decide)⟩

/-- C4 as stated fails: for the body of 20 bytes that starts FF FF FF FE the
big-endian int32 at offset 0 is -2, and HandleUpdateBaseTimes sets the time
index to 2^64 - 2, which is not that int32. -/
theorem negative_time_index_wraps :
    20 ≤ negativeTimeIndexBody.length ∧
    toInt32 (ofBigEndian (negativeTimeIndexBody.take 4)) = -2 ∧
    (HandleUpdateBaseTimes idleSubscriber negativeTimeIndexBody 0
        negativeTimeIndexBody.length).m_timeIndex = 2 ^ 64 - 2 ∧
    ((HandleUpdateBaseTimes idleSubscriber negativeTimeIndexBody 0
        negativeTimeIndexBody.length).m_timeIndex : Int)
      ≠ toInt32 (ofBigEndian (negativeTimeIndexBody.take 4)) := by
  decide

/-- C4, amended: for every UpdateBaseTimes body of at least 20 bytes,
HandleUpdateBaseTimes sets the time index to the big-endian int32 at body
offset 0 converted to size_t, which is that int32 when it is not negative and
that int32 plus 2^64 when it is negative, and the base-time offsets [0] and [1]
to the big-endian int64 values at body offsets 4 and 12. -/
theorem update_base_times (s : DataSubscriber) (body : List Byte) (h : 20 ≤ body.length) :
    (HandleUpdateBaseTimes s body 0 body.length).m_timeIndex
      = toSizeT (toInt32 (ofBigEndian (body.take 4))) ∧
    (0 ≤ toInt32 (ofBigEndian (body.take 4)) →
      ((HandleUpdateBaseTimes s body 0 body.length).m_timeIndex : Int)
        = toInt32 (ofBigEndian (body.take 4))) ∧
    (toInt32 (ofBigEndian (body.take 4)) < 0 →
      ((HandleUpdateBaseTimes s body 0 body.length).m_timeIndex : Int)
        = toInt32 (ofBigEndian (body.take 4)) + 2 ^ 64) ∧
    (HandleUpdateBaseTimes s body 0 body.length).m_baseTimeOffsets
      = (toInt64 (ofBigEndian ((body.drop 4).take 8)),
         toInt64 (ofBigEndian ((body.drop 12).take 8))) := by
  have h4 : load (body.drop 0) 4 = body.take 4 := load_eq_take _ _ (by simp; omega)
  have h8 : load ((body.drop 0).drop 4) 8 = (body.drop 4).take 8 :=
    load_eq_take _ _ (by simp; omega)
  have h12 : load (((body.drop 0).drop 4).drop 8) 8 = (body.drop 12).take 8 := by
    rw [load_eq_take _ _ (by simp; omega)]
    simp
  have hti : (HandleUpdateBaseTimes s body 0 body.length).m_timeIndex
      = toSizeT (toInt32 (ofBigEndian (body.take 4))) := by
    simp only [HandleUpdateBaseTimes, readBigEndianInt32, h4]
  have hlt : toInt32 (ofBigEndian (body.take 4)) < 2 ^ 64 := by
    unfold toInt32
    split <;> omega
  have hge : -(2 ^ 64) ≤ toInt32 (ofBigEndian (body.take 4)) := by
    unfold toInt32
    split <;> omega
  refine ⟨hti, ?_, ?_, ?_⟩
  · intro hpos
    rw [hti, toSizeT]
    rw [Int.emod_eq_of_lt hpos hlt]
    exact Int.toNat_of_nonneg hpos
  · intro hneg
    rw [hti, toSizeT]
    have hmod : toInt32 (ofBigEndian (body.take 4)) % 2 ^ 64
        = toInt32 (ofBigEndian (body.take 4)) + 2 ^ 64 := by
      rw [← Int.add_mul_emod_self (a := toInt32 (ofBigEndian (body.take 4))) (b := 1)
        (c := 2 ^ 64)]
      rw [Int.one_mul]
      exact Int.emod_eq_of_lt (by omega) (by omega)
    rw [hmod]
    exact Int.toNat_of_nonneg (by omega)
  · simp only [HandleUpdateBaseTimes, readBigEndianInt64, h8, h12]

/-- C4 amended, at the scenario body: timeIndex = 1 and offsets =
[10000, 20000]. -/
theorem update_base_times_witness :
    20 ≤ scenarioBaseTimes.length ∧
    ((HandleUpdateBaseTimes idleSubscriber scenarioBaseTimes 0 scenarioBaseTimes.length).m_timeIndex
      = toSizeT (toInt32 (ofBigEndian (scenarioBaseTimes.take 4))) ∧
    (0 ≤ toInt32 (ofBigEndian (scenarioBaseTimes.take 4)) →
      ((HandleUpdateBaseTimes idleSubscriber scenarioBaseTimes 0
          scenarioBaseTimes.length).m_timeIndex : Int)
        = toInt32 (ofBigEndian (scenarioBaseTimes.take 4))) ∧
    (toInt32 (ofBigEndian (scenarioBaseTimes.take 4)) < 0 →
      ((HandleUpdateBaseTimes idleSubscriber scenarioBaseTimes 0
          scenarioBaseTimes.length).m_timeIndex : Int)
        = toInt32 (ofBigEndian (scenarioBaseTimes.take 4)) + 2 ^ 64) ∧
    (HandleUpdateBaseTimes idleSubscriber scenarioBaseTimes 0
        scenarioBaseTimes.length).m_baseTimeOffsets
      = (toInt64 (ofBigEndian ((scenarioBaseTimes.drop 4).take 8)),
         toInt64 (ofBigEndian ((scenarioBaseTimes.drop 12).take 8)))) ∧
    (HandleUpdateBaseTimes idleSubscriber scenarioBaseTimes 0 scenarioBaseTimes.length).m_timeIndex
      = 1 ∧
    (HandleUpdateBaseTimes idleSubscriber scenarioBaseTimes 0
        scenarioBaseTimes.length).m_baseTimeOffsets = (10000, 20000) :=
  ⟨by decide, update_base_times idleSubscriber scenarioBaseTimes (by decide), by decide, by decide⟩

/-- C6: after two well-formed UpdateSignalIndexCache bodies are processed one
after the other, the cache equals the one obtained by processing the second
body alone, whatever the cache held before, and an index that occurs only
among the entries of the first body resolves to nothing. -/
theorem signal_index_cache_rebuild (s s0 : DataSubscriber)
    (lengthBytes1 subscriberID1 : List Byte) (entries1 : List SignalIndexEntry)
    (trailing1 : List Byte)
    (lengthBytes2 subscriberID2 : List Byte) (entries2 : List SignalIndexEntry)
    (trailing2 : List Byte)
    (hlen1 : lengthBytes1.length = 4) (hsub1 : subscriberID1.length = 16)
    (hcount1 : entries1.length < 2 ^ 31) (hwf1 : ∀ e ∈ entries1, e.WellFormed)
    (hlen2 : lengthBytes2.length = 4) (hsub2 : subscriberID2.length = 16)
    (hcount2 : entries2.length < 2 ^ 31) (hwf2 : ∀ e ∈ entries2, e.WellFormed) :
    (HandleUpdateSignalIndexCache
        (HandleUpdateSignalIndexCache s
          (signalIndexCacheBody lengthBytes1 subscriberID1 entries1 trailing1) 0
          (signalIndexCacheBody lengthBytes1 subscriberID1 entries1 trailing1).length)
        (signalIndexCacheBody lengthBytes2 subscriberID2 entries2 trailing2) 0
        (signalIndexCacheBody lengthBytes2 subscriberID2 entries2 trailing2).length
      ).m_signalIndexCache
      = (HandleUpdateSignalIndexCache { s0 with m_signalIndexCache := ⟨[]⟩ }
        (signalIndexCacheBody lengthBytes2 subscriberID2 entries2 trailing2) 0
        (signalIndexCacheBody lengthBytes2 subscriberID2 entries2 trailing2).length
      ).m_signalIndexCache ∧
    (∀ e1 ∈ entries1, (∀ e2 ∈ entries2, e2.signalIndex ≠ e1.signalIndex) →
      (HandleUpdateSignalIndexCache
        (HandleUpdateSignalIndexCache s
          (signalIndexCacheBody lengthBytes1 subscriberID1 entries1 trailing1) 0
          (signalIndexCacheBody lengthBytes1 subscriberID1 entries1 trailing1).length)
        (signalIndexCacheBody lengthBytes2 subscriberID2 entries2 trailing2) 0
        (signalIndexCacheBody lengthBytes2 subscriberID2 entries2 trailing2).length
      ).m_signalIndexCache.resolve e1.signalIndex = none) := by
  rw [HandleUpdateSignalIndexCache_body _ _ _ _ _ _ hlen2 hsub2 hcount2 hwf2,
    HandleUpdateSignalIndexCache_body _ _ _ _ _ _ hlen2 hsub2 hcount2 hwf2,
    HandleUpdateSignalIndexCache_body _ _ _ _ _ _ hlen1 hsub1 hcount1 hwf1]
  exact ⟨rfl, fun e1 _ h => resolve_of_not_mem entries2 e1.signalIndex h⟩

/-- C6 with the scenario entries first and two other entries second: the
index 0x002A of the first body no longer resolves. -/
theorem signal_index_cache_rebuild_witness :
    ([0, 0, 0, 4] : List Byte).length = 4 ∧ (List.replicate 16 (0 : Byte)).length = 16 ∧
    scenarioEntries.length < 2 ^ 31 ∧ (∀ e ∈ scenarioEntries, e.WellFormed) ∧
    otherEntries.length < 2 ^ 31 ∧ (∀ e ∈ otherEntries, e.WellFormed) ∧
    (HandleUpdateSignalIndexCache
        (HandleUpdateSignalIndexCache idleSubscriber
          (signalIndexCacheBody [0, 0, 0, 4] (List.replicate 16 0) scenarioEntries [9, 9]) 0
          (signalIndexCacheBody [0, 0, 0, 4] (List.replicate 16 0) scenarioEntries [9, 9]).length)
        (signalIndexCacheBody [0, 0, 0, 4] (List.replicate 16 0) otherEntries []) 0
        (signalIndexCacheBody [0, 0, 0, 4] (List.replicate 16 0) otherEntries []).length
      ).m_signalIndexCache.resolve 0x2A = none :=
  ⟨by decide, by decide, by decide, by decide, by decide, by decide,
    (signal_index_cache_rebuild idleSubscriber idleSubscriber
      [0, 0, 0, 4] (List.replicate 16 0) scenarioEntries [9, 9]
      [0, 0, 0, 4] (List.replicate 16 0) otherEntries []
      (by decide) (by decide) (by decide) (by decide)
      (by decide) (by decide) (by decide) (by decide)).2
      ⟨0x2A, scenarioGuid, lit "PPA", 17⟩ (by decide) (by decide)⟩

/-! ## Routing of responses -/

theorem Dispatch_m_subscribed (s : DataSubscriber) (f : DispatcherFunction) (d : Option (List Byte))
    (offset length : Nat) : (Dispatch s f d offset length).m_subscribed = s.m_subscribed := rfl

/-- C5: for every response packet whose response code is Succeeded, whatever
follows the two code bytes, ProcessServerResponse sets IsSubscribed to true
when the command code is Subscribe, to false when it is Unsubscribe, and
leaves it unchanged for every other command code. -/
theorem subscribe_unsubscribe_toggle (K : Constants) (hK : K.WellFormed) (s : DataSubscriber)
    (commandCode : Byte) (rest : List Byte) (length : Nat) :
    (ProcessServerResponse K s (K.Succeeded :: commandCode :: rest) 0 length).m_subscribed
      = if commandCode = K.Subscribe then true
        else if commandCode = K.Unsubscribe then false
        else s.m_subscribed := by
  obtain ⟨hcmd, -⟩ := hK
  simp only [List.nodup_cons, List.mem_cons, List.mem_singleton, not_or, List.not_mem_nil,
    not_false_eq_true, List.nodup_nil, and_true] at hcmd
  obtain ⟨⟨hms, hmu, -, -⟩, ⟨hsu, -, -⟩, -⟩ := hcmd
  simp only [ProcessServerResponse, List.getD_cons_zero, List.getD_cons_succ, if_true,
    HandleSucceeded]
  by_cases h1 : commandCode = K.Subscribe
  · subst h1
    simp [Ne.symm hms, DispatchStatusMessage, Dispatch_m_subscribed]
  · by_cases h2 : commandCode = K.Unsubscribe
    · subst h2
      simp [Ne.symm hmu, Ne.symm hsu, DispatchStatusMessage, Dispatch_m_subscribed]
    · simp only [h1, h2, or_self, if_false]
      split
      · rfl
      · split <;> rfl

/-- C5 at the scenario: Succeeded(Subscribe) with body "OK" sets the flag. -/
theorem subscribe_unsubscribe_toggle_witness :
    scenarioConstants.WellFormed ∧
    (ProcessServerResponse scenarioConstants idleSubscriber
        (scenarioConstants.Succeeded :: 0x07 :: ([0, 0, 0, 0] ++ lit "OK")) 0 8).m_subscribed
      = (if (0x07 : Byte) = scenarioConstants.Subscribe then true
        else if (0x07 : Byte) = scenarioConstants.Unsubscribe then false
        else idleSubscriber.m_subscribed) :=
  ⟨by decide, subscribe_unsubscribe_toggle scenarioConstants (by decide) idleSubscriber 0x07
    ([0, 0, 0, 0] ++ lit "OK") 8⟩

/-! ## Delivery of measurements -/

theorem parseMeasurementsLoop_frameLevelTimestamp (source : DataSubscriber)
    (TryParseMeasurement : List Byte → Nat → Nat → Option (Measurement × Nat × Nat))
    (frameLevelTimestamp : Option Int) (buffer : List Byte) (fuel offset length : Nat)
    (newMeasurements : List Measurement) :
    parseMeasurementsLoop source TryParseMeasurement frameLevelTimestamp buffer
        fuel offset length newMeasurements
      = parseMeasurementsLoop source TryParseMeasurement none buffer
        fuel offset length newMeasurements := by
  induction fuel generalizing offset length newMeasurements with
  | zero => rfl
  | succ fuel ih =>
    simp only [parseMeasurementsLoop]
    split
    · split
      · rfl
      · exact ih _ _ _
    · rfl

/-- C3 (defect of the code): on the synchronized scenario packet, whose
frame-level timestamp is 0x0000FA00, the measurement handed to the
new-measurements callback still carries the timestamp 7 the parser produced. -/
theorem synchronized_override_lost :
    (synchronizedPacket.getD 0 0).val &&& scenarioConstants.Synchronized.val ≠ 0 ∧
    readBigEndianInt64 (synchronizedPacket.drop 5) = 0xFA00 ∧
    NewMeasurementsDispatcher scenarioConstants timestampOnlyParser 10
        { idleSubscriber with m_newMeasurementsCallback := true } synchronizedPacket
      = some ({ idleSubscriber with
                  m_newMeasurementsCallback := true
                  m_totalMeasurementsReceived := 1 },
          [.newMeasurements [⟨[], 7, ⟨0⟩, 0⟩]]) := by
  decide


/-! ## Subscribe, Unsubscribe and operational modes -/

theorem subscribeBuffer_eq (cs : StdString) (h : cs.length < 2 ^ 32) :
    subscribeBuffer cs = 0x02 :: (bigEndianBytes 4 cs.length ++ cs) := by
  have h1 : (cs.length * 1) % 2 ^ 32 = cs.length := by
    rw [Nat.mul_one]; exact Nat.mod_eq_of_lt h
  have h2 : cs.length % 2 ^ 32 = cs.length := Nat.mod_eq_of_lt h
  simp only [subscribeBuffer, h1, bytesOfBigEndian32, h2]
  have hrep : (((((List.replicate (5 + cs.length) (0 : Byte)).set 0 2).set 1
      ((bigEndianBytes 4 cs.length).getD 0 0)).set 2
      ((bigEndianBytes 4 cs.length).getD 1 0)).set 3
      ((bigEndianBytes 4 cs.length).getD 2 0)).set 4
      ((bigEndianBytes 4 cs.length).getD 3 0)
      = (0x02 :: bigEndianBytes 4 cs.length) ++ List.replicate cs.length 0 ++ [] := by
    rw [Nat.add_comm]
    simp [List.replicate_succ, bigEndianBytes, littleEndianBytes]
  rw [hrep, copyLoop_append 5 cs 0 cs.length 0 _ _ [] (by simp [bigEndianBytes_length]) (by simp)]
  have hl : load cs cs.length = cs := by simpa using load_append_left cs []
  simp [hl]

theorem subscribeBuffer_length (cs : StdString) (h : cs.length < 2 ^ 32) :
    (subscribeBuffer cs).length = 5 + cs.length := by
  rw [subscribeBuffer_eq cs h]
  simp [bigEndianBytes_length]
  omega


theorem Subscribe_queue (K : Constants) (P : Platform) (s : DataSubscriber)
    (info : SubscriptionInfo) (hret : (Subscribe K P s info).2 = none) :
    (Subscribe K P s info).1.m_commandQueue
      = (if s.m_subscribed then Unsubscribe K s else s).m_commandQueue
          ++ [subscribeFrame K P info] := by
  unfold Subscribe at hret ⊢
  unfold subscribeFrame connectionString
  generalize (if s.m_subscribed = true then Unsubscribe K s else s) = s0 at hret ⊢
  cases hudp : info.UdpDataChannel <;> cases hsock : s0.m_dataChannelSocket <;>
    cases hopen : P.dataChannelOpens <;> cases hbind : P.dataChannelBinds <;>
    simp [hudp, hsock, hopen, hbind, subscribeSend, SendServerCommand] at hret ⊢

theorem Subscribe_info (K : Constants) (P : Platform) (s : DataSubscriber)
    (info : SubscriptionInfo) :
    (Subscribe K P s info).1.m_currentSubscription = info ∧
    (Subscribe K P s info).1.m_totalMeasurementsReceived = 0 := by
  unfold Subscribe
  generalize (if s.m_subscribed = true then Unsubscribe K s else s) = s0
  cases hudp : info.UdpDataChannel <;> cases hsock : s0.m_dataChannelSocket <;>
    cases hopen : P.dataChannelOpens <;> cases hbind : P.dataChannelBinds <;>
    simp [hudp, hsock, hopen, hbind, subscribeSend, SendServerCommand]

theorem Subscribe_returns_iff (K : Constants) (P : Platform) (s : DataSubscriber)
    (info : SubscriptionInfo) :
    (Subscribe K P s info).2 = none ↔
      (info.UdpDataChannel = true →
        (s.m_subscribed = true ∨ s.m_dataChannelSocket = false) ∧
          P.dataChannelOpens = true ∧ P.dataChannelBinds = true) := by
  unfold Subscribe
  cases hsub : s.m_subscribed <;>
  cases hudp : info.UdpDataChannel <;> cases hsock : s.m_dataChannelSocket <;>
    cases hopen : P.dataChannelOpens <;> cases hbind : P.dataChannelBinds <;>
    simp [hudp, hsock, hopen, hbind, hsub, Unsubscribe, SendServerCommand0, SendServerCommand]

theorem subscribeStreamTail_eq (info : SubscriptionInfo) (stringStream : StdString) :
    subscribeStreamTail info stringStream
      = stringStream
        ++ optionalKeyValue "startTimeConstraint" info.StartTime
        ++ optionalKeyValue "stopTimeConstraint" info.StopTime
        ++ optionalKeyValue "timeConstraintParameters" info.ConstraintParameters
        ++ (if info.WaitHandleNames = [] then []
            else keyValue "waitHandleNames" info.WaitHandleNames
              ++ keyValue "waitHandleTimeout" (formatNat info.WaitHandleTimeout))
        ++ (if info.ExtraConnectionStringParameters = [] then []
            else info.ExtraConnectionStringParameters ++ lit ";") := by
  have k8 : lit "startTimeConstraint=" = lit "startTimeConstraint" ++ lit "=" := by decide
  have k9 : lit "stopTimeConstraint=" = lit "stopTimeConstraint" ++ lit "=" := by decide
  have k10 : lit "timeConstraintParameters=" = lit "timeConstraintParameters" ++ lit "=" := by
    decide
  have k11 : lit "waitHandleNames=" = lit "waitHandleNames" ++ lit "=" := by decide
  have k12 : lit "waitHandleTimeout=" = lit "waitHandleTimeout" ++ lit "=" := by decide
  unfold subscribeStreamTail optionalKeyValue keyValue
  rw [k8, k9, k10, k11, k12]
  by_cases h1 : info.StartTime = [] <;> by_cases h2 : info.StopTime = [] <;>
    by_cases h3 : info.ConstraintParameters = [] <;> by_cases h4 : info.WaitHandleNames = [] <;>
    by_cases h5 : info.ExtraConnectionStringParameters = [] <;>
    simp only [h1, h2, h3, h4, h5, List.isEmpty_nil, List.isEmpty_iff, Bool.not_true,
      Bool.false_eq_true, if_false, if_true, Bool.not_eq_true', List.append_nil,
      List.append_assoc, List.isEmpty_eq_false, not_false_eq_true, Bool.not_false, ne_eq]

theorem subscribeStreamHead_eq (P : Platform) (info : SubscriptionInfo) :
    subscribeStreamHead P info
      = keyValue "trackLatestMeasurements" (formatBool info.Throttled)
        ++ keyValue "includeTime" (formatBool info.IncludeTime)
        ++ keyValue "lagTime" (P.formatFloat64 info.LagTime)
        ++ keyValue "leadTime" (P.formatFloat64 info.LeadTime)
        ++ keyValue "useLocalClockAsRealTime" (formatBool info.UseLocalClockAsRealTime)
        ++ keyValue "processingInterval" (formatInt info.ProcessingInterval)
        ++ keyValue "useMillisecondResolution" (formatBool info.UseMillisecondResolution)
        ++ (if info.FilterExpression = [] then []
            else lit "inputMeasurementKeys=\x7b" ++ info.FilterExpression ++ lit "\x7d;") := by
  have k1 : lit "trackLatestMeasurements=" = lit "trackLatestMeasurements" ++ lit "=" := by decide
  have k2 : lit "includeTime=" = lit "includeTime" ++ lit "=" := by decide
  have k3 : lit "lagTime=" = lit "lagTime" ++ lit "=" := by decide
  have k4 : lit "leadTime=" = lit "leadTime" ++ lit "=" := by decide
  have k5 : lit "useLocalClockAsRealTime=" = lit "useLocalClockAsRealTime" ++ lit "=" := by decide
  have k6 : lit "processingInterval=" = lit "processingInterval" ++ lit "=" := by decide
  have k7 : lit "useMillisecondResolution=" = lit "useMillisecondResolution" ++ lit "=" := by
    decide
  unfold subscribeStreamHead keyValue
  rw [k1, k2, k3, k4, k5, k6, k7]
  by_cases h1 : info.FilterExpression = [] <;>
    simp only [h1, List.isEmpty_nil, List.isEmpty_iff, Bool.not_true,
      Bool.false_eq_true, if_false, if_true, Bool.not_eq_true', List.append_nil,
      List.append_assoc, List.isEmpty_eq_false, not_false_eq_true, Bool.not_false, ne_eq,
      List.nil_append]

/-- C7 as stated fails: for the subscription with every option off, the
payload of the frame Subscribe enqueues has the byte 0x02 between the command
code and the length, so it is one byte longer than 1 + 4 + |connection
string| and is not the command code, the length and the string. -/
theorem subscribe_payload_not_code_length_string :
    ¬ ((Subscribe scenarioConstants scenarioPlatform idleSubscriber
          emptySubscription).1.m_commandQueue.map unframePayload
        = [scenarioConstants.Subscribe ::
            (bigEndianBytes 4 (lit "trackLatestMeasurements=0;includeTime=0;lagTime=0;leadTime=0;useLocalClockAsRealTime=0;processingInterval=0;useMillisecondResolution=0;").length
              ++ lit "trackLatestMeasurements=0;includeTime=0;lagTime=0;leadTime=0;useLocalClockAsRealTime=0;processingInterval=0;useMillisecondResolution=0;")]) := by
  decide

/-- C7, amended: when Subscribe returns and the connection string fits a
frame, the last frame of the command queue has the payload made of the
Subscribe command code, the byte 0x02, the 4-byte big-endian length of the
connection string and exactly the connection-string bytes, 1 + 1 + 4 +
|connection string| bytes in all. -/
theorem subscribe_payload (K : Constants) (P : Platform) (s : DataSubscriber)
    (info : SubscriptionInfo) (hret : (Subscribe K P s info).2 = none)
    (hsize : (connectionString P info).length + 6 < 2 ^ 31) :
    ∃ frame : CommandPacket,
      (Subscribe K P s info).1.m_commandQueue.getLast? = some frame ∧
      unframePayload frame
        = K.Subscribe :: 0x02 ::
            (bigEndianBytes 4 (connectionString P info).length ++ connectionString P info) ∧
      (unframePayload frame).length = 1 + 1 + 4 + (connectionString P info).length := by
  have hlt : (connectionString P info).length < 2 ^ 32 := by omega
  have hb := subscribeBuffer_length (connectionString P info) hlt
  have hmod : ((connectionString P info).length * 1) % 2 ^ 32 = (connectionString P info).length := by
    rw [Nat.mul_one]; exact Nat.mod_eq_of_lt hlt
  have hpay : unframePayload (subscribeFrame K P info)
      = K.Subscribe :: 0x02 ::
          (bigEndianBytes 4 (connectionString P info).length ++ connectionString P info) := by
    have h := unframePayload_buildCommandPacket K.Subscribe
      (subscribeBuffer (connectionString P info)) (by rw [hb]; omega)
    rw [hb, subscribeBuffer_eq _ hlt] at h
    rw [subscribeFrame, hmod, subscribeBuffer_eq _ hlt]
    exact h
  refine ⟨subscribeFrame K P info, ?_, hpay, ?_⟩
  · rw [Subscribe_queue K P s info hret]
    simp
  · rw [hpay]
    simp [bigEndianBytes_length]
    omega

/-- C7 amended, at the subscription with every option off. -/
theorem subscribe_payload_witness :
    (Subscribe scenarioConstants scenarioPlatform idleSubscriber emptySubscription).2 = none ∧
    (connectionString scenarioPlatform emptySubscription).length + 6 < 2 ^ 31 ∧
    ∃ frame : CommandPacket,
      (Subscribe scenarioConstants scenarioPlatform idleSubscriber
        emptySubscription).1.m_commandQueue.getLast? = some frame ∧
      unframePayload frame
        = scenarioConstants.Subscribe :: 0x02 ::
            (bigEndianBytes 4 (connectionString scenarioPlatform emptySubscription).length
              ++ connectionString scenarioPlatform emptySubscription) ∧
      (unframePayload frame).length
        = 1 + 1 + 4 + (connectionString scenarioPlatform emptySubscription).length :=
  ⟨by decide, by decide,
    subscribe_payload scenarioConstants scenarioPlatform idleSubscriber emptySubscription
      (by decide) (by decide)⟩

/-- C8 as stated fails: for a subscriber whose command socket is open,
SetMetadataCompressed(true) enqueues a frame whose payload is 5 bytes long,
the command code 06 and the four bytes of the mask, without 00 00 00 06 in
between. -/
theorem operational_modes_payload_not_nine_bytes :
    ¬ ((SetMetadataCompressed scenarioConstants
          { idleSubscriber with m_connected := true, m_commandChannelSocket := true }
          true).m_commandQueue.map unframePayload
        = [[0x06, 0x00, 0x00, 0x00, 0x06] ++
            bigEndianBytes 4 (scenarioConstants.CompressMetadata |||
              scenarioConstants.UseCommonSerializationFormat ||| scenarioConstants.UTF8)]) := by
  decide

theorem operationalModes_mask (K : Constants) (hK : K.WellFormed) :
    ((((K.NoFlags % 2 ^ 32 ||| K.UTF8) % 2 ^ 32 ||| K.UseCommonSerializationFormat) % 2 ^ 32
        ||| K.CompressMetadata) % 2 ^ 32) % 2 ^ 32
      = K.CompressMetadata ||| K.UseCommonSerializationFormat ||| K.UTF8 := by
  obtain ⟨-, -, h0, h1, h2, h3⟩ := hK
  have e1 : (K.NoFlags % 2 ^ 32 ||| K.UTF8) % 2 ^ 32 = K.UTF8 := by
    rw [h0]; simpa using Nat.mod_eq_of_lt h3
  have e2 : (K.UTF8 ||| K.UseCommonSerializationFormat) % 2 ^ 32
      = K.UTF8 ||| K.UseCommonSerializationFormat :=
    Nat.mod_eq_of_lt (Nat.or_lt_two_pow h3 h1)
  have e3 : (K.UTF8 ||| K.UseCommonSerializationFormat ||| K.CompressMetadata) % 2 ^ 32
      = K.UTF8 ||| K.UseCommonSerializationFormat ||| K.CompressMetadata :=
    Nat.mod_eq_of_lt (Nat.or_lt_two_pow (Nat.or_lt_two_pow h3 h1) h2)
  rw [e1, e2, e3, e3, Nat.lor_comm K.UTF8, Nat.lor_comm _ K.CompressMetadata, Nat.lor_assoc]

/-- C8, amended: for a subscriber whose command socket is open,
SetMetadataCompressed(true) appends one frame to the command queue, and its
payload is the DefineOperationalModes command code followed directly by the
4-byte big-endian encoding of the mask CompressMetadata |
UseCommonSerializationFormat | UTF8. -/
theorem operational_modes_payload (K : Constants) (hK : K.WellFormed) (s : DataSubscriber)
    (hsock : s.m_commandChannelSocket = true) :
    ∃ frame : CommandPacket,
      (SetMetadataCompressed K s true).m_commandQueue = s.m_commandQueue ++ [frame] ∧
      unframePayload frame
        = K.DefineOperationalModes ::
            bigEndianBytes 4 (K.CompressMetadata ||| K.UseCommonSerializationFormat ||| K.UTF8) := by
  have h := unframePayload_buildCommandPacket K.DefineOperationalModes
    (bigEndianBytes 4 (K.CompressMetadata ||| K.UseCommonSerializationFormat ||| K.UTF8))
    (by rw [bigEndianBytes_length]; decide)
  rw [bigEndianBytes_length] at h
  refine ⟨_, ?_, h⟩
  simp only [SetMetadataCompressed, hsock, if_true, SendOperationalModes, SendServerCommand,
    bytesOfBigEndian32, operationalModes_mask K hK]

/-- C8 amended, at the scenario constants. -/
theorem operational_modes_payload_witness :
    scenarioConstants.WellFormed ∧
    ({ idleSubscriber with m_connected := true, m_commandChannelSocket := true }
      : DataSubscriber).m_commandChannelSocket = true ∧
    ∃ frame : CommandPacket,
      (SetMetadataCompressed scenarioConstants
        { idleSubscriber with m_connected := true, m_commandChannelSocket := true }
        true).m_commandQueue
        = ({ idleSubscriber with m_connected := true, m_commandChannelSocket := true }
            : DataSubscriber).m_commandQueue ++ [frame] ∧
      unframePayload frame
        = scenarioConstants.DefineOperationalModes ::
            bigEndianBytes 4 (scenarioConstants.CompressMetadata |||
              scenarioConstants.UseCommonSerializationFormat ||| scenarioConstants.UTF8) :=
  ⟨by decide, rfl,
    operational_modes_payload scenarioConstants (by decide)
      { idleSubscriber with m_connected := true, m_commandChannelSocket := true } rfl⟩

theorem getLast?_append_semicolon (l : StdString) : (l ++ lit ";").getLast? = some 59 := by
  have : lit ";" = [59] := by decide
  rw [this]; simp

theorem getLast?_append_brace_semicolon (l : StdString) :
    (l ++ lit "\x7d;").getLast? = some 59 := by
  have : lit "\x7d;" = [125, 59] := by decide
  rw [this]
  simp [List.getLast?_append]

theorem referenceConnectionString_getLast? (P : Platform) (info : SubscriptionInfo) :
    (referenceConnectionString P info).getLast? = some 59 := by
  unfold referenceConnectionString optionalKeyValue keyValue
  split_ifs <;>
    simp only [List.append_nil, ← List.append_assoc, getLast?_append_semicolon,
      getLast?_append_brace_semicolon]

theorem connectionString_eq_reference (P : Platform) (info : SubscriptionInfo)
    (hudp : info.UdpDataChannel = false) :
    connectionString P info = referenceConnectionString P info := by
  unfold connectionString referenceConnectionString
  simp only [hudp, Bool.false_eq_true, if_false]
  rw [subscribeStreamTail_eq, subscribeStreamHead_eq]

/-- C9: for every SubscriptionInfo without a UDP data channel, the connection
string Subscribe builds is the reference concatenation of the seven
always-present pairs and of the optional settings, each present if and only if
its value is not empty, in the stated order; the string ends with ';', and
Subscribe returns after sending exactly that string. -/
theorem connection_string (K : Constants) (P : Platform) (s : DataSubscriber)
    (info : SubscriptionInfo) (hudp : info.UdpDataChannel = false) :
    connectionString P info = referenceConnectionString P info ∧
    (connectionString P info).getLast? = some 59 ∧
    Subscribe K P s info
      = (subscribeSend K
          { (if s.m_subscribed then Unsubscribe K s else s) with
            m_currentSubscription := info
            m_totalMeasurementsReceived := 0 }
          (referenceConnectionString P info), none) := by
  have h := connectionString_eq_reference P info hudp
  refine ⟨h, ?_, ?_⟩
  · rw [h]; exact referenceConnectionString_getLast? P info
  · rw [← h]
    unfold Subscribe connectionString
    simp [hudp]

/-- C9 at a subscription that sets every optional string. -/
theorem connection_string_witness :
    fullSubscription.UdpDataChannel = false ∧
    (connectionString scenarioPlatform fullSubscription
        = referenceConnectionString scenarioPlatform fullSubscription ∧
      (connectionString scenarioPlatform fullSubscription).getLast? = some 59 ∧
      Subscribe scenarioConstants scenarioPlatform idleSubscriber fullSubscription
        = (subscribeSend scenarioConstants
            { (if idleSubscriber.m_subscribed then Unsubscribe scenarioConstants idleSubscriber
                else idleSubscriber) with
              m_currentSubscription := fullSubscription
              m_totalMeasurementsReceived := 0 }
            (referenceConnectionString scenarioPlatform fullSubscription), none)) ∧
    connectionString scenarioPlatform fullSubscription
      = lit "trackLatestMeasurements=1;includeTime=1;lagTime=10;leadTime=5;useLocalClockAsRealTime=0;processingInterval=-1;useMillisecondResolution=1;inputMeasurementKeys=\x7bPPA:1;PPA:2\x7d;startTimeConstraint=*-5M;stopTimeConstraint=*;timeConstraintParameters=x;waitHandleNames=h1;waitHandleTimeout=1000;a=b;" :=
  ⟨rfl, connection_string scenarioConstants scenarioPlatform idleSubscriber fullSubscription rfl,
    by decide⟩

theorem unsubscribeFrame_eq (K : Constants) :
    unsubscribeFrame K = [0xAA, 0xBB, 0xCC, 0xDD, 0x01, 0x00, 0x00, 0x00, K.Unsubscribe] := by
  simp [unsubscribeFrame, buildCommandPacket, bytesOfLittleEndian32, littleEndianBytes]

theorem subscribeFrame_commandCode (K : Constants) (P : Platform) (info : SubscriptionInfo) :
    (subscribeFrame K P info)[8]? = some K.Subscribe := by
  unfold subscribeFrame
  apply buildCommandPacket_commandCode
  have : (connectionString P info).length * 1 % 2 ^ 32 < 2 ^ 32 := Nat.mod_lt _ (by decide)
  omega

/-- C10 as stated fails: when the subscription asks for a UDP data channel
and the local port cannot be bound, Subscribe throws before it sends the
Subscribe command, so the command queue of a subscriber that was not
subscribed gains no frame at all. -/
theorem subscribe_throws_before_subscribe_frame :
    IsSubscribed idleSubscriber = false ∧
    (Subscribe scenarioConstants portInUsePlatform idleSubscriber udpSubscription).2 ≠ none ∧
    ¬ ∃ frame : CommandPacket,
      (Subscribe scenarioConstants portInUsePlatform idleSubscriber
        udpSubscription).1.m_commandQueue = idleSubscriber.m_commandQueue ++ [frame] := by
  refine ⟨rfl, by decide, ?_⟩
  rintro ⟨frame, h⟩
  have h0 : (Subscribe scenarioConstants portInUsePlatform idleSubscriber
      udpSubscription).1.m_commandQueue = [] := by decide
  rw [h0] at h
  simp [idleSubscriber] at h

/-- C10, amended: for every subscriber state from which Subscribe(info)
returns, the command queue gains the Unsubscribe frame followed directly by
the Subscribe frame (the frame whose payload starts with the Subscribe command
code) when IsSubscribed was true, and only the Subscribe frame when it was
false; afterwards GetCurrentSubscription returns info and the
total-measurements counter is 0. -/
theorem at_most_one_subscription (K : Constants) (P : Platform) (s : DataSubscriber)
    (info : SubscriptionInfo) (hret : (Subscribe K P s info).2 = none) :
    (IsSubscribed s = true →
      (Subscribe K P s info).1.m_commandQueue
        = s.m_commandQueue
            ++ [[0xAA, 0xBB, 0xCC, 0xDD, 0x01, 0x00, 0x00, 0x00, K.Unsubscribe],
                subscribeFrame K P info]) ∧
    (IsSubscribed s = false →
      (Subscribe K P s info).1.m_commandQueue = s.m_commandQueue ++ [subscribeFrame K P info]) ∧
    (subscribeFrame K P info)[8]? = some K.Subscribe ∧
    GetCurrentSubscription (Subscribe K P s info).1 = info ∧
    GetTotalMeasurementsReceived (Subscribe K P s info).1 = 0 := by
  refine ⟨?_, ?_, subscribeFrame_commandCode K P info, (Subscribe_info K P s info).1,
    (Subscribe_info K P s info).2⟩
  · intro hsub
    rw [Subscribe_queue K P s info hret]
    simp only [IsSubscribed] at hsub
    simp [hsub, Unsubscribe, SendServerCommand0, SendServerCommand, ← unsubscribeFrame_eq,
      unsubscribeFrame]
  · intro hsub
    rw [Subscribe_queue K P s info hret]
    simp only [IsSubscribed] at hsub
    simp [hsub]

/-- C10 amended, at a subscriber that is subscribed: the queue gains the Unsubscribe
frame and then the Subscribe frame. -/
theorem at_most_one_subscription_witness :
    (Subscribe scenarioConstants scenarioPlatform { idleSubscriber with m_subscribed := true }
      fullSubscription).2 = none ∧
    (Subscribe scenarioConstants scenarioPlatform { idleSubscriber with m_subscribed := true }
      fullSubscription).1.m_commandQueue
      = ({ idleSubscriber with m_subscribed := true } : DataSubscriber).m_commandQueue
          ++ [[0xAA, 0xBB, 0xCC, 0xDD, 0x01, 0x00, 0x00, 0x00, scenarioConstants.Unsubscribe],
              subscribeFrame scenarioConstants scenarioPlatform fullSubscription] :=
  ⟨by decide,
    (at_most_one_subscription scenarioConstants scenarioPlatform
      { idleSubscriber with m_subscribed := true } fullSubscription (by decide)).1 rfl⟩

/-! ## Dispatches produced by responses -/

theorem load_length_self (l : List Byte) : load l l.length = l := by
  simpa using load_append_left l []

theorem Dispatch_some (s : DataSubscriber) (f : DispatcherFunction) (d : List Byte)
    (offset length : Nat) :
    Dispatch s f (some d) offset length
      = { s with m_callbackQueue := s.m_callbackQueue ++ [⟨f, load (d.drop offset) length⟩] } := by
  have h := copyLoop_append 0 d offset length 0 [] (List.replicate length 0) [] rfl (by simp)
  simp only [List.nil_append, List.append_nil, Nat.add_zero] at h
  simp only [Dispatch, h]

theorem DispatchErrorMessage_eq (s : DataSubscriber) (message : StdString) :
    DispatchErrorMessage s message
      = { s with m_callbackQueue := s.m_callbackQueue ++ [⟨.ErrorMessageDispatcher, message⟩] } := by
  rw [DispatchErrorMessage, Dispatch_some, Nat.mul_one, List.drop_zero, load_length_self]

theorem DispatchStatusMessage_eq (s : DataSubscriber) (message : StdString) :
    DispatchStatusMessage s message
      = { s with m_callbackQueue := s.m_callbackQueue ++ [⟨.StatusMessageDispatcher, message⟩] } := by
  rw [DispatchStatusMessage, Dispatch_some, Nat.mul_one, List.drop_zero, load_length_self]

theorem bodyLength_eq (n : Nat) (h : n + 6 < 2 ^ 64) : (6 + n + 2 ^ 64 - 6) % 2 ^ 64 = n := by
  omega

theorem load_body (flags B : List Byte) (hflags : flags.length = 4) (c r : Byte) :
    load (List.drop 0 ((r :: c :: (flags ++ B)).drop 6)) B.length = B := by
  have : (r :: c :: (flags ++ B)).drop 6 = B := by
    have h := List.drop_left flags B
    rw [hflags] at h
    simpa using h
  rw [List.drop_zero, this, load_length_self]

/-- C12: for every response whose response code is none of Succeeded, Failed,
DataPacket, DataStartTime, ProcessingComplete, UpdateSignalIndexCache and
UpdateBaseTimes, ProcessServerResponse returns the subscriber state as it was:
no member changes and neither queue gains an element. -/
theorem unknown_response_code_dropped (K : Constants) (s : DataSubscriber) (buffer : List Byte)
    (offset length : Nat)
    (h : buffer.getD 0 0 ∉ [K.Succeeded, K.Failed, K.DataPacket, K.DataStartTime,
      K.ProcessingComplete, K.UpdateSignalIndexCache, K.UpdateBaseTimes]) :
    ProcessServerResponse K s buffer offset length = s := by
  simp only [List.mem_cons, List.mem_singleton, List.not_mem_nil, or_false, not_or] at h
  obtain ⟨h1, h2, h3, h4, h5, h6, h7⟩ := h
  simp only [ProcessServerResponse, h1, h2, h3, h4, h5, h6, h7, if_false]

/-- C12 at a response of 8 bytes with the unused response code 0x90. -/
theorem unknown_response_code_dropped_witness :
    ([0x90, 0x07, 0, 0, 0, 0, 1, 2] : List Byte).getD 0 0 ∉
      [scenarioConstants.Succeeded, scenarioConstants.Failed, scenarioConstants.DataPacket,
        scenarioConstants.DataStartTime, scenarioConstants.ProcessingComplete,
        scenarioConstants.UpdateSignalIndexCache, scenarioConstants.UpdateBaseTimes] ∧
    ProcessServerResponse scenarioConstants idleSubscriber [0x90, 0x07, 0, 0, 0, 0, 1, 2] 0 8
      = idleSubscriber :=
  ⟨by decide, unknown_response_code_dropped scenarioConstants idleSubscriber
    [0x90, 0x07, 0, 0, 0, 0, 1, 2] 0 8 (by decide)⟩

theorem HandleSucceeded_message (K : Constants) (hK : K.WellFormed) (s : DataSubscriber)
    (c : Byte) (data : List Byte) (offset length : Nat)
    (hc : c ∈ [K.Subscribe, K.Unsubscribe, K.Authenticate, K.RotateCipherKeys]) :
    HandleSucceeded K s c data offset length
      = { s with
          m_subscribed :=
            if c = K.Subscribe then true else if c = K.Unsubscribe then false else s.m_subscribed
          m_callbackQueue := s.m_callbackQueue ++
            [⟨.StatusMessageDispatcher, succeededMessage c data offset length⟩] } := by
  obtain ⟨hcmd, -⟩ := hK
  simp only [List.nodup_cons, List.mem_cons, List.mem_singleton, not_or, List.not_mem_nil,
    not_false_eq_true, List.nodup_nil, and_true] at hcmd
  obtain ⟨⟨hms, hmu, hma, hmr⟩, ⟨hsu, -, -⟩, -⟩ := hcmd
  simp only [List.mem_cons, List.mem_singleton, List.not_mem_nil, or_false] at hc
  simp only [HandleSucceeded, Nat.div_one, DispatchStatusMessage_eq]
  rcases hc with h | h | h | h
  · subst h
    simp [Ne.symm hms]
  · subst h
    simp [Ne.symm hmu, Ne.symm hsu]
  · subst h
    simp only [Ne.symm hma, if_false, or_true, if_true]
    split <;> rename_i h
    · rcases h with h | h <;> simp [h]
    · simp only [not_or] at h
      simp [h.1, h.2]
  · subst h
    simp only [Ne.symm hmr, if_false, or_true, if_true]
    split <;> rename_i h
    · rcases h with h | h <;> simp [h]
    · simp only [not_or] at h
      simp [h.1, h.2]

theorem ProcessServerResponse_callbackQueue (K : Constants) (s : DataSubscriber)
    (response : Response) :
    (ProcessServerResponse K s response.1 0 response.2).m_callbackQueue
      = s.m_callbackQueue ++ dispatchesOf K response := by
  simp only [dispatchesOf, ProcessServerResponse, HandleSucceeded, HandleFailed, HandleDataPacket,
    HandleDataStartTime, HandleProcessingComplete, HandleMetadataRefresh,
    HandleUpdateSignalIndexCache, HandleUpdateBaseTimes, DispatchStatusMessage_eq,
    DispatchErrorMessage_eq, Dispatch_some]
  split_ifs <;> simp [idleSubscriber]

theorem processServerResponses_callbackQueue (K : Constants) (s : DataSubscriber)
    (responses : List Response) :
    (processServerResponses K s responses).m_callbackQueue
      = s.m_callbackQueue ++ (responses.map (dispatchesOf K)).flatten := by
  induction responses generalizing s with
  | nil => simp [processServerResponses]
  | cons r rs ih =>
    rw [processServerResponses, ih, ProcessServerResponse_callbackQueue]
    simp

theorem parseMeasurementsLoop_callbackQueue (source : DataSubscriber)
    (q : List CallbackDispatcher)
    (TryParseMeasurement : List Byte → Nat → Nat → Option (Measurement × Nat × Nat))
    (frameLevelTimestamp : Option Int) (buffer : List Byte) (fuel offset length : Nat)
    (newMeasurements : List Measurement) :
    parseMeasurementsLoop { source with m_callbackQueue := q } TryParseMeasurement
        frameLevelTimestamp buffer fuel offset length newMeasurements
      = parseMeasurementsLoop source TryParseMeasurement frameLevelTimestamp buffer
        fuel offset length newMeasurements := by
  induction fuel generalizing offset length newMeasurements with
  | zero => rfl
  | succ fuel ih =>
    simp only [parseMeasurementsLoop]
    split
    · split
      · rfl
      · exact ih _ _ _
    · rfl

theorem NewMeasurementsDispatcher_callbackQueue (K : Constants)
    (parser : CompactMeasurementParser) (fuel : Nat) (s : DataSubscriber)
    (q : List CallbackDispatcher) (data : List Byte) :
    NewMeasurementsDispatcher K parser fuel { s with m_callbackQueue := q } data
      = (NewMeasurementsDispatcher K parser fuel s data).map
          (fun r => ({ r.1 with m_callbackQueue := q }, r.2)) := by
  have key := parseMeasurementsLoop_callbackQueue
    { s with m_totalMeasurementsReceived :=
        s.m_totalMeasurementsReceived + readBigEndianInt32 (data.drop 1) } q
  unfold NewMeasurementsDispatcher
  simp only [] at key ⊢
  rw [key]
  cases s.m_newMeasurementsCallback
  · rfl
  · simp only [if_true]
    split
    · rfl
    · split <;> rfl

theorem invoke_callbackQueue (K : Constants) (parser : CompactMeasurementParser) (fuel : Nat)
    (d : CallbackDispatcher) (s : DataSubscriber) (q : List CallbackDispatcher) :
    d.invoke K parser fuel (s.withCallbackQueue q)
      = (d.invoke K parser fuel s).map (fun r => (r.1.withCallbackQueue q, r.2)) := by
  obtain ⟨f, data⟩ := d
  cases f <;> simp only [CallbackDispatcher.invoke, Option.map_some']
  all_goals first
    | rfl
    | exact NewMeasurementsDispatcher_callbackQueue K parser fuel s q data

theorem NewMeasurementsDispatcher_disconnecting (K : Constants)
    (parser : CompactMeasurementParser) (fuel : Nat) (s : DataSubscriber) (data : List Byte)
    (r : DataSubscriber × List CallbackEvent)
    (h : NewMeasurementsDispatcher K parser fuel s data = some r) :
    r.1.m_disconnecting = s.m_disconnecting := by
  unfold NewMeasurementsDispatcher at h
  simp only [] at h
  split at h
  · split at h
    · simp at h
    · split at h <;>
      · simp only [Option.some.injEq] at h
        rw [← h]
  · simp only [Option.some.injEq] at h
    rw [← h]

theorem invoke_disconnecting (K : Constants) (parser : CompactMeasurementParser) (fuel : Nat)
    (d : CallbackDispatcher) (s : DataSubscriber) (r : DataSubscriber × List CallbackEvent)
    (h : d.invoke K parser fuel s = some r) : r.1.m_disconnecting = s.m_disconnecting := by
  obtain ⟨f, data⟩ := d
  cases f <;> simp only [CallbackDispatcher.invoke] at h
  all_goals first
    | (simp only [Option.some.injEq] at h; rw [← h])
    | exact NewMeasurementsDispatcher_disconnecting K parser fuel s data r h

theorem withCallbackQueue_withCallbackQueue (s : DataSubscriber)
    (q1 q2 : List CallbackDispatcher) :
    (s.withCallbackQueue q1).withCallbackQueue q2 = s.withCallbackQueue q2 := rfl

theorem withCallbackQueue_disconnecting (s : DataSubscriber) (q : List CallbackDispatcher) :
    (s.withCallbackQueue q).m_disconnecting = s.m_disconnecting := rfl

theorem withCallbackQueue_callbackQueue (s : DataSubscriber) (q : List CallbackDispatcher) :
    (s.withCallbackQueue q).m_callbackQueue = q := rfl

theorem runCallbackQueue_disconnecting_events (K : Constants) (parser : CompactMeasurementParser)
    (fuel : Nat) (q : List CallbackDispatcher) (s : DataSubscriber)
    (h : s.m_disconnecting = true) :
    (runCallbackQueue K parser fuel q s).map Prod.snd = some [] := by
  cases q with
  | nil => rfl
  | cons d rest => simp only [runCallbackQueue, h, if_true, Option.map_some']

theorem RunCallbackThread_append (K : Constants) (parser : CompactMeasurementParser) (fuel : Nat)
    (q1 q2 : List CallbackDispatcher) (s : DataSubscriber) :
    (RunCallbackThread K parser fuel (s.withCallbackQueue (q1 ++ q2))).map Prod.snd
      = (RunCallbackThread K parser fuel (s.withCallbackQueue q1)).bind
          (fun r1 =>
            if CallbackEvent.nullCallback ∈ r1.2 then some r1.2
            else (RunCallbackThread K parser fuel (r1.1.withCallbackQueue q2)).map
              (fun r2 => r1.2 ++ r2.2)) := by
  induction q1 generalizing s with
  | nil =>
    simp only [RunCallbackThread, List.nil_append, runCallbackQueue, Option.some_bind,
      withCallbackQueue_callbackQueue, withCallbackQueue_withCallbackQueue, List.not_mem_nil,
      if_false, List.nil_append]
  | cons d rest ih =>
    cases hnd : s.m_disconnecting with
    | true =>
      have h2 := runCallbackQueue_disconnecting_events K parser fuel q2 (s.withCallbackQueue q2) hnd
      simp only [RunCallbackThread, List.cons_append, runCallbackQueue,
        withCallbackQueue_callbackQueue, withCallbackQueue_withCallbackQueue,
        withCallbackQueue_disconnecting, hnd, if_true, Option.map_some', Option.some_bind,
        List.not_mem_nil, if_false, List.nil_append]
      cases hq : runCallbackQueue K parser fuel q2 (s.withCallbackQueue q2) with
      | none => simp [hq] at h2
      | some r2 =>
        simp only [hq, Option.map_some', Option.some.injEq] at h2
        simp only [Option.map_some', h2]
    | false =>
      simp only [RunCallbackThread, List.cons_append, runCallbackQueue, hnd, Bool.false_eq_true,
        if_false, withCallbackQueue_callbackQueue, withCallbackQueue_withCallbackQueue,
        withCallbackQueue_disconnecting, invoke_callbackQueue, List.append_eq]
      cases hinv : d.invoke K parser fuel s with
      | none => rfl
      | some r =>
        simp only [Option.map_some']
        by_cases hnull : CallbackEvent.nullCallback ∈ r.2
        · simp only [hnull, if_true, Option.map_some', Option.some_bind]
        · have := ih r.1
          simp only [RunCallbackThread, withCallbackQueue_callbackQueue] at this
          simp only [hnull, if_false]
          cases hrest : runCallbackQueue K parser fuel rest (r.1.withCallbackQueue rest) with
          | none =>
            rw [hrest] at this
            simp only [Option.none_bind, Option.map_eq_none'] at this
            simp only [this, Option.map_none', Option.none_bind]
          | some r1 =>
            rw [hrest] at this
            simp only [Option.some_bind] at this
            simp only [Option.some_bind, List.mem_append, hnull, false_or]
            cases hall : runCallbackQueue K parser fuel (rest ++ q2)
                (r.1.withCallbackQueue (rest ++ q2)) with
            | none =>
              rw [hall] at this
              simp only [Option.map_none'] at this
              by_cases hn1 : CallbackEvent.nullCallback ∈ r1.2
              · simp [hn1] at this
              · simp only [hn1, if_false] at this ⊢
                simp only [Option.map_none']
                cases hq2 : runCallbackQueue K parser fuel q2 (r1.1.withCallbackQueue q2) with
                | none => rfl
                | some r2 => simp [hq2] at this
            | some rall =>
              rw [hall] at this
              simp only [Option.map_some'] at this
              by_cases hn1 : CallbackEvent.nullCallback ∈ r1.2
              · simp only [hn1, if_true, Option.some.injEq] at this ⊢
                simp only [Option.map_some', this]
              · simp only [hn1, if_false] at this ⊢
                cases hq2 : runCallbackQueue K parser fuel q2 (r1.1.withCallbackQueue q2) with
                | none => simp [hq2] at this
                | some r2 =>
                  simp only [hq2, Option.map_some', Option.some.injEq] at this
                  simp only [Option.map_some', this, List.append_assoc]

theorem dispatchesOf_length (K : Constants) (response : Response) :
    (dispatchesOf K response).length ≤ 1 := by
  simp only [dispatchesOf, ProcessServerResponse, HandleSucceeded, HandleFailed, HandleDataPacket,
    HandleDataStartTime, HandleProcessingComplete, HandleMetadataRefresh,
    HandleUpdateSignalIndexCache, HandleUpdateBaseTimes, DispatchStatusMessage_eq,
    DispatchErrorMessage_eq, Dispatch_some]
  split_ifs <;> simp [idleSubscriber]

theorem processServerResponses_subscribe_dataPacket (K : Constants) (hK : K.WellFormed)
    (s : DataSubscriber) (c : Byte) (flags1 B1 flags2 B2 : List Byte)
    (hflags1 : flags1.length = 4) (hB1 : B1.length + 6 < 2 ^ 64)
    (hflags2 : flags2.length = 4) (hB2 : B2.length + 6 < 2 ^ 64) :
    processServerResponses K s
        [(K.Succeeded :: K.Subscribe :: (flags1 ++ B1), 6 + B1.length),
          (K.DataPacket :: c :: (flags2 ++ B2), 6 + B2.length)]
      = { s with
          m_subscribed := true
          m_callbackQueue := s.m_callbackQueue ++
            [⟨.StatusMessageDispatcher,
                lit "Received success code in response to server command 0x"
                  ++ hexOfByte K.Subscribe ++ lit ": " ++ B1⟩,
              ⟨.NewMeasurementsDispatcher, B2⟩] } := by
  have hne := hK.2.1
  simp only [List.nodup_cons, List.mem_cons, List.mem_singleton, not_or, List.not_mem_nil,
    not_false_eq_true, List.nodup_nil, and_true] at hne
  obtain ⟨⟨-, h13, -⟩, ⟨h23, -⟩, -⟩ := hne
  simp only [processServerResponses, ProcessServerResponse, List.getD_cons_zero,
    List.getD_cons_succ, if_true, Ne.symm h13, Ne.symm h23, if_false, bodyLength_eq _ hB1,
    bodyLength_eq _ hB2, HandleSucceeded_message K hK _ _ _ _ _ (List.mem_cons_self _ _),
    succeededMessage, load_body flags1 B1 hflags1, HandleDataPacket, Dispatch_some,
    load_body flags2 B2 hflags2, List.append_assoc, List.singleton_append]

theorem RunCallbackThread_status_then_measurements (K : Constants)
    (parser : CompactMeasurementParser) (fuel : Nat) (s : DataSubscriber)
    (message : StdString) (data : List Byte)
    (hnd : s.m_disconnecting = false) (hcb : s.m_statusMessageCallback = true) :
    (RunCallbackThread K parser fuel
        (s.withCallbackQueue
          [⟨.StatusMessageDispatcher, message⟩, ⟨.NewMeasurementsDispatcher, data⟩])).map Prod.snd
      = (NewMeasurementsDispatcher K parser fuel (s.withCallbackQueue []) data).map
          (fun r => CallbackEvent.statusMessage message :: r.2) := by
  simp only [RunCallbackThread, runCallbackQueue, withCallbackQueue_callbackQueue,
    withCallbackQueue_withCallbackQueue, withCallbackQueue_disconnecting, hnd,
    Bool.false_eq_true, if_false, CallbackDispatcher.invoke, StatusMessageDispatcher,
    load_length_self]
  have hcb2 : (s.withCallbackQueue
      [⟨.NewMeasurementsDispatcher, data⟩]).m_statusMessageCallback = true := hcb
  simp only [hcb2, if_true, List.mem_singleton, reduceCtorEq, if_false,
    withCallbackQueue_withCallbackQueue, withCallbackQueue_disconnecting, hnd,
    Bool.false_eq_true]
  cases hnmd : NewMeasurementsDispatcher K parser fuel (s.withCallbackQueue []) data with
  | none => rfl
  | some r =>
    simp only [Option.map_some']
    by_cases hnull : CallbackEvent.nullCallback ∈ r.2
    · simp only [hnull, if_true, List.singleton_append, Option.map_some']
    · simp only [hnull, if_false, List.append_nil, List.singleton_append, Option.map_some']

/-- C11: for every sequence of responses that hold at least the 6 bytes of the
packet header, handed to ProcessServerResponse one after the other, the
callback queue afterwards is the queue before followed by the dispatches of
the responses (at most one each) in the order of the responses; the callback
thread, run on a queue made of a first part followed by a second part, invokes
the callbacks of the first part, in order, before those of the second part,
and invokes none of the second part when a dispatcher of the first part ended
in a call through an empty callback slot; in particular, for
Succeeded(Subscribe) followed by a DataPacket, whatever their bodies, the
status-message dispatch is queued right before the new-measurements dispatch,
and the callback thread calls the status callback before every callback that
the data packet gives rise to. -/
theorem callback_ordering (K : Constants) (hK : K.WellFormed)
    (parser : CompactMeasurementParser) (fuel : Nat)
    (s : DataSubscriber) (responses : List Response)
    (_hlen : ∀ response ∈ responses, 6 ≤ response.2 ∧ response.2 < 2 ^ 64)
    (source : DataSubscriber) (q1 q2 : List CallbackDispatcher)
    (c : Byte) (flags1 B1 flags2 B2 : List Byte)
    (hflags1 : flags1.length = 4) (hB1 : B1.length + 6 < 2 ^ 64)
    (hflags2 : flags2.length = 4) (hB2 : B2.length + 6 < 2 ^ 64) :
    (processServerResponses K s responses).m_callbackQueue
      = s.m_callbackQueue ++ (responses.map (dispatchesOf K)).flatten ∧
    (∀ response ∈ responses, (dispatchesOf K response).length ≤ 1) ∧
    (RunCallbackThread K parser fuel (source.withCallbackQueue (q1 ++ q2))).map Prod.snd
      = (RunCallbackThread K parser fuel (source.withCallbackQueue q1)).bind
          (fun r1 =>
            if CallbackEvent.nullCallback ∈ r1.2 then some r1.2
            else (RunCallbackThread K parser fuel (r1.1.withCallbackQueue q2)).map
              (fun r2 => r1.2 ++ r2.2)) ∧
    (processServerResponses K s
        [(K.Succeeded :: K.Subscribe :: (flags1 ++ B1), 6 + B1.length),
          (K.DataPacket :: c :: (flags2 ++ B2), 6 + B2.length)]).m_callbackQueue
      = s.m_callbackQueue ++
          [⟨.StatusMessageDispatcher,
              lit "Received success code in response to server command 0x"
                ++ hexOfByte K.Subscribe ++ lit ": " ++ B1⟩,
            ⟨.NewMeasurementsDispatcher, B2⟩] ∧
    (s.m_callbackQueue = [] → s.m_disconnecting = false → s.m_statusMessageCallback = true →
      (RunCallbackThread K parser fuel
          (processServerResponses K s
            [(K.Succeeded :: K.Subscribe :: (flags1 ++ B1), 6 + B1.length),
              (K.DataPacket :: c :: (flags2 ++ B2), 6 + B2.length)])).map Prod.snd
        = (NewMeasurementsDispatcher K parser fuel
              { s with
                m_subscribed := true
                m_callbackQueue := [] } B2).map
            (fun r => CallbackEvent.statusMessage
              (lit "Received success code in response to server command 0x"
                ++ hexOfByte K.Subscribe ++ lit ": " ++ B1) :: r.2)) := by
  have hproc := processServerResponses_subscribe_dataPacket K hK s c flags1 B1 flags2 B2
    hflags1 hB1 hflags2 hB2
  refine ⟨processServerResponses_callbackQueue K s responses,
    fun response _ => dispatchesOf_length K response,
    RunCallbackThread_append K parser fuel q1 q2 source, by rw [hproc], ?_⟩
  intro hq hnd hcb
  rw [hproc, hq, List.nil_append]
  exact RunCallbackThread_status_then_measurements K parser fuel
    { s with m_subscribed := true } _ B2 hnd hcb

/-- C11 at Succeeded(Subscribe) with the body "OK" followed by a DataPacket
with one measurement: the status-message dispatch is queued before the
new-measurements dispatch, and the callback thread calls the status callback
before the new-measurements callback. -/
theorem callback_ordering_witness :
    scenarioConstants.WellFormed ∧
    (∀ response ∈ [succeededSubscribeResponse, dataPacketResponse],
      6 ≤ response.2 ∧ response.2 < 2 ^ 64) ∧
    ([0, 0, 0, 0] : List Byte).length = 4 ∧ (lit "OK").length + 6 < 2 ^ 64 ∧
    ([0x00, 0, 0, 0, 1, 0, 0, 0, 0, 0, 0, 0, 7] : List Byte).length + 6 < 2 ^ 64 ∧
    listeningSubscriber.m_callbackQueue = [] ∧ listeningSubscriber.m_disconnecting = false ∧
    listeningSubscriber.m_statusMessageCallback = true ∧
    (processServerResponses scenarioConstants listeningSubscriber
        [succeededSubscribeResponse, dataPacketResponse]).m_callbackQueue
      = listeningSubscriber.m_callbackQueue
          ++ ([succeededSubscribeResponse, dataPacketResponse].map
                (dispatchesOf scenarioConstants)).flatten ∧
    (RunCallbackThread scenarioConstants timestampOnlyParser 10
        (processServerResponses scenarioConstants listeningSubscriber
          [(scenarioConstants.Succeeded :: scenarioConstants.Subscribe
              :: ([0, 0, 0, 0] ++ lit "OK"), 6 + (lit "OK").length),
            (scenarioConstants.DataPacket :: 0
              :: ([0, 0, 0, 0] ++ [0x00, 0, 0, 0, 1, 0, 0, 0, 0, 0, 0, 0, 7]),
              6 + ([0x00, 0, 0, 0, 1, 0, 0, 0, 0, 0, 0, 0, 7] : List Byte).length)])).map
        Prod.snd
      = (NewMeasurementsDispatcher scenarioConstants timestampOnlyParser 10
            { listeningSubscriber with
              m_subscribed := true
              m_callbackQueue := [] }
            [0x00, 0, 0, 0, 1, 0, 0, 0, 0, 0, 0, 0, 7]).map
          (fun r => CallbackEvent.statusMessage
            (lit "Received success code in response to server command 0x"
              ++ hexOfByte scenarioConstants.Subscribe ++ lit ": " ++ lit "OK") :: r.2) ∧
    [(scenarioConstants.Succeeded :: scenarioConstants.Subscribe
          :: ([0, 0, 0, 0] ++ lit "OK"), 6 + (lit "OK").length),
        (scenarioConstants.DataPacket :: 0
          :: ([0, 0, 0, 0] ++ [0x00, 0, 0, 0, 1, 0, 0, 0, 0, 0, 0, 0, 7]),
          6 + ([0x00, 0, 0, 0, 1, 0, 0, 0, 0, 0, 0, 0, 7] : List Byte).length)]
      = [succeededSubscribeResponse, dataPacketResponse] ∧
    (processServerResponses scenarioConstants listeningSubscriber
        [succeededSubscribeResponse, dataPacketResponse]).m_callbackQueue
      = [⟨.StatusMessageDispatcher,
            lit "Received success code in response to server command 0x7: OK"⟩,
          ⟨.NewMeasurementsDispatcher, [0x00, 0, 0, 0, 1, 0, 0, 0, 0, 0, 0, 0, 7]⟩] ∧
    (RunCallbackThread scenarioConstants timestampOnlyParser 10
        (processServerResponses scenarioConstants listeningSubscriber
          [succeededSubscribeResponse, dataPacketResponse])).map Prod.snd
      = some [.statusMessage (lit "Received success code in response to server command 0x7: OK"),
          .newMeasurements [⟨[], 7, ⟨0⟩, 0⟩]] :=
  ⟨by decide, by decide, by decide, by decide, by decide, rfl, rfl, rfl,
    (callback_ordering scenarioConstants (by decide) timestampOnlyParser 10 listeningSubscriber
      [succeededSubscribeResponse, dataPacketResponse] (by decide) listeningSubscriber [] []
      0 [0, 0, 0, 0] (lit "OK") [0, 0, 0, 0] [0x00, 0, 0, 0, 1, 0, 0, 0, 0, 0, 0, 0, 7]
      (by decide) (by decide) (by decide) (by decide)).1,
    (callback_ordering scenarioConstants (by decide) timestampOnlyParser 10 listeningSubscriber
      [succeededSubscribeResponse, dataPacketResponse] (by decide) listeningSubscriber [] []
      0 [0, 0, 0, 0] (lit "OK") [0, 0, 0, 0] [0x00, 0, 0, 0, 1, 0, 0, 0, 0, 0, 0, 0, 7]
      (by decide) (by decide) (by decide) (by decide)).2.2.2.2 rfl rfl rfl,
    by decide, by decide, by decide⟩

/-! ## Connect and Disconnect -/

/-- C15 as stated fails: the subscriber left by a Subscribe that threw on a
port in use has the three flags cleared and both queues empty, yet its UDP
socket is open, and Disconnect changes it by closing that socket. -/
theorem disconnect_changes_flagless_subscriber :
    unboundSubscriber.m_connected = false ∧ unboundSubscriber.m_subscribed = false ∧
    unboundSubscriber.m_disconnecting = false ∧ unboundSubscriber.m_commandQueue = [] ∧
    unboundSubscriber.m_callbackQueue = [] ∧
    Disconnect unboundSubscriber ≠ unboundSubscriber := by
  decide

/-- C15, amended: Disconnect leaves connected, subscribed and disconnecting
false and both queues empty; applied to a subscriber that is already
disconnected (those three flags false, both queues empty, both sockets closed
and no thread running) it leaves every member unchanged; and Disconnect
followed by Disconnect equals Disconnect. -/
theorem idempotent_disconnect (s : DataSubscriber) :
    ((Disconnect s).m_connected = false ∧ (Disconnect s).m_subscribed = false ∧
      (Disconnect s).m_disconnecting = false ∧ (Disconnect s).m_commandQueue = [] ∧
      (Disconnect s).m_callbackQueue = []) ∧
    (s.m_connected = false ∧ s.m_subscribed = false ∧ s.m_disconnecting = false ∧
        s.m_commandQueue = [] ∧ s.m_callbackQueue = [] ∧
        s.m_commandChannelSocket = false ∧ s.m_dataChannelSocket = false ∧
        s.m_commandThread = false ∧ s.m_callbackThread = false ∧
        s.m_commandChannelResponseThread = false ∧ s.m_dataChannelResponseThread = false →
      Disconnect s = s) ∧
    Disconnect (Disconnect s) = Disconnect s := by
  refine ⟨⟨rfl, rfl, rfl, rfl, rfl⟩, ?_, rfl⟩
  rintro ⟨h1, h2, h3, h4, h5, h6, h7, h8, h9, h10, h11⟩
  cases s
  simp only [Disconnect] at *
  simp only [h1, h2, h3, h4, h5, h6, h7, h8, h9, h10, h11]

/-- C15 amended, at a connected subscriber: a second Disconnect changes
nothing. -/
theorem idempotent_disconnect_witness :
    ((Disconnect connectedSubscriber).m_connected = false ∧
      (Disconnect connectedSubscriber).m_subscribed = false ∧
      (Disconnect connectedSubscriber).m_disconnecting = false ∧
      (Disconnect connectedSubscriber).m_commandQueue = [] ∧
      (Disconnect connectedSubscriber).m_callbackQueue = [] ∧
      (Disconnect connectedSubscriber).m_commandChannelSocket = false ∧
      (Disconnect connectedSubscriber).m_dataChannelSocket = false ∧
      (Disconnect connectedSubscriber).m_commandThread = false ∧
      (Disconnect connectedSubscriber).m_callbackThread = false ∧
      (Disconnect connectedSubscriber).m_commandChannelResponseThread = false ∧
      (Disconnect connectedSubscriber).m_dataChannelResponseThread = false) ∧
    Disconnect (Disconnect connectedSubscriber) = Disconnect connectedSubscriber :=
  ⟨by decide,
    (idempotent_disconnect (Disconnect connectedSubscriber)).2.1 (by decide)⟩

/-- C16 as stated fails: after the scenario cache update, Disconnect leaves
the cache with its entry, and index 0x002A still resolves to (G, "PPA", 17). -/
theorem cache_survives_disconnect :
    ¬ ((Disconnect (HandleUpdateSignalIndexCache connectedSubscriber scenarioCacheBody 0
          scenarioCacheBody.length)).m_signalIndexCache.entries = []) ∧
    (Disconnect (HandleUpdateSignalIndexCache connectedSubscriber scenarioCacheBody 0
        scenarioCacheBody.length)).m_signalIndexCache.resolve 0x2A
      = some (scenarioGuid, lit "PPA", 17) := by
  decide

/-- C16, amended: for every subscriber state, Disconnect leaves the
signal-index cache as it was, so every index resolves after Disconnect to what
it resolved to before. -/
theorem cache_unchanged_by_disconnect (s : DataSubscriber) :
    (Disconnect s).m_signalIndexCache = s.m_signalIndexCache ∧
    ∀ signalIndex : Nat,
      (Disconnect s).m_signalIndexCache.resolve signalIndex
        = s.m_signalIndexCache.resolve signalIndex :=
  ⟨rfl, fun _ => rfl⟩

/-- C17 as stated fails: with the command socket open and a host name that
does not resolve, Connect throws the error of the resolver, not the
'already connected' SubscriberException. -/
theorem connect_while_connected_unresolved_host :
    connectedSubscriber.m_commandChannelSocket = true ∧
    (Connect scenarioConstants unresolvedNetwork connectedSubscriber (lit "nowhere") 6165).2
      ≠ some (lit "Subscriber is already connected; disconnect first") := by
  decide

/-- C17, amended: for every subscriber whose command socket is already open,
Connect(host, port) throws, with the 'already connected' SubscriberException
whenever the host name resolves, and on the way it starts no thread, enqueues
no command, and leaves the connected and subscribed flags unchanged. -/
theorem connect_while_connected (K : Constants) (N : Network) (s : DataSubscriber)
    (hostname : StdString) (port : Nat) (hopen : s.m_commandChannelSocket = true) :
    (Connect K N s hostname port).2 ≠ none ∧
    (N.resolves = true →
      (Connect K N s hostname port).2
        = some (lit "Subscriber is already connected; disconnect first")) ∧
    ((Connect K N s hostname port).1.m_commandThread = s.m_commandThread ∧
      (Connect K N s hostname port).1.m_callbackThread = s.m_callbackThread ∧
      (Connect K N s hostname port).1.m_commandChannelResponseThread
        = s.m_commandChannelResponseThread ∧
      (Connect K N s hostname port).1.m_dataChannelResponseThread
        = s.m_dataChannelResponseThread) ∧
    (Connect K N s hostname port).1.m_commandQueue = s.m_commandQueue ∧
    (Connect K N s hostname port).1.m_connected = s.m_connected ∧
    (Connect K N s hostname port).1.m_subscribed = s.m_subscribed := by
  unfold Connect
  cases hres : N.resolves <;> simp [hopen]

/-- C17 amended, at a connected subscriber and a host that resolves. -/
theorem connect_while_connected_witness :
    connectedSubscriber.m_commandChannelSocket = true ∧
    reachableNetwork.resolves = true ∧
    (Connect scenarioConstants reachableNetwork connectedSubscriber (lit "localhost") 6165).2
      = some (lit "Subscriber is already connected; disconnect first") :=
  ⟨rfl, rfl,
    (connect_while_connected scenarioConstants reachableNetwork connectedSubscriber
      (lit "localhost") 6165 rfl).2.1 rfl⟩

/-! ## Byte counters of the readers -/

theorem Dispatch_dataChannelBytes (s : DataSubscriber) (f : DispatcherFunction)
    (d : Option (List Byte)) (offset length : Nat) :
    (Dispatch s f d offset length).m_totalDataChannelBytesReceived
      = s.m_totalDataChannelBytesReceived := rfl

theorem ProcessServerResponse_dataChannelBytes (K : Constants) (s : DataSubscriber)
    (buffer : List Byte) (offset length : Nat) :
    (ProcessServerResponse K s buffer offset length).m_totalDataChannelBytesReceived
      = s.m_totalDataChannelBytesReceived := by
  simp only [ProcessServerResponse, HandleSucceeded, HandleFailed, HandleDataPacket,
    HandleDataStartTime, HandleProcessingComplete, HandleMetadataRefresh,
    HandleUpdateSignalIndexCache, HandleUpdateBaseTimes, DispatchStatusMessage,
    DispatchErrorMessage]
  split_ifs <;> simp only [Dispatch_dataChannelBytes]

theorem ProcessServerResponse_commandChannelBytes (K : Constants) (s : DataSubscriber)
    (buffer : List Byte) (offset length : Nat) :
    (ProcessServerResponse K s buffer offset length).m_totalCommandChannelBytesReceived
      = s.m_totalCommandChannelBytesReceived := by
  simp only [ProcessServerResponse, HandleSucceeded, HandleFailed, HandleDataPacket,
    HandleDataStartTime, HandleProcessingComplete, HandleMetadataRefresh,
    HandleUpdateSignalIndexCache, HandleUpdateBaseTimes, DispatchStatusMessage,
    DispatchErrorMessage]
  split_ifs <;> rfl

theorem commandChannelResponseStep_counter (K : Constants) (s : DataSubscriber)
    (headerBuffer packetBuffer : List Byte) (hnd : s.m_disconnecting = false) :
    GetTotalCommandChannelBytesReceived
        (commandChannelResponseStep K s .success headerBuffer .success packetBuffer).1
      = GetTotalCommandChannelBytesReceived s + 8
          + readLittleEndianInt32 (headerBuffer.drop 4) := by
  simp only [commandChannelResponseStep, hnd, Bool.false_eq_true, if_false,
    GetTotalCommandChannelBytesReceived, ProcessServerResponse_commandChannelBytes]

/-- C18 (defect of the code): whatever datagram the data-channel reader
receives, without error and while not disconnecting or otherwise, the pass
through its loop leaves the data-channel byte counter as it was; for the
26-byte datagram of an UpdateBaseTimes response received by a subscriber that
is not disconnecting, GetTotalDataChannelBytesReceived is still 0 afterwards. -/
theorem data_channel_counter_never_updated (K : Constants) (s : DataSubscriber)
    (buffer : List Byte) (length : Nat) (error : Option StdString) :
    GetTotalDataChannelBytesReceived (dataChannelResponseStep K s buffer length error).1
      = GetTotalDataChannelBytesReceived s ∧
    (connectedSubscriber.m_disconnecting = false ∧ baseTimesDatagram.length = 26 ∧
      dataChannelResponseStep scenarioConstants connectedSubscriber baseTimesDatagram 26 none
        = (HandleUpdateBaseTimes connectedSubscriber scenarioBaseTimes 0 20, .continues) ∧
      GetTotalDataChannelBytesReceived
        (dataChannelResponseStep scenarioConstants connectedSubscriber baseTimesDatagram 26
          none).1 = 0) := by
  refine ⟨?_, by decide⟩
  unfold dataChannelResponseStep GetTotalDataChannelBytesReceived
  split
  · rfl
  · split
    · rfl
    · exact ProcessServerResponse_dataChannelBytes K s buffer 0 length

/-! ## Operational modes -/

theorem operationalModes_mask_flag (K : Constants) (hK : K.WellFormed) (c : Bool) :
    (if c = true then
        (((K.NoFlags % 2 ^ 32 ||| K.UTF8) % 2 ^ 32 ||| K.UseCommonSerializationFormat) % 2 ^ 32
          ||| K.CompressMetadata) % 2 ^ 32
      else ((K.NoFlags % 2 ^ 32 ||| K.UTF8) % 2 ^ 32 ||| K.UseCommonSerializationFormat) % 2 ^ 32)
        % 2 ^ 32
      = K.UTF8 ||| K.UseCommonSerializationFormat ||| (if c = true then K.CompressMetadata else 0) := by
  obtain ⟨-, -, h0, h1, h2, h3⟩ := hK
  have e1 : (K.NoFlags % 2 ^ 32 ||| K.UTF8) % 2 ^ 32 = K.UTF8 := by
    rw [h0]; simpa using Nat.mod_eq_of_lt h3
  have e2 : (K.UTF8 ||| K.UseCommonSerializationFormat) % 2 ^ 32
      = K.UTF8 ||| K.UseCommonSerializationFormat :=
    Nat.mod_eq_of_lt (Nat.or_lt_two_pow h3 h1)
  have e3 : (K.UTF8 ||| K.UseCommonSerializationFormat ||| K.CompressMetadata) % 2 ^ 32
      = K.UTF8 ||| K.UseCommonSerializationFormat ||| K.CompressMetadata :=
    Nat.mod_eq_of_lt (Nat.or_lt_two_pow (Nat.or_lt_two_pow h3 h1) h2)
  cases c
  · simp only [Bool.false_eq_true, if_false, e1, e2, Nat.or_zero]
  · simp only [if_true, e1, e2, e3]

theorem SendOperationalModes_eq (K : Constants) (hK : K.WellFormed) (s : DataSubscriber) :
    SendOperationalModes K s
      = { s with m_commandQueue := s.m_commandQueue ++
            [buildCommandPacket K.DefineOperationalModes
              (some (bigEndianBytes 4 (K.UTF8 ||| K.UseCommonSerializationFormat |||
                (if s.m_compressMetadata = true then K.CompressMetadata else 0)))) 0 4] } := by
  simp only [SendOperationalModes, SendServerCommand, bytesOfBigEndian32,
    operationalModes_mask_flag K hK]

theorem unframePayload_operationalModes (C : Byte) (mask : Nat) :
    unframePayload (buildCommandPacket C (some (bigEndianBytes 4 mask)) 0 4)
      = C :: bigEndianBytes 4 mask := by
  have h := unframePayload_buildCommandPacket C (bigEndianBytes 4 mask)
    (by rw [bigEndianBytes_length]; decide)
  rwa [bigEndianBytes_length] at h

/-- C19: for both values of the compressMetadata flag, SendOperationalModes
appends exactly one frame to the command queue, whose payload is the
DefineOperationalModes command code followed by exactly four bytes, the
big-endian encoding of UTF8 | UseCommonSerializationFormat with
CompressMetadata OR-ed in if and only if the flag is set;
SetMetadataCompressed(b) makes IsMetadataCompressed return b, and it sends
that frame when the command socket is open and nothing when it is not. -/
theorem operational_modes_mask (K : Constants) (hK : K.WellFormed) (s : DataSubscriber)
    (b : Bool) :
    (∃ frame : CommandPacket,
      (SendOperationalModes K s).m_commandQueue = s.m_commandQueue ++ [frame] ∧
      unframePayload frame
        = K.DefineOperationalModes ::
            bigEndianBytes 4 (K.UTF8 ||| K.UseCommonSerializationFormat |||
              (if s.m_compressMetadata = true then K.CompressMetadata else 0)) ∧
      (unframePayload frame).length = 1 + 4) ∧
    IsMetadataCompressed (SetMetadataCompressed K s b) = b ∧
    (s.m_commandChannelSocket = true →
      SetMetadataCompressed K s b = SendOperationalModes K { s with m_compressMetadata := b }) ∧
    (s.m_commandChannelSocket = false →
      SetMetadataCompressed K s b = { s with m_compressMetadata := b } ∧
      (SetMetadataCompressed K s b).m_commandQueue = s.m_commandQueue) := by
  refine ⟨⟨_, by rw [SendOperationalModes_eq K hK], unframePayload_operationalModes _ _, ?_⟩,
    ?_, ?_, ?_⟩
  · rw [unframePayload_operationalModes]
    simp [bigEndianBytes_length]
  · unfold SetMetadataCompressed IsMetadataCompressed
    cases s.m_commandChannelSocket
    · simp
    · simp [SendOperationalModes_eq K hK]
  · intro h
    simp [SetMetadataCompressed, h]
  · intro h
    simp [SetMetadataCompressed, h]

/-- C19 at the scenario constants, with the flag clear and the socket open. -/
theorem operational_modes_mask_witness :
    scenarioConstants.WellFormed ∧
    (∃ frame : CommandPacket,
      (SendOperationalModes scenarioConstants connectedSubscriber).m_commandQueue
        = connectedSubscriber.m_commandQueue ++ [frame] ∧
      unframePayload frame
        = scenarioConstants.DefineOperationalModes ::
            bigEndianBytes 4 (scenarioConstants.UTF8 |||
              scenarioConstants.UseCommonSerializationFormat |||
              (if connectedSubscriber.m_compressMetadata = true
                then scenarioConstants.CompressMetadata else 0)) ∧
      (unframePayload frame).length = 1 + 4) ∧
    (SendOperationalModes scenarioConstants connectedSubscriber).m_commandQueue.map unframePayload
      = [[0x06, 0x01, 0x00, 0x02, 0x00]] :=
  ⟨by decide,
    (operational_modes_mask scenarioConstants (by decide) connectedSubscriber true).1,
    by decide⟩

/-! ## Parse failures -/

theorem parseMeasurementsLoop_failsAfter (source : DataSubscriber)
    (TryParseMeasurement : List Byte → Nat → Nat → Option (Measurement × Nat × Nat))
    (frameLevelTimestamp : Option Int) (buffer : List Byte) (k extra offset length : Nat)
    (newMeasurements : List Measurement)
    (h : failsAfter TryParseMeasurement buffer k offset length = true) :
    parseMeasurementsLoop source TryParseMeasurement frameLevelTimestamp buffer
        (k + 1 + extra) offset length newMeasurements
      = some (newMeasurements ++ parsedPrefix TryParseMeasurement buffer k offset length,
          [callErrorMessageCallback source (lit "Error parsing measurement")]) := by
  induction k generalizing offset length newMeasurements with
  | zero =>
    simp only [failsAfter, Bool.and_eq_true, decide_eq_true_eq, Option.isNone_iff_eq_none] at h
    rw [show 0 + 1 + extra = extra + 1 by omega]
    simp only [parseMeasurementsLoop, h.1, if_true, h.2, parsedPrefix, List.append_nil]
  | succ k ih =>
    simp only [failsAfter, Bool.and_eq_true, decide_eq_true_eq] at h
    obtain ⟨hpos, hrest⟩ := h
    rw [show k + 1 + 1 + extra = (k + 1 + extra) + 1 by omega]
    cases hp : TryParseMeasurement buffer offset length with
    | none => simp [hp] at hrest
    | some r =>
      obtain ⟨parsed, offset', length'⟩ := r
      simp only [hp] at hrest
      simp only [parseMeasurementsLoop, hpos, if_true, hp, parsedPrefix]
      rw [ih offset' length' _ hrest]
      simp

/-- C20: for every data packet on which, with the new-measurements and the
error callbacks registered, the parser succeeds k times and then fails with
bytes left, NewMeasurementsDispatcher ends (any fuel above k is enough), calls
the error callback exactly once, with "Error parsing measurement", goes no
further than the failure (the measurements it hands over are the k parsed
before it), and changes no member of the subscriber but the measurement
counter: the connected and subscribed flags, the cache and the base-time
offsets are as before. -/
theorem parse_failure_aborts_packet (K : Constants) (parser : CompactMeasurementParser)
    (source : DataSubscriber) (data : List Byte) (k extra : Nat)
    (hnew : source.m_newMeasurementsCallback = true)
    (herr : source.m_errorMessageCallback = true)
    (hfail : failsAfter
      (parser source.m_signalIndexCache source.m_baseTimeOffsets
        source.m_currentSubscription.IncludeTime
        source.m_currentSubscription.UseMillisecondResolution)
      data k (measurementsOffset K data) (measurementsLength K data) = true) :
    ∃ (after : DataSubscriber) (delivered : List Measurement),
      NewMeasurementsDispatcher K parser (k + 1 + extra) source data
        = some (after,
            [.errorMessage (lit "Error parsing measurement"), .newMeasurements delivered]) ∧
      delivered = parsedPrefix
        (parser source.m_signalIndexCache source.m_baseTimeOffsets
          source.m_currentSubscription.IncludeTime
          source.m_currentSubscription.UseMillisecondResolution)
        data k (measurementsOffset K data) (measurementsLength K data) ∧
      after.m_connected = source.m_connected ∧ after.m_subscribed = source.m_subscribed ∧
      after.m_signalIndexCache = source.m_signalIndexCache ∧
      after.m_baseTimeOffsets = source.m_baseTimeOffsets ∧
      after = { source with
        m_totalMeasurementsReceived :=
          source.m_totalMeasurementsReceived + readBigEndianInt32 (data.drop 1) } := by
  cases source
  simp only [] at hnew herr hfail
  subst hnew herr
  refine ⟨_, _, ?_, rfl, ?_, ?_, ?_, ?_, rfl⟩
  · unfold NewMeasurementsDispatcher
    simp only [if_true]
    rw [show (if decide ((data.getD 0 0).val &&& K.Synchronized.val ≠ 0) = true
          then 1 + 4 + 8 else 1 + 4) = measurementsOffset K data by
        simp only [measurementsOffset, decide_eq_true_eq],
      show (data.length + 2 ^ 64 - measurementsOffset K data) % 2 ^ 64
        = measurementsLength K data from rfl,
      parseMeasurementsLoop_failsAfter _ _ _ _ k extra _ _ _ hfail]
    simp only [callErrorMessageCallback, if_true, List.nil_append, List.singleton_append,
      List.mem_singleton, reduceCtorEq, if_false]
  all_goals rfl

/-- C20 at a packet with two whole measurements and three stray bytes: the
third parse fails, the error callback is called once and the two
measurements parsed before are handed over. -/
theorem parse_failure_aborts_packet_witness :
    listeningSubscriber.m_newMeasurementsCallback = true ∧
    listeningSubscriber.m_errorMessageCallback = true ∧
    failsAfter
      (timestampOnlyParser listeningSubscriber.m_signalIndexCache
        listeningSubscriber.m_baseTimeOffsets
        listeningSubscriber.m_currentSubscription.IncludeTime
        listeningSubscriber.m_currentSubscription.UseMillisecondResolution)
      truncatedPacket 2 (measurementsOffset scenarioConstants truncatedPacket)
      (measurementsLength scenarioConstants truncatedPacket) = true ∧
    (∃ (after : DataSubscriber) (delivered : List Measurement),
      NewMeasurementsDispatcher scenarioConstants timestampOnlyParser (2 + 1 + 0)
          listeningSubscriber truncatedPacket
        = some (after,
            [.errorMessage (lit "Error parsing measurement"), .newMeasurements delivered]) ∧
      delivered = parsedPrefix
        (timestampOnlyParser listeningSubscriber.m_signalIndexCache
          listeningSubscriber.m_baseTimeOffsets
          listeningSubscriber.m_currentSubscription.IncludeTime
          listeningSubscriber.m_currentSubscription.UseMillisecondResolution)
        truncatedPacket 2 (measurementsOffset scenarioConstants truncatedPacket)
        (measurementsLength scenarioConstants truncatedPacket) ∧
      after.m_connected = listeningSubscriber.m_connected ∧
      after.m_subscribed = listeningSubscriber.m_subscribed ∧
      after.m_signalIndexCache = listeningSubscriber.m_signalIndexCache ∧
      after.m_baseTimeOffsets = listeningSubscriber.m_baseTimeOffsets ∧
      after = { listeningSubscriber with
        m_totalMeasurementsReceived :=
          listeningSubscriber.m_totalMeasurementsReceived
            + readBigEndianInt32 (truncatedPacket.drop 1) }) ∧
    (NewMeasurementsDispatcher scenarioConstants timestampOnlyParser 3 listeningSubscriber
        truncatedPacket).map Prod.snd
      = some [.errorMessage (lit "Error parsing measurement"),
          .newMeasurements [⟨[], 7, ⟨0⟩, 0⟩, ⟨[], 9, ⟨0⟩, 0⟩]] :=
  ⟨rfl, rfl, by decide,
    parse_failure_aborts_packet scenarioConstants timestampOnlyParser listeningSubscriber
      truncatedPacket 2 0 rfl rfl (by decide),
    by decide⟩

/-! ## Truncated frames -/

theorem responseCodes_ne (K : Constants) (hK : K.WellFormed) :
    K.DataPacket ≠ K.Succeeded ∧ K.DataPacket ≠ K.Failed ∧
    K.DataStartTime ≠ K.Succeeded ∧ K.DataStartTime ≠ K.Failed ∧
    K.DataStartTime ≠ K.DataPacket ∧
    K.UpdateSignalIndexCache ≠ K.Succeeded ∧ K.UpdateSignalIndexCache ≠ K.Failed ∧
    K.UpdateSignalIndexCache ≠ K.DataPacket ∧ K.UpdateSignalIndexCache ≠ K.DataStartTime ∧
    K.UpdateSignalIndexCache ≠ K.ProcessingComplete ∧
    K.UpdateBaseTimes ≠ K.Succeeded ∧ K.UpdateBaseTimes ≠ K.Failed ∧
    K.UpdateBaseTimes ≠ K.DataPacket ∧ K.UpdateBaseTimes ≠ K.DataStartTime ∧
    K.UpdateBaseTimes ≠ K.ProcessingComplete ∧ K.UpdateBaseTimes ≠ K.UpdateSignalIndexCache := by
  obtain ⟨-, hresp, -⟩ := hK
  simp only [List.nodup_cons, List.mem_cons, List.mem_singleton, List.not_mem_nil, or_false,
    not_or, List.nodup_nil, and_true, not_false_eq_true] at hresp
  obtain ⟨⟨h12, h13, h14, h15, h16, h17⟩, ⟨h23, h24, h25, h26, h27⟩, ⟨h34, h35, h36, h37⟩,
    ⟨h45, h46, h47⟩, ⟨h56, h57⟩, h67⟩ := hresp
  exact ⟨Ne.symm h13, Ne.symm h23, Ne.symm h14, Ne.symm h24, Ne.symm h34,
    Ne.symm h16, Ne.symm h26, Ne.symm h36, Ne.symm h46, Ne.symm h56,
    Ne.symm h17, Ne.symm h27, Ne.symm h37, Ne.symm h47, Ne.symm h57, Ne.symm h67⟩

theorem ProcessServerResponse_UpdateBaseTimes (K : Constants) (hK : K.WellFormed)
    (s : DataSubscriber) (buffer : List Byte) (offset length : Nat)
    (h : buffer.getD 0 0 = K.UpdateBaseTimes) :
    ProcessServerResponse K s buffer offset length
      = { s with
          m_timeIndex := toSizeT (readBigEndianInt32 (buffer.drop 6))
          m_baseTimeOffsets :=
            (readBigEndianInt64 (buffer.drop 10), readBigEndianInt64 (buffer.drop 18)) } := by
  obtain ⟨-, -, -, -, -, -, -, -, -, -, h1, h2, h3, h4, h5, h6⟩ := responseCodes_ne K hK
  simp only [ProcessServerResponse, h, h1, h2, h3, h4, h5, h6, if_false, if_true,
    HandleUpdateBaseTimes, List.drop_zero, List.drop_drop]

theorem ProcessServerResponse_UpdateSignalIndexCache (K : Constants) (hK : K.WellFormed)
    (s : DataSubscriber) (buffer : List Byte) (offset length : Nat)
    (h : buffer.getD 0 0 = K.UpdateSignalIndexCache) :
    ProcessServerResponse K s buffer offset length
      = { s with
          m_signalIndexCache :=
            signalIndexCacheLoop (readBigEndianInt32 (buffer.drop 26)).toNat (buffer.drop 30)
              s.m_signalIndexCache.Clear } := by
  obtain ⟨-, -, -, -, -, h1, h2, h3, h4, h5, -⟩ := responseCodes_ne K hK
  simp only [ProcessServerResponse, h, h1, h2, h3, h4, h5, if_false, if_true,
    HandleUpdateSignalIndexCache, List.drop_drop, Nat.zero_add]

theorem ProcessServerResponse_DataStartTime (K : Constants) (hK : K.WellFormed)
    (s : DataSubscriber) (buffer : List Byte) (offset length : Nat)
    (h : buffer.getD 0 0 = K.DataStartTime) (h6 : 6 ≤ length) (h64 : length < 2 ^ 64) :
    ProcessServerResponse K s buffer offset length
      = { s with m_callbackQueue := s.m_callbackQueue ++
            [⟨.DataStartTimeDispatcher, load (buffer.drop 6) (length - 6)⟩] } := by
  obtain ⟨-, -, h1, h2, h3, -⟩ := responseCodes_ne K hK
  have hlen : (length + 2 ^ 64 - 6) % 2 ^ 64 = length - 6 := by omega
  simp only [ProcessServerResponse, h, h1, h2, h3, if_false, if_true, HandleDataStartTime,
    Dispatch_some, List.drop_zero, hlen]

theorem ProcessServerResponse_DataPacket (K : Constants) (hK : K.WellFormed)
    (s : DataSubscriber) (buffer : List Byte) (offset length : Nat)
    (h : buffer.getD 0 0 = K.DataPacket) (h6 : 6 ≤ length) (h64 : length < 2 ^ 64) :
    ProcessServerResponse K s buffer offset length
      = { s with m_callbackQueue := s.m_callbackQueue ++
            [⟨.NewMeasurementsDispatcher, load (buffer.drop 6) (length - 6)⟩] } := by
  obtain ⟨h1, h2, -⟩ := responseCodes_ne K hK
  have hlen : (length + 2 ^ 64 - 6) % 2 ^ 64 = length - 6 := by omega
  simp only [ProcessServerResponse, h, h1, h2, if_false, if_true, HandleDataPacket,
    Dispatch_some, List.drop_zero, hlen]

/-- C21 fails at an UpdateBaseTimes response of 10 bytes (a body of 4 bytes
where 20 are due) received by a subscriber on which every callback is
registered: nothing is queued for the callback thread, so that thread calls no
callback and no error is reported; the time index and the base-time offsets
are overwritten; and the offsets come from the 16 bytes that lie behind the
packet in the receive buffer, since the same 10 bytes in a buffer with other
bytes behind them give other offsets. -/
theorem truncated_base_times_read_past :
    truncatedBaseTimesBuffer.getD 0 0 = scenarioConstants.UpdateBaseTimes ∧
    truncatedBaseTimesBuffer.take 10 = truncatedBaseTimesBuffer2.take 10 ∧
    listeningSubscriber.m_errorMessageCallback = true ∧
    (ProcessServerResponse scenarioConstants listeningSubscriber truncatedBaseTimesBuffer 0
        10).m_callbackQueue = [] ∧
    (RunCallbackThread scenarioConstants timestampOnlyParser 10
        (ProcessServerResponse scenarioConstants listeningSubscriber truncatedBaseTimesBuffer 0
          10)).map Prod.snd = some [] ∧
    listeningSubscriber.m_timeIndex = 0 ∧
    (ProcessServerResponse scenarioConstants listeningSubscriber truncatedBaseTimesBuffer 0
        10).m_timeIndex = 1 ∧
    listeningSubscriber.m_baseTimeOffsets = (0, 0) ∧
    (ProcessServerResponse scenarioConstants listeningSubscriber truncatedBaseTimesBuffer 0
        10).m_baseTimeOffsets = (-1, -1) ∧
    (ProcessServerResponse scenarioConstants listeningSubscriber truncatedBaseTimesBuffer2 0
        10).m_baseTimeOffsets = (72340172838076673, 72340172838076673) := by
  decide

/-- C21 (amended): ProcessServerResponse does not compare the length of a
response with the fields of its response code. For a response with the code
UpdateBaseTimes or UpdateSignalIndexCache, whatever its length, it reads the
fields at their fixed places of the buffer, queues no dispatch (so nothing
reaches the error callback) and changes only the time index and the base-time
offsets, respectively only the cache. For a response of at least 6 bytes with
the code DataStartTime or DataPacket it appends one dispatch that carries the
length - 6 bytes of the body, and changes nothing else: the cache, the
base-time offsets, the time index and the subscribed flag stay as they were. -/
theorem truncated_frames_not_detected (K : Constants) (hK : K.WellFormed) (s : DataSubscriber)
    (buffer : List Byte) (length : Nat) :
    (buffer.getD 0 0 = K.UpdateBaseTimes →
      ProcessServerResponse K s buffer 0 length
        = { s with
            m_timeIndex := toSizeT (readBigEndianInt32 (buffer.drop 6))
            m_baseTimeOffsets :=
              (readBigEndianInt64 (buffer.drop 10), readBigEndianInt64 (buffer.drop 18)) }) ∧
    (buffer.getD 0 0 = K.UpdateSignalIndexCache →
      ProcessServerResponse K s buffer 0 length
        = { s with
            m_signalIndexCache :=
              signalIndexCacheLoop (readBigEndianInt32 (buffer.drop 26)).toNat (buffer.drop 30)
                s.m_signalIndexCache.Clear }) ∧
    (buffer.getD 0 0 = K.DataStartTime → 6 ≤ length → length < 2 ^ 64 →
      ProcessServerResponse K s buffer 0 length
        = { s with m_callbackQueue := s.m_callbackQueue ++
              [⟨.DataStartTimeDispatcher, load (buffer.drop 6) (length - 6)⟩] }) ∧
    (buffer.getD 0 0 = K.DataPacket → 6 ≤ length → length < 2 ^ 64 →
      ProcessServerResponse K s buffer 0 length
        = { s with m_callbackQueue := s.m_callbackQueue ++
              [⟨.NewMeasurementsDispatcher, load (buffer.drop 6) (length - 6)⟩] }) :=
  ⟨ProcessServerResponse_UpdateBaseTimes K hK s buffer 0 length,
    ProcessServerResponse_UpdateSignalIndexCache K hK s buffer 0 length,
    ProcessServerResponse_DataStartTime K hK s buffer 0 length,
    ProcessServerResponse_DataPacket K hK s buffer 0 length⟩

/-- C21 (amended) at four truncated responses: an UpdateBaseTimes response of
10 bytes, an UpdateSignalIndexCache response of 10 bytes, a DataStartTime
response of 9 bytes and a DataPacket response of 9 bytes. -/
theorem truncated_frames_not_detected_witness :
    scenarioConstants.WellFormed ∧
    truncatedBaseTimesBuffer.getD 0 0 = scenarioConstants.UpdateBaseTimes ∧
    ProcessServerResponse scenarioConstants listeningSubscriber truncatedBaseTimesBuffer 0 10
      = { listeningSubscriber with
          m_timeIndex := toSizeT (readBigEndianInt32 (truncatedBaseTimesBuffer.drop 6))
          m_baseTimeOffsets :=
            (readBigEndianInt64 (truncatedBaseTimesBuffer.drop 10),
              readBigEndianInt64 (truncatedBaseTimesBuffer.drop 18)) } ∧
    ([0x83, 0x00, 0, 0, 0, 0, 0, 0, 0, 4] : List Byte).getD 0 0
      = scenarioConstants.UpdateSignalIndexCache ∧
    ProcessServerResponse scenarioConstants listeningSubscriber
        [0x83, 0x00, 0, 0, 0, 0, 0, 0, 0, 4] 0 10
      = { listeningSubscriber with
          m_signalIndexCache :=
            signalIndexCacheLoop
              (readBigEndianInt32 (([0x83, 0x00, 0, 0, 0, 0, 0, 0, 0, 4] : List Byte).drop 26)).toNat
              (([0x83, 0x00, 0, 0, 0, 0, 0, 0, 0, 4] : List Byte).drop 30)
              listeningSubscriber.m_signalIndexCache.Clear } ∧
    truncatedDataStartTime.1.getD 0 0 = scenarioConstants.DataStartTime ∧
    6 ≤ 9 ∧ 9 < 2 ^ 64 ∧
    ProcessServerResponse scenarioConstants listeningSubscriber truncatedDataStartTime.1 0 9
      = { listeningSubscriber with m_callbackQueue := listeningSubscriber.m_callbackQueue ++
            [⟨.DataStartTimeDispatcher, load (truncatedDataStartTime.1.drop 6) (9 - 6)⟩] } ∧
    ([0x82, 0x00, 0, 0, 0, 0, 0, 0, 0] : List Byte).getD 0 0 = scenarioConstants.DataPacket ∧
    ProcessServerResponse scenarioConstants listeningSubscriber
        [0x82, 0x00, 0, 0, 0, 0, 0, 0, 0] 0 9
      = { listeningSubscriber with m_callbackQueue := listeningSubscriber.m_callbackQueue ++
            [⟨.NewMeasurementsDispatcher,
              load (([0x82, 0x00, 0, 0, 0, 0, 0, 0, 0] : List Byte).drop 6) (9 - 6)⟩] } :=
  ⟨by decide, by decide,
    (truncated_frames_not_detected scenarioConstants (by decide) listeningSubscriber
      truncatedBaseTimesBuffer 10).1 (by decide),
    by decide,
    (truncated_frames_not_detected scenarioConstants (by decide) listeningSubscriber
      [0x83, 0x00, 0, 0, 0, 0, 0, 0, 0, 4] 10).2.1 (by decide),
    by decide, by decide, by decide,
    (truncated_frames_not_detected scenarioConstants (by decide) listeningSubscriber
      truncatedDataStartTime.1 9).2.2.1 (by decide) (by decide) (by decide),
    by decide,
    (truncated_frames_not_detected scenarioConstants (by decide) listeningSubscriber
      [0x82, 0x00, 0, 0, 0, 0, 0, 0, 0] 9).2.2.2 (by decide) (by decide) (by decide)⟩

/-! ## Delivery of the parsed measurements -/

theorem parseMeasurementsLoop_parsesAll (source : DataSubscriber)
    (TryParseMeasurement : List Byte → Nat → Nat → Option (Measurement × Nat × Nat))
    (frameLevelTimestamp : Option Int) (buffer : List Byte) (k extra offset length : Nat)
    (newMeasurements : List Measurement)
    (h : parsesAll TryParseMeasurement buffer k offset length = true) :
    parseMeasurementsLoop source TryParseMeasurement frameLevelTimestamp buffer
        (k + 1 + extra) offset length newMeasurements
      = some (newMeasurements ++ parsedPrefix TryParseMeasurement buffer k offset length, []) := by
  induction k generalizing offset length newMeasurements with
  | zero =>
    simp only [parsesAll, decide_eq_true_eq] at h
    rw [show 0 + 1 + extra = extra + 1 by omega]
    simp only [parseMeasurementsLoop, h, Nat.lt_irrefl, gt_iff_lt, if_false, parsedPrefix,
      List.append_nil]
  | succ k ih =>
    simp only [parsesAll, Bool.and_eq_true, decide_eq_true_eq] at h
    obtain ⟨hpos, hrest⟩ := h
    rw [show k + 1 + 1 + extra = (k + 1 + extra) + 1 by omega]
    cases hp : TryParseMeasurement buffer offset length with
    | none => simp [hp] at hrest
    | some r =>
      obtain ⟨parsed, offset', length'⟩ := r
      simp only [hp] at hrest
      simp only [parseMeasurementsLoop, hpos, if_true, hp, parsedPrefix]
      rw [ih offset' length' _ hrest]
      simp

/-- With the new-measurements callback registered and a packet that the parser
consumes in `k` measurements, the dispatcher ends and calls that callback once,
with the `k` measurements in wire order. -/
theorem NewMeasurementsDispatcher_parsesAll (K : Constants) (parser : CompactMeasurementParser)
    (source : DataSubscriber) (data : List Byte) (k extra : Nat)
    (hnew : source.m_newMeasurementsCallback = true)
    (hall : parsesAll
      (parser source.m_signalIndexCache source.m_baseTimeOffsets
        source.m_currentSubscription.IncludeTime
        source.m_currentSubscription.UseMillisecondResolution)
      data k (measurementsOffset K data) (measurementsLength K data) = true) :
    NewMeasurementsDispatcher K parser (k + 1 + extra) source data
      = some ({ source with
            m_totalMeasurementsReceived :=
              source.m_totalMeasurementsReceived + readBigEndianInt32 (data.drop 1) },
          [.newMeasurements (parsedPrefix
            (parser source.m_signalIndexCache source.m_baseTimeOffsets
              source.m_currentSubscription.IncludeTime
              source.m_currentSubscription.UseMillisecondResolution)
            data k (measurementsOffset K data) (measurementsLength K data))]) := by
  cases source
  simp only [] at hnew hall
  subst hnew
  unfold NewMeasurementsDispatcher
  simp only [if_true]
  rw [show (if decide ((data.getD 0 0).val &&& K.Synchronized.val ≠ 0) = true
        then 1 + 4 + 8 else 1 + 4) = measurementsOffset K data by
      simp only [measurementsOffset, decide_eq_true_eq],
    show (data.length + 2 ^ 64 - measurementsOffset K data) % 2 ^ 64
      = measurementsLength K data from rfl,
    parseMeasurementsLoop_parsesAll _ _ _ _ k extra _ _ _ hall]
  simp only [List.nil_append, List.not_mem_nil, if_false]

/-- With the new-measurements callback registered and a packet on which the
parser succeeds `k` times and then fails, what the dispatcher does depends on
the error callback: registered, it is called and the `k` measurements are
handed over; unregistered, the call through the empty slot is all that
happens. -/
theorem NewMeasurementsDispatcher_failsAfter (K : Constants) (parser : CompactMeasurementParser)
    (source : DataSubscriber) (data : List Byte) (k extra : Nat)
    (hnew : source.m_newMeasurementsCallback = true)
    (hfail : failsAfter
      (parser source.m_signalIndexCache source.m_baseTimeOffsets
        source.m_currentSubscription.IncludeTime
        source.m_currentSubscription.UseMillisecondResolution)
      data k (measurementsOffset K data) (measurementsLength K data) = true) :
    (NewMeasurementsDispatcher K parser (k + 1 + extra) source data).map Prod.snd
      = some (if source.m_errorMessageCallback then
          [.errorMessage (lit "Error parsing measurement"),
            .newMeasurements (parsedPrefix
              (parser source.m_signalIndexCache source.m_baseTimeOffsets
                source.m_currentSubscription.IncludeTime
                source.m_currentSubscription.UseMillisecondResolution)
              data k (measurementsOffset K data) (measurementsLength K data))]
        else [.nullCallback]) := by
  cases source
  simp only [] at hnew hfail
  subst hnew
  unfold NewMeasurementsDispatcher
  simp only [if_true]
  rw [show (if decide ((data.getD 0 0).val &&& K.Synchronized.val ≠ 0) = true
        then 1 + 4 + 8 else 1 + 4) = measurementsOffset K data by
      simp only [measurementsOffset, decide_eq_true_eq],
    show (data.length + 2 ^ 64 - measurementsOffset K data) % 2 ^ 64
      = measurementsLength K data from rfl,
    parseMeasurementsLoop_failsAfter _ _ _ _ k extra _ _ _ hfail]
  simp only [callErrorMessageCallback, List.nil_append, List.mem_singleton]
  split <;> simp

/-- With no new-measurements callback registered the dispatcher calls no
callback, whatever the packet. -/
theorem NewMeasurementsDispatcher_unregistered (K : Constants) (parser : CompactMeasurementParser)
    (fuel : Nat) (source : DataSubscriber) (data : List Byte)
    (hnew : source.m_newMeasurementsCallback = false) :
    (NewMeasurementsDispatcher K parser fuel source data).map Prod.snd = some [] := by
  cases source
  simp only [] at hnew
  subst hnew
  simp [NewMeasurementsDispatcher]

/-- C22 (defect of the code): on the packet with two whole measurements
(timestamps 7 and 9) and three stray bytes, received by a subscriber whose
new-measurements callback is registered and whose error callback is not, the
third parse fails, the dispatcher calls through the empty error-callback slot
and the new-measurements callback is not invoked at all, so the two parsed
measurements are not delivered; with the error callback registered the same
packet delivers them. -/
theorem parsed_prefix_lost_without_error_callback :
    measurementsOnlySubscriber.m_newMeasurementsCallback = true ∧
    measurementsOnlySubscriber.m_errorMessageCallback = false ∧
    failsAfter
      (timestampOnlyParser measurementsOnlySubscriber.m_signalIndexCache
        measurementsOnlySubscriber.m_baseTimeOffsets
        measurementsOnlySubscriber.m_currentSubscription.IncludeTime
        measurementsOnlySubscriber.m_currentSubscription.UseMillisecondResolution)
      truncatedPacket 2 (measurementsOffset scenarioConstants truncatedPacket)
      (measurementsLength scenarioConstants truncatedPacket) = true ∧
    parsedPrefix
      (timestampOnlyParser measurementsOnlySubscriber.m_signalIndexCache
        measurementsOnlySubscriber.m_baseTimeOffsets
        measurementsOnlySubscriber.m_currentSubscription.IncludeTime
        measurementsOnlySubscriber.m_currentSubscription.UseMillisecondResolution)
      truncatedPacket 2 (measurementsOffset scenarioConstants truncatedPacket)
      (measurementsLength scenarioConstants truncatedPacket)
      = [⟨[], 7, ⟨0⟩, 0⟩, ⟨[], 9, ⟨0⟩, 0⟩] ∧
    (NewMeasurementsDispatcher scenarioConstants timestampOnlyParser 3
        measurementsOnlySubscriber truncatedPacket).map Prod.snd
      = some [.nullCallback] ∧
    (NewMeasurementsDispatcher scenarioConstants timestampOnlyParser 3
        { measurementsOnlySubscriber with m_errorMessageCallback := true }
        truncatedPacket).map Prod.snd
      = some [.errorMessage (lit "Error parsing measurement"),
          .newMeasurements [⟨[], 7, ⟨0⟩, 0⟩, ⟨[], 9, ⟨0⟩, 0⟩]] := by
  decide

/-! ## Callbacks and their registration -/

theorem Disconnect_connectionTerminatedCallback (s : DataSubscriber) :
    (Disconnect s).m_connectionTerminatedCallback = s.m_connectionTerminatedCallback :=
  rfl

/-- C23 (defect of the code): the status, error, data-start-time, metadata,
processing-complete and connection-terminated dispatchers call their callback
exactly when its slot holds one, and NewMeasurementsDispatcher calls no
callback when the new-measurements slot is empty; but on a packet whose first
measurement does not parse, received by a subscriber whose new-measurements
callback is registered and whose error callback is not, NewMeasurementsDispatcher
calls the error callback through its empty slot. -/
theorem error_callback_called_while_unregistered :
    (∀ (source : DataSubscriber) (data : List Byte),
      StatusMessageDispatcher source data
        = if source.m_statusMessageCallback then [.statusMessage data] else []) ∧
    (∀ (source : DataSubscriber) (data : List Byte),
      ErrorMessageDispatcher source data
        = if source.m_errorMessageCallback then [.errorMessage data] else []) ∧
    (∀ (source : DataSubscriber) (data : List Byte),
      DataStartTimeDispatcher source data
        = if source.m_dataStartTimeCallback then [.dataStartTime (readBigEndianInt64 data)]
          else []) ∧
    (∀ (source : DataSubscriber) (data : List Byte),
      MetadataDispatcher source data
        = if source.m_metadataCallback then [.metadata data] else []) ∧
    (∀ (source : DataSubscriber) (data : List Byte),
      ProcessingCompleteDispatcher source data
        = if source.m_processingCompleteCallback then [.processingComplete data] else []) ∧
    (∀ (s : DataSubscriber),
      (ConnectionTerminatedDispatcher s).2
        = if s.m_connectionTerminatedCallback then [.connectionTerminated] else []) ∧
    (∀ (K : Constants) (parser : CompactMeasurementParser) (fuel : Nat) (source : DataSubscriber)
        (data : List Byte),
      (NewMeasurementsDispatcher K parser fuel
          { source with m_newMeasurementsCallback := false } data).map Prod.snd = some []) ∧
    measurementsOnlySubscriber.m_errorMessageCallback = false ∧
    (NewMeasurementsDispatcher scenarioConstants timestampOnlyParser 1
        measurementsOnlySubscriber unparsablePacket).map Prod.snd
      = some [.nullCallback] := by
  refine ⟨?_, ?_, ?_, ?_, ?_, ?_, ?_, rfl, by decide⟩
  · intro source data
    simp only [StatusMessageDispatcher, load_length_self]
  · intro source data
    simp only [ErrorMessageDispatcher, load_length_self]
  · intro source data
    rfl
  · intro source data
    rfl
  · intro source data
    simp only [ProcessingCompleteDispatcher, Nat.div_one, load_length_self]
  · intro s
    simp only [ConnectionTerminatedDispatcher, Disconnect_connectionTerminatedCallback]
  · intro K parser fuel source data
    exact NewMeasurementsDispatcher_unregistered K parser fuel _ data rfl

end Transport
end TimeSeriesFramework
